import Mathlib

/-!
# The sanitisers, the request handlers and the push dispatchers

A shallow embedding of `sanitizeProfilePayload` (server.js, lines 87-188), of
`sanitizeScheduledJobPayload` (lines 190-233), of the request handlers that
use the data store (lines 241-296 and 596-1498), of the body parser and the
error-handling middleware around them (lines 45 and 1501-1507) and of the two
push services (`src/pushNotificationService.js`,
`src/oneSignalPushService.js`), followed by the properties proved about them.

## Modelling conventions

* A JavaScript string is its sequence of UTF-16 code units (`JsString`); `js`
  turns a Lean string literal into that sequence.
* `JsValue` holds the values a decoded JSON body can contain, plus `undefined`
  and the non-finite numbers.  The entries of `JsValue.object` are listed in
  the order in which `Object.entries` enumerates them.
* A JavaScript exception is the `Except.error` result; so is the rejection of
  the promise of an `async` method.
* A number is a binary64 value; `*`, `+` and `-` round the exact result to the
  nearest value, ties to even.
* `Number::toString` of ECMAScript is not re-implemented: the sanitisers take it
  as the parameter `numberToString`, and the handlers take it, with the other
  built-in conversions, the clock and the base64 decoder, from a `Host`.
* An external collaborator is a function from the call made to its outcome; a
  handler yields the response sent and the list of the calls made, and a method
  of a push service yields its result and the list of the requests made.
-/

namespace Dandee

/-! ## JavaScript values -/

/-- A JavaScript string: the list of its UTF-16 code units. -/
abbrev JsString := List Nat

/-- The UTF-16 code units of one Unicode scalar value. -/
def utf16Units (c : Char) : List Nat :=
  if c.toNat < 0x10000 then [c.toNat]
  else [0xD800 + (c.toNat - 0x10000) / 0x400, 0xDC00 + (c.toNat - 0x10000) % 0x400]

/-- The JavaScript string written by a Lean string literal. -/
def js (s : String) : JsString :=
  (s.data.map utf16Units).flatten

/-- A JavaScript number: a finite double `(-1)^negative * mantissa * 2^exponent`,
an infinity, or NaN. -/
inductive JsNumber where
  | finite (negative : Bool) (mantissa : Nat) (exponent : Int)
  | infinity (negative : Bool)
  | nan
  deriving DecidableEq, Repr

/-- The JavaScript values of the model. -/
inductive JsValue where
  | undefined
  | null
  | bool (b : Bool)
  | number (n : JsNumber)
  | string (s : JsString)
  | array (items : List JsValue)
  | object (entries : List (JsString × JsValue))

/-- The exceptions of the model. -/
inductive JsError where
  | typeError
  deriving DecidableEq, Repr

/-- A plain object under construction: its own properties in insertion order. -/
abbrev JsObject := List (JsString × JsValue)

/-- The keys of an object, in enumeration order (`Object.keys`). -/
def objectKeys (o : JsObject) : List JsString :=
  o.map Prod.fst

/-- Property read `o[key]`: `none` when `key` is not an own property. -/
def JsObject.get : JsObject → JsString → Option JsValue
  | [], _ => none
  | (k, v) :: rest, key => if k = key then some v else JsObject.get rest key

/-- Property write `o[key] = value`: an existing key keeps its position, a new
key is appended. -/
def JsObject.set : JsObject → JsString → JsValue → JsObject
  | [], key, value => [(key, value)]
  | (k, v) :: rest, key, value =>
      if k = key then (k, value) :: rest else (k, v) :: JsObject.set rest key value

/-- `Number.isNaN` on a number. -/
def JsNumber.isNaN : JsNumber → Bool
  | .nan => true
  | _ => false

/-- `Number.isFinite` on a number. -/
def JsNumber.isFinite : JsNumber → Bool
  | .finite _ _ _ => true
  | _ => false

/-- ECMAScript `ToBoolean`. -/
def JsValue.truthy : JsValue → Bool
  | .undefined => false
  | .null => false
  | .bool b => b
  | .number (.finite _ mantissa _) => mantissa != 0
  | .number (.infinity _) => true
  | .number .nan => false
  | .string s => !s.isEmpty
  | .array _ => true
  | .object _ => true

/-- The code units removed by `String.prototype.trim`: ECMAScript WhiteSpace
and LineTerminator. -/
def isWhiteSpace (u : Nat) : Bool :=
  u == 0x0009 || u == 0x000A || u == 0x000B || u == 0x000C || u == 0x000D ||
  u == 0x0020 || u == 0x00A0 || u == 0x1680 || (0x2000 ≤ u && u ≤ 0x200A) ||
  u == 0x2028 || u == 0x2029 || u == 0x202F || u == 0x205F || u == 0x3000 ||
  u == 0xFEFF

/-- `String.prototype.trim`. -/
def trim (s : JsString) : JsString :=
  (s.dropWhile isWhiteSpace).rdropWhile isWhiteSpace

/-- `String.prototype.startsWith`. -/
def startsWith (s search : JsString) : Bool :=
  search.isPrefixOf s

mutual
/-- `String(value)`, that is ECMAScript `ToString`.  An object of the model has
`Object.prototype` as prototype and only data properties, none callable: when
it has an own `toString` property, `OrdinaryToPrimitive` finds no callable
`toString`, and `valueOf` (own, or `Object.prototype.valueOf`) yields no
primitive, so a TypeError is thrown; otherwise `Object.prototype.toString`
answers `[object Object]`.  An array is stringified by `Array.prototype.join`. -/
def JsValue.toJsString (numberToString : JsNumber → JsString) :
    JsValue → Except JsError JsString
  | .undefined => .ok (js "undefined")
  | .null => .ok (js "null")
  | .bool true => .ok (js "true")
  | .bool false => .ok (js "false")
  | .number n => .ok (numberToString n)
  | .string s => .ok s
  | .array items => JsValue.joinItems numberToString items
  | .object entries =>
      if (entries.map Prod.fst).contains (js "toString") then .error .typeError
      else .ok (js "[object Object]")
termination_by structural v => v
/-- `Array.prototype.join` with the separator `,`: `undefined` and `null`
elements give the empty string, the others go through `ToString`, from left to
right. -/
def JsValue.joinItems (numberToString : JsNumber → JsString) :
    List JsValue → Except JsError JsString
  | [] => .ok []
  | x :: rest =>
      match (match x with
        | .undefined => Except.ok []
        | .null => Except.ok []
        | v => JsValue.toJsString numberToString v),
        JsValue.joinItems numberToString rest with
      | .error e, _ => .error e
      | .ok _, .error e => .error e
      | .ok a, .ok b => .ok (if rest.isEmpty then a else a ++ js "," ++ b)
termination_by structural l => l
end

/-- The entries `[index, element]` of an array-like value, from `start` on. -/
def indexedEntries (mk : α → JsValue) : Nat → List α → List (JsString × JsValue)
  | _, [] => []
  | start, x :: rest => (js (toString start), mk x) :: indexedEntries mk (start + 1) rest

/-- `Object.entries(value)`: throws on `undefined` and `null`; a boolean or a
number has no own enumerable property; a string has one per code unit. -/
def objectEntries : JsValue → Except JsError (List (JsString × JsValue))
  | .undefined => .error .typeError
  | .null => .error .typeError
  | .bool _ => .ok []
  | .number _ => .ok []
  | .string s => .ok (indexedEntries (fun u => JsValue.string [u]) 0 s)
  | .array items => .ok (indexedEntries id 0 items)
  | .object entries => .ok entries

/-- The expression `value || {}`. -/
def JsValue.orEmptyObject (value : JsValue) : JsValue :=
  if value.truthy then value else .object []

/-- `Array.prototype.forEach` over the entries, with a callback that updates
the object built so far; an exception of the callback ends the loop. -/
def forEachEntry (callback : JsObject → JsString → JsValue → Except JsError JsObject) :
    List (JsString × JsValue) → JsObject → Except JsError JsObject
  | [], sanitized => .ok sanitized
  | (key, value) :: rest, sanitized =>
      match callback sanitized key value with
      | .ok sanitized' => forEachEntry callback rest sanitized'
      | .error e => .error e

/-! ## `sanitizeProfilePayload` -/

/-- The set `customerAllowedFields` (server.js, lines 88-106). -/
def customerAllowedFields : List JsString :=
  [js "id", js "first_name", js "last_name", js "phone", js "address", js "city",
   js "state", js "zip_code", js "bio", js "profile_photo", js "email_notifications",
   js "sms_notifications", js "preferred_contact_method", js "home_type", js "home_age",
   js "latitude", js "longitude"]

/-- The set `contractorAllowedFields` (server.js, lines 108-136). -/
def contractorAllowedFields : List JsString :=
  [js "id", js "first_name", js "last_name", js "business_name", js "phone",
   js "business_email", js "license_number", js "address", js "city", js "state",
   js "zip_code", js "specialties", js "years_experience", js "email_notifications",
   js "sms_notifications", js "bio", js "profile_photo", js "preferred_contact_method",
   js "service_radius", js "business_type", js "tax_id", js "w9_on_file",
   js "insurance_provider", js "insurance_policy_number", js "stripe_connect_account_id",
   js "latitude", js "longitude"]

/-- The array `addressFields` (server.js, line 165). -/
def addressFields : List JsString :=
  [js "address", js "city", js "state", js "zip_code"]

/-- The choice `profileType === 'contractor' ? contractorAllowedFields :
customerAllowedFields` (server.js, lines 138-139); an `undefined` profile type
is first replaced by the default `'customer'`, which selects the same list. -/
def allowedFieldsFor : JsValue → List JsString
  | .string s => if s = js "contractor" then contractorAllowedFields else customerAllowedFields
  | _ => customerAllowedFields

/-- The `forEach` callback of `sanitizeProfilePayload` (server.js, lines 143-185). -/
def sanitizeProfileEntry (numberToString : JsNumber → JsString)
    (allowedFields : List JsString) (sanitized : JsObject) (key : JsString)
    (value : JsValue) : Except JsError JsObject :=
  if !allowedFields.contains key then .ok sanitized
  else if key = js "id" then
    match value with
    | .string s =>
        if value.truthy && !startsWith s (js "temp-") then .ok (sanitized.set (js "id") value)
        else .ok sanitized
    | _ => .ok sanitized
  else if key = js "latitude" ∨ key = js "longitude" then
    match value with
    | .number n =>
        if !n.isNaN && n.isFinite then .ok (sanitized.set key value) else .ok sanitized
    | _ => .ok sanitized
  else if addressFields.contains key then
    match value with
    | .undefined => .ok (sanitized.set key .null)
    | .null => .ok (sanitized.set key .null)
    | _ =>
        match value.toJsString numberToString with
        | .ok s => .ok (sanitized.set key (.string (trim s)))
        | .error e => .error e
  else
    match value with
    | .undefined => .ok sanitized
    | .null => .ok sanitized
    | .string s =>
        let trimmed := trim s
        if trimmed.isEmpty then .ok sanitized else .ok (sanitized.set key (.string trimmed))
    | _ => .ok (sanitized.set key value)

/-- The function `sanitizeProfilePayload(profile = {}, profileType = 'customer', userId)`
(server.js, lines 87-188).  The default `{}` of an `undefined` profile is what
`profile || {}` yields as well. -/
def sanitizeProfilePayload (numberToString : JsNumber → JsString)
    (profile profileType userId : JsValue) : Except JsError JsObject :=
  let allowedFields := allowedFieldsFor profileType
  let sanitized : JsObject := [(js "user_id", userId)]
  match objectEntries profile.orEmptyObject with
  | .ok entries =>
      forEachEntry (sanitizeProfileEntry numberToString allowedFields) entries sanitized
  | .error e => .error e

/-! ## `sanitizeScheduledJobPayload` -/

/-- The set `allowedFields` of `sanitizeScheduledJobPayload` (server.js, lines 191-207). -/
def scheduledJobAllowedFields : List JsString :=
  [js "id", js "quote_id", js "contractor_id", js "job_request_id", js "title",
   js "job_date", js "start_time", js "end_time", js "status", js "location",
   js "job_value", js "notes", js "client_name", js "client_email", js "client_phone"]

/-- The `forEach` callback of `sanitizeScheduledJobPayload` (server.js, lines 211-230). -/
def sanitizeScheduledJobEntry (sanitized : JsObject) (key : JsString) (value : JsValue) :
    Except JsError JsObject :=
  if !scheduledJobAllowedFields.contains key then .ok sanitized
  else
    match value with
    | .undefined => .ok sanitized
    | .null => .ok sanitized
    | .string s =>
        let trimmed := trim s
        if trimmed.isEmpty then .ok sanitized else .ok (sanitized.set key (.string trimmed))
    | _ => .ok (sanitized.set key value)

/-- The function `sanitizeScheduledJobPayload(payload = {})` (server.js, lines 190-233). -/
def sanitizeScheduledJobPayload (payload : JsValue) : Except JsError JsObject :=
  match objectEntries payload.orEmptyObject with
  | .ok entries => forEachEntry sanitizeScheduledJobEntry entries []
  | .error e => .error e

/-! ## Callbacks as writes

Each callback either writes one value under the entry's key, leaves the object
as it is, or throws; `writeEntry` rebuilds a callback from that description, and
`sanitizeProfileEntry_eq_writeEntry` and `sanitizeScheduledJobEntry_eq_writeEntry`
show that the two callbacks of the source are of this form. -/

/-- What a sanitising callback does with one entry: it writes a value under
the entry's key (`some`), leaves the object as it is (`none`), or throws. -/
def writeEntry (write : JsString → JsValue → Except JsError (Option JsValue))
    (sanitized : JsObject) (key : JsString) (value : JsValue) : Except JsError JsObject :=
  match write key value with
  | .ok none => .ok sanitized
  | .ok (some x) => .ok (sanitized.set key x)
  | .error e => .error e

/-- The write that the callback of `sanitizeProfilePayload` performs for one
entry, read off `sanitizeProfileEntry` branch by branch. -/
def profileEntryWrite (numberToString : JsNumber → JsString) (allowedFields : List JsString)
    (key : JsString) (value : JsValue) : Except JsError (Option JsValue) :=
  if !allowedFields.contains key then .ok none
  else if key = js "id" then
    match value with
    | .string s => if value.truthy && !startsWith s (js "temp-") then .ok (some value) else .ok none
    | _ => .ok none
  else if key = js "latitude" ∨ key = js "longitude" then
    match value with
    | .number n => if !n.isNaN && n.isFinite then .ok (some value) else .ok none
    | _ => .ok none
  else if addressFields.contains key then
    match value with
    | .undefined => .ok (some .null)
    | .null => .ok (some .null)
    | _ =>
        match value.toJsString numberToString with
        | .ok s => .ok (some (.string (trim s)))
        | .error e => .error e
  else
    match value with
    | .undefined => .ok none
    | .null => .ok none
    | .string s => if (trim s).isEmpty then .ok none else .ok (some (.string (trim s)))
    | _ => .ok (some value)

/-- The write that the callback of `sanitizeScheduledJobPayload` performs for
one entry, read off `sanitizeScheduledJobEntry`. -/
def scheduledJobEntryWrite (key : JsString) (value : JsValue) :
    Except JsError (Option JsValue) :=
  if !scheduledJobAllowedFields.contains key then .ok none
  else
    match value with
    | .undefined => .ok none
    | .null => .ok none
    | .string s => if (trim s).isEmpty then .ok none else .ok (some (.string (trim s)))
    | _ => .ok (some value)

/-! ## Vocabulary of the fully-invalid payload -/

/-- A value that is null, undefined or a string whose trimmed form is empty. -/
def isBlank : JsValue → Bool
  | .undefined => true
  | .null => true
  | .string s => (trim s).isEmpty
  | _ => false

/-- A value that is a non-empty string not starting with 'temp-'. -/
def isPersistableId : JsValue → Bool
  | .string s => !s.isEmpty && !startsWith s (js "temp-")
  | _ => false

/-- A value that is a finite number. -/
def isFiniteNumber : JsValue → Bool
  | .number (.finite _ _ _) => true
  | _ => false

/-- An invalid entry in the words of claim C8: its key is outside the
allow-list, or it is an `id` that is not a non-empty string or starts with
'temp-', or a latitude/longitude that is not a finite number, or a non-address
field whose value is null, undefined or a whitespace-only string. -/
def invalidEntryAsClaimed (allowedFields : List JsString) (e : JsString × JsValue) : Prop :=
  e.1 ∉ allowedFields ∨
  (e.1 = js "id" ∧ isPersistableId e.2 = false) ∨
  ((e.1 = js "latitude" ∨ e.1 = js "longitude") ∧ isFiniteNumber e.2 = false) ∨
  (e.1 ∉ addressFields ∧ isBlank e.2 = true)

/-- An invalid entry, as amended: the last case of `invalidEntryAsClaimed` is
restricted to the fields other than `id`. -/
def invalidEntry (allowedFields : List JsString) (e : JsString × JsValue) : Prop :=
  e.1 ∉ allowedFields ∨
  (e.1 = js "id" ∧ isPersistableId e.2 = false) ∨
  ((e.1 = js "latitude" ∨ e.1 = js "longitude") ∧ isFiniteNumber e.2 = false) ∨
  (e.1 ∉ addressFields ∧ e.1 ≠ js "id" ∧ isBlank e.2 = true)

/-! ## More of JavaScript: property reads, operators, numbers -/

/-- Property read `value.key` for a key that no prototype defines (every key
read by the handlers is such a key): the own property of an object, and
`undefined` otherwise.  On `undefined` and `null` the read itself throws, see
`JsValue.member`; `value?.key` is this function. -/
def JsValue.prop : JsValue → JsString → JsValue
  | .object entries, key => (JsObject.get entries key).getD .undefined
  | _, _ => .undefined

/-- Property read `value.key`, which throws a TypeError on `undefined` and `null`. -/
def JsValue.member : JsValue → JsString → Except JsError JsValue
  | .undefined, _ => .error .typeError
  | .null, _ => .error .typeError
  | value, key => .ok (value.prop key)

/-- Property read `o.key` on an object under construction. -/
def JsObject.read (o : JsObject) (key : JsString) : JsValue :=
  (o.get key).getD .undefined

/-- The expression `a || b`. -/
def JsValue.or (a b : JsValue) : JsValue :=
  if a.truthy then a else b

/-- The expression `a ?? b`. -/
def JsValue.nullish : JsValue → JsValue → JsValue
  | .undefined, b => b
  | .null, b => b
  | a, _ => a

/-- A destructuring default `{ key = fallback }`: it replaces `undefined` only. -/
def JsValue.defaultTo : JsValue → JsValue → JsValue
  | .undefined, fallback => fallback
  | given, _ => given

/-- The test `typeof value === 'object'`, true of objects, arrays and `null`. -/
def JsValue.typeofObject : JsValue → Bool
  | .null => true
  | .array _ => true
  | .object _ => true
  | _ => false

/-- The test `typeof value === 'string'`. -/
def JsValue.typeofString : JsValue → Bool
  | .string _ => true
  | _ => false

/-- The test `value === 'literal'`. -/
def JsValue.strictEqualsString : JsValue → JsString → Bool
  | .string s, literal => s == literal
  | _, _ => false

/-- The method `Set.prototype.has` of a set of strings: only a string that is
an element is found. -/
def setHas (elements : List JsString) : JsValue → Bool
  | .string s => elements.contains s
  | _ => false

/-- The guard `value && typeof value === 'object' && Object.keys(value).length > 0`
(server.js, lines 632 and 649): a non-empty object or array. -/
def JsValue.isNonEmptyObject : JsValue → Bool
  | .array items => !items.isEmpty
  | .object entries => !entries.isEmpty
  | _ => false

/-- The number of binary digits of a natural number. -/
def bitLengthAux : Nat → Nat → Nat
  | 0, _ => 0
  | fuel + 1, n => if n = 0 then 0 else bitLengthAux fuel (n / 2) + 1

/-- The number of binary digits of `n`: `0` for `0`, and `k + 1` when
`2 ^ k ≤ n < 2 ^ (k + 1)`. -/
def bitLength (n : Nat) : Nat :=
  bitLengthAux n n

/-- The integer `d` with `2 ^ d ≤ p / q < 2 ^ (d + 1)`, for positive `p` and `q`. -/
def floorLog2Ratio (p q : Nat) : Int :=
  let d : Int := (bitLength p : Int) - (bitLength q : Int)
  if (if 0 ≤ d then q * 2 ^ d.toNat ≤ p else q ≤ p * 2 ^ (-d).toNat) then d else d - 1

/-- The IEEE 754 binary64 value nearest to the rational `p / q` (`q` positive),
ties to even, with the given sign: the mantissa has at most 53 bits, the
exponent of the last place is at least -1074 (subnormal range) and at most 971,
above which the result is an infinity.  The result is in canonical form, with
exponent 0 for a zero. -/
def roundRatio (negative : Bool) (p q : Nat) : JsNumber :=
  if p = 0 then .finite negative 0 0
  else
    let e : Int := max (floorLog2Ratio p q - 52) (-1074)
    let num := if e < 0 then p * 2 ^ (-e).toNat else p
    let den := if e < 0 then q else q * 2 ^ e.toNat
    let m0 := num / den
    let r := num % den
    let m := if den < 2 * r ∨ (2 * r = den ∧ m0 % 2 = 1) then m0 + 1 else m0
    if m = 0 then .finite negative 0 0
    else if m = 2 ^ 53 then
      (if 971 < e + 1 then .infinity negative else .finite negative (2 ^ 52) (e + 1))
    else if 971 < e then .infinity negative
    else .finite negative m e

/-- The binary64 value nearest to `m * 2 ^ e`. -/
def roundScaled (negative : Bool) (m : Nat) (e : Int) : JsNumber :=
  if 0 ≤ e then roundRatio negative (m * 2 ^ e.toNat) 1
  else roundRatio negative m (2 ^ (-e).toNat)

/-- The operator `*` on numbers (ECMAScript `Number::multiply`): the exact
product, rounded. -/
def JsNumber.mul : JsNumber → JsNumber → JsNumber
  | .nan, _ => .nan
  | _, .nan => .nan
  | .infinity s1, .infinity s2 => .infinity (xor s1 s2)
  | .infinity s1, .finite s2 m _ => if m = 0 then .nan else .infinity (xor s1 s2)
  | .finite s1 m _, .infinity s2 => if m = 0 then .nan else .infinity (xor s1 s2)
  | .finite s1 m1 e1, .finite s2 m2 e2 => roundScaled (xor s1 s2) (m1 * m2) (e1 + e2)

/-- The operator `+` on numbers (ECMAScript `Number::add`): the exact sum,
rounded; an exact zero sum is negative only when both operands are. -/
def JsNumber.add : JsNumber → JsNumber → JsNumber
  | .nan, _ => .nan
  | _, .nan => .nan
  | .infinity s1, .infinity s2 => if s1 = s2 then .infinity s1 else .nan
  | .infinity s1, .finite _ _ _ => .infinity s1
  | .finite _ _ _, .infinity s2 => .infinity s2
  | .finite s1 m1 e1, .finite s2 m2 e2 =>
      let e := min e1 e2
      let a : Int := (if s1 then -1 else 1) * (m1 * 2 ^ (e1 - e).toNat : Nat)
      let b : Int := (if s2 then -1 else 1) * (m2 * 2 ^ (e2 - e).toNat : Nat)
      let sum := a + b
      if sum = 0 then .finite (s1 && s2) 0 0
      else roundScaled (decide (sum < 0)) sum.natAbs e

/-- Unary minus on numbers. -/
def JsNumber.neg : JsNumber → JsNumber
  | .finite s m e => .finite (!s) m e
  | .infinity s => .infinity (!s)
  | .nan => .nan

/-- The operator `-` on numbers (ECMAScript `Number::subtract`). -/
def JsNumber.sub (a b : JsNumber) : JsNumber :=
  a.add b.neg

/-- The number denoted by a decimal literal `digits / 10 ^ decimals`, such as
`0.029` = `decimalLiteral 29 3`. -/
def decimalLiteral (digits decimals : Nat) : JsNumber :=
  roundRatio false digits (10 ^ decimals)

/-- The decimal string of a non-negative integer below 10^21, as a template
literal or `String` prints it. -/
def decimalString (n : Nat) : JsString :=
  js (toString n)

/-- What the handlers take from the host: the built-in conversions that are not
re-implemented, the clock and the base64 decoder of `Buffer.from`. -/
structure Host where
  /-- The built-in `Number::toString`. -/
  numberToString : JsNumber → JsString
  /-- The built-in `StringToNumber`, the value of `Number(string)`. -/
  stringToNumber : JsString → JsNumber
  /-- The built-in `parseInt(value)`. -/
  parseInt : JsValue → JsNumber
  /-- The value of `Date.now()`, in milliseconds. -/
  now : Nat
  /-- The value of `new Date().toISOString()`. -/
  isoString : JsString
  /-- The bytes of `Buffer.from(text, 'base64')`. -/
  base64Decode : JsString → List Nat
  /-- The `message` of a caught exception, whose text the engine chooses. -/
  errorMessage : JsError → JsValue

/-- ECMAScript `ToNumber`.  An object or array is first converted to a
primitive with hint number: `valueOf` yields no primitive, so the conversion
is that of `String(value)`. -/
def JsValue.toNumber (host : Host) : JsValue → Except JsError JsNumber
  | .undefined => .ok .nan
  | .null => .ok (.finite false 0 0)
  | .bool true => .ok (.finite false 1 0)
  | .bool false => .ok (.finite false 0 0)
  | .number n => .ok n
  | .string s => .ok (host.stringToNumber s)
  | value =>
      match value.toJsString host.numberToString with
      | .ok s => .ok (host.stringToNumber s)
      | .error e => .error e

/-! ## Requests, responses and the external collaborators

A handler is a function of the data-store client (`none` when it was never
initialised), of the request and of the behaviour of the collaborator; it
yields the response sent and the list of the collaborator calls made, in order. -/

/-- A string value written by a literal. -/
def text (s : String) : JsValue :=
  .string (js s)

/-- A response `res.status(status).json(body)`; `res.json(body)` has status 200. -/
structure Response where
  status : Nat
  body : JsValue

/-- A call to the data store, to its auth administration or to its object storage. -/
inductive Call where
  | updateUserById (userId : JsValue) (userMetadata : JsValue)
  | upsert (table : JsString) (row : JsObject) (onConflict : JsString)
  | insert (table : JsString) (row : JsObject)
  | update (table : JsString) (changes : JsObject) (column : JsString) (value : JsValue)
  | selectSingle (table columns column : JsString) (value : JsValue)
  | selectList (table column : JsString) (value : JsValue) (limit : Option JsNumber)
  | upload (bucket path : JsString) (bytes : List Nat) (contentType : JsValue)
  | getPublicUrl (bucket : JsString) (path : JsValue)

/-- What an awaited collaborator call yields: `{ data, error: null }`, or
`{ data: null, error }` with the `code` and `message` of the error, or a
rejection, which the handler catches as an exception with that `message`. -/
inductive Outcome where
  | data (value : JsValue)
  | error (code : JsValue) (message : JsValue)
  | rejected (message : JsValue)

/-- The behaviour of the collaborator during one request. -/
abbrev Collaborator := Call → Outcome

/-- The result of a handler: the response and the calls made. -/
structure Handled where
  response : Response
  calls : List Call

/-- The response with an object body. -/
def json (status : Nat) (fields : List (String × JsValue)) : Response :=
  ⟨status, .object (fields.map fun f => (js f.1, f.2))⟩

/-- The guard answer of the handlers of lines 698-1208: 503 with details. -/
def notConfigured : Response :=
  json 503 [("error", text "Supabase admin client not configured"),
    ("details", text "Check SUPABASE_URL and SUPABASE_SERVICE_ROLE_KEY environment variables.")]

/-- The guard answer of the handlers that give no details: 503. -/
def notConfiguredShort : Response :=
  json 503 [("error", text "Supabase admin client not configured")]

/-! ### `GET /api/reviews/contractor/:contractorId`, `GET /api/payments/contractor/:contractorId` -/

/-- The handler of `GET /api/reviews/contractor/:contractorId` (server.js, lines 241-267). -/
def getReviewsContractor (supabaseAdmin : Option Collaborator) (contractorId : JsString) :
    Handled :=
  match supabaseAdmin with
  | none => ⟨json 503 [("error", text "Supabase not configured")], []⟩
  | some db =>
    let call := Call.selectList (js "reviews") (js "contractor_id") (.string contractorId) none
    match db call with
    | .error _ message => ⟨json 500 [("error", message)], [call]⟩
    | .rejected message => ⟨json 500 [("error", message)], [call]⟩
    | .data reviews => ⟨⟨200, reviews.or (.array [])⟩, [call]⟩

/-- The handler of `GET /api/payments/contractor/:contractorId` (server.js, lines 270-296). -/
def getPaymentsContractor (supabaseAdmin : Option Collaborator) (contractorId : JsString) :
    Handled :=
  match supabaseAdmin with
  | none => ⟨json 503 [("error", text "Supabase not configured")], []⟩
  | some db =>
    let call := Call.selectList (js "payments") (js "contractor_id") (.string contractorId) none
    match db call with
    | .error _ message => ⟨json 500 [("error", message)], [call]⟩
    | .rejected message => ⟨json 500 [("error", message)], [call]⟩
    | .data payments => ⟨⟨200, payments.or (.array [])⟩, [call]⟩

/-! ### `POST /api/onboarding/complete` -/

/-- The second half of the handler of `POST /api/onboarding/complete`
(server.js, lines 649-676), reached with the response body built so far and the
calls already made: the profile upsert. -/
def onboardingProfileStep (host : Host) (db : Collaborator)
    (profile profileType userId : JsValue) (responseBody : JsObject) (calls : List Call) :
    Handled :=
  if profile.isNonEmptyObject then
    match sanitizeProfilePayload host.numberToString profile profileType userId with
    | .error e =>
        ⟨json 500 [("error", text "Failed to complete onboarding"),
          ("details", host.errorMessage e)], calls⟩
    | .ok sanitizedProfile =>
        if 1 < (objectKeys sanitizedProfile).length then
          let tableName :=
            if profileType.strictEqualsString (js "contractor") then js "contractor_profiles"
            else js "customer_profiles"
          let call := Call.upsert tableName sanitizedProfile (js "user_id")
          match db call with
          | .error _ message =>
              ⟨json 500 [("error", text "Failed to upsert profile"), ("details", message)],
                calls ++ [call]⟩
          | .rejected message =>
              ⟨json 500 [("error", text "Failed to complete onboarding"),
                ("details", message)], calls ++ [call]⟩
          | .data profileData =>
              ⟨⟨200, .object ((responseBody.set (js "profileUpdated") (.bool true)).set
                (js "profileData") profileData)⟩, calls ++ [call]⟩
        else ⟨⟨200, .object responseBody⟩, calls⟩
  else ⟨⟨200, .object responseBody⟩, calls⟩

/-- The handler of `POST /api/onboarding/complete` (server.js, lines 596-696). -/
def postOnboardingComplete (host : Host) (supabaseAdmin : Option Collaborator)
    (body : JsValue) : Handled :=
  match supabaseAdmin with
  | none =>
      ⟨json 500 [("error", text "Supabase service role key not configured"),
        ("details", text "Set SUPABASE_URL and SUPABASE_SERVICE_ROLE_KEY in backend/.env")], []⟩
  | some db =>
    let userId := body.orEmptyObject.prop (js "userId")
    let metadata := body.orEmptyObject.prop (js "metadata")
    let profile := body.orEmptyObject.prop (js "profile")
    let profileType := (body.orEmptyObject.prop (js "profileType")).defaultTo (text "customer")
    if !userId.truthy then ⟨json 400 [("error", text "userId is required")], []⟩
    else
      let responseBody : JsObject :=
        [(js "success", .bool true), (js "metadataUpdated", .bool false),
          (js "profileUpdated", .bool false)]
      if metadata.isNonEmptyObject then
        let call := Call.updateUserById userId metadata
        match db call with
        | .error _ message =>
            ⟨json 500 [("error", text "Failed to update user metadata"), ("details", message)],
              [call]⟩
        | .rejected message =>
            ⟨json 500 [("error", text "Failed to complete onboarding"), ("details", message)],
              [call]⟩
        | .data data =>
            onboardingProfileStep host db profile profileType userId
              ((responseBody.set (js "metadataUpdated") (.bool true)).set
                (js "updatedUserMetadata")
                ((((data.prop (js "user")).prop (js "user_metadata"))).or metadata))
              [call]
      else onboardingProfileStep host db profile profileType userId responseBody []

/-! ### `POST` and `GET /api/contractors/profile`, `/api/customers/profile` -/

/-- The handler of `POST /api/contractors/profile` (server.js, lines 698-765). -/
def postContractorsProfile (host : Host) (supabaseAdmin : Option Collaborator)
    (body : JsValue) : Handled :=
  match supabaseAdmin with
  | none => ⟨notConfigured, []⟩
  | some db =>
    let userId := body.orEmptyObject.prop (js "userId")
    let profile := body.orEmptyObject.prop (js "profile")
    if !userId.truthy || !profile.truthy || !profile.typeofObject then
      ⟨json 400 [("error", text "Invalid request payload"),
        ("details", text "userId and profile are required")], []⟩
    else
      match sanitizeProfilePayload host.numberToString profile (text "contractor") userId with
      | .error e =>
          ⟨json 500 [("error", text "Unexpected error updating contractor profile"),
            ("details", host.errorMessage e)], []⟩
      | .ok sanitizedProfile =>
          if (objectKeys sanitizedProfile).length ≤ 1 then
            ⟨json 400 [("error", text "No valid contractor profile fields provided")], []⟩
          else
            let call := Call.upsert (js "contractor_profiles") sanitizedProfile (js "user_id")
            match db call with
            | .error _ message =>
                ⟨json 500 [("error", text "Failed to upsert contractor profile"),
                  ("details", message)], [call]⟩
            | .rejected message =>
                ⟨json 500 [("error", text "Unexpected error updating contractor profile"),
                  ("details", message)], [call]⟩
            | .data data => ⟨json 200 [("success", .bool true), ("profile", data)], [call]⟩

/-- The statement `if (!sanitizedProfile[key]) sanitizedProfile[key] = profile[key] || ''`
(server.js, lines 850-855). -/
def ensureRequired (profile : JsValue) (sanitizedProfile : JsObject) (key : JsString) :
    JsObject :=
  if !(sanitizedProfile.read key).truthy then
    sanitizedProfile.set key ((profile.prop key).or (text ""))
  else sanitizedProfile

/-- The handler of `POST /api/customers/profile` (server.js, lines 816-893). -/
def postCustomersProfile (host : Host) (supabaseAdmin : Option Collaborator)
    (body : JsValue) : Handled :=
  match supabaseAdmin with
  | none => ⟨notConfigured, []⟩
  | some db =>
    let userId := body.orEmptyObject.prop (js "userId")
    let profile := body.orEmptyObject.prop (js "profile")
    if !userId.truthy || !profile.truthy || !profile.typeofObject then
      ⟨json 400 [("error", text "Invalid request payload"),
        ("details", text "userId and profile are required")], []⟩
    else
      match sanitizeProfilePayload host.numberToString profile (text "customer") userId with
      | .error e =>
          ⟨json 500 [("error", text "Unexpected error updating customer profile"),
            ("details", host.errorMessage e)], []⟩
      | .ok sanitizedProfile =>
          if (objectKeys sanitizedProfile).length ≤ 1 then
            ⟨json 400 [("error", text "No valid customer profile fields provided")], []⟩
          else
            let row := ensureRequired profile
              (ensureRequired profile sanitizedProfile (js "first_name")) (js "last_name")
            let call := Call.upsert (js "customer_profiles") row (js "user_id")
            match db call with
            | .error _ message =>
                ⟨json 500 [("error", text "Failed to upsert customer profile"),
                  ("details", message)], [call]⟩
            | .rejected message =>
                ⟨json 500 [("error", text "Unexpected error updating customer profile"),
                  ("details", message)], [call]⟩
            | .data data => ⟨json 200 [("success", .bool true), ("profile", data)], [call]⟩

/-- The handlers of `GET /api/contractors/profile/:userId` (server.js, lines
767-814) and `GET /api/customers/profile/:userId` (lines 895-942), which differ
in the table read and in the three messages. -/
def getProfile (table : JsString) (notFound failed unexpected : String)
    (supabaseAdmin : Option Collaborator) (userId : JsString) : Handled :=
  match supabaseAdmin with
  | none => ⟨notConfigured, []⟩
  | some db =>
    if userId.isEmpty then ⟨json 400 [("error", text "userId parameter is required")], []⟩
    else
      let call := Call.selectSingle table (js "*") (js "user_id") (.string userId)
      match db call with
      | .error code message =>
          if code.strictEqualsString (js "PGRST116") then
            ⟨json 404 [("error", text notFound)], [call]⟩
          else ⟨json 500 [("error", text failed), ("details", message)], [call]⟩
      | .rejected message =>
          ⟨json 500 [("error", text unexpected), ("details", message)], [call]⟩
      | .data data => ⟨json 200 [("success", .bool true), ("profile", data)], [call]⟩

/-- The handler of `GET /api/contractors/profile/:userId`. -/
def getContractorsProfile (supabaseAdmin : Option Collaborator) (userId : JsString) : Handled :=
  getProfile (js "contractor_profiles") "Contractor profile not found"
    "Failed to fetch contractor profile" "Unexpected error fetching contractor profile"
    supabaseAdmin userId

/-- The handler of `GET /api/customers/profile/:userId`. -/
def getCustomersProfile (supabaseAdmin : Option Collaborator) (userId : JsString) : Handled :=
  getProfile (js "customer_profiles") "Customer profile not found"
    "Failed to fetch customer profile" "Unexpected error fetching customer profile"
    supabaseAdmin userId

/-! ### `GET /api/jobs/:jobId/details`, `GET /api/jobs/:jobId/location` -/

/-- The `job` object of the details response (server.js, lines 979-996), for a
record that is not `undefined` or `null`; the date defaults to
`new Date().toISOString().split('T')[0]`. -/
def jobDetails (host : Host) (data : JsValue) : JsValue :=
  .object [
    (js "id", data.prop (js "id")),
    (js "title", (data.prop (js "title")).or (text "Untitled Job")),
    (js "description", (data.prop (js "description")).or (text "")),
    (js "location",
      ((data.prop (js "address")).or (data.prop (js "location"))).or (text "Location TBD")),
    (js "address", data.prop (js "address")),
    (js "date", (data.prop (js "preferred_date")).or
      (.string (host.isoString.takeWhile (· ≠ 0x54)))),
    (js "time", (data.prop (js "preferred_time")).or (text "09:00:00")),
    (js "urgency", (data.prop (js "urgency")).or (text "medium")),
    (js "category", (data.prop (js "category")).or (text "general")),
    (js "budget_min", data.prop (js "budget_min")),
    (js "budget_max", data.prop (js "budget_max")),
    (js "customer_name", (data.prop (js "customer_name")).or (text "Customer")),
    (js "customer_id", data.prop (js "customer_id")),
    (js "customer_email", data.prop (js "customer_email")),
    (js "customer_phone", data.prop (js "customer_phone")),
    (js "status", data.prop (js "status"))]

/-- The handler of `GET /api/jobs/:jobId/details` (server.js, lines 945-1002). -/
def getJobDetails (host : Host) (supabaseAdmin : Option Collaborator) (jobId : JsString) :
    Handled :=
  match supabaseAdmin with
  | none => ⟨notConfiguredShort, []⟩
  | some db =>
    if jobId.isEmpty then ⟨json 400 [("error", text "jobId is required")], []⟩
    else
      let call := Call.selectSingle (js "job_requests") (js "*") (js "id") (.string jobId)
      match db call with
      | .error code message =>
          if code.strictEqualsString (js "PGRST116") then
            ⟨json 404 [("error", text "Job not found")], [call]⟩
          else ⟨json 500 [("error", message)], [call]⟩
      | .rejected message => ⟨json 500 [("error", message)], [call]⟩
      | .data data =>
          match data.member (js "id") with
          | .error e => ⟨json 500 [("error", host.errorMessage e)], [call]⟩
          | .ok _ =>
              ⟨json 200 [("success", .bool true), ("job", jobDetails host data)], [call]⟩

/-- The call `fullAddress.trim()` (server.js, line 1045): only a string has the
method; on any other value that is not `undefined` or `null` the call throws. -/
def callTrim : JsValue → Except JsError JsValue
  | .string s => .ok (.string (trim s))
  | _ => .error .typeError

/-- The handler of `GET /api/jobs/:jobId/location` (server.js, lines 1005-1051). -/
def getJobLocation (host : Host) (supabaseAdmin : Option Collaborator) (jobId : JsString) :
    Handled :=
  match supabaseAdmin with
  | none => ⟨notConfiguredShort, []⟩
  | some db =>
    if jobId.isEmpty then ⟨json 400 [("error", text "jobId is required")], []⟩
    else
      let call := Call.selectSingle (js "job_requests") (js "id, address, location") (js "id")
        (.string jobId)
      match db call with
      | .error code message =>
          if code.strictEqualsString (js "PGRST116") then
            ⟨json 404 [("error", text "Job not found")], [call]⟩
          else ⟨json 500 [("error", message)], [call]⟩
      | .rejected message => ⟨json 500 [("error", message)], [call]⟩
      | .data data =>
          match data.member (js "address") with
          | .error e => ⟨json 500 [("error", host.errorMessage e)], [call]⟩
          | .ok address =>
              let fullAddress := (address.or (data.prop (js "location"))).or (text "")
              match callTrim fullAddress with
              | .error e => ⟨json 500 [("error", host.errorMessage e)], [call]⟩
              | .ok trimmed =>
                  ⟨json 200 [("success", .bool true), ("jobId", data.prop (js "id")),
                    ("address", address), ("location", data.prop (js "location")),
                    ("fullAddress", trimmed)], [call]⟩

/-! ### `POST /api/onboarding/upload-profile-photo` -/

/-- The code units that `.` of a regular expression does not match: the line terminators. -/
def isLineTerminator (u : Nat) : Bool :=
  u == 0x000A || u == 0x000D || u == 0x2028 || u == 0x2029

/-- The parts of `s` before and after the first occurrence of `pattern`. -/
def splitAtFirst (pattern : JsString) : JsString → Option (JsString × JsString)
  | [] => if pattern.isEmpty then some ([], []) else none
  | u :: rest =>
      if pattern.isPrefixOf (u :: rest) then some ([], (u :: rest).drop pattern.length)
      else (splitAtFirst pattern rest).map fun parts => (u :: parts.1, parts.2)

/-- The match `dataUrl.match(/^data:(.*?);base64,(.*)$/)` (server.js, line 1075):
the two groups, when there is a match.  Neither group can hold a line
terminator and `$` is the end of the input, so there is a match only without
line terminators after `data:`, and the lazy first group then ends at the
first `;base64,`. -/
def matchDataUrl (dataUrl : JsString) : Option (JsString × JsString) :=
  if (js "data:").isPrefixOf dataUrl then
    let rest := dataUrl.drop (js "data:").length
    if rest.any isLineTerminator then none else splitAtFirst (js ";base64,") rest
  else none

/-- The lower-case form of an ASCII letter; every other code unit is left as it
is.  `String.prototype.toLowerCase` agrees on ASCII strings, and on a string
with another code unit both results differ from each of the ASCII literals of
`extensionFor`: a non-ASCII character never lowers to ASCII letters only,
except the Kelvin sign, which lowers to `k`, a letter of none of the literals. -/
def toLowerCase (s : JsString) : JsString :=
  s.map fun u => if 0x41 ≤ u ∧ u ≤ 0x5A then u + 0x20 else u

/-- The `extension` of the upload handler (server.js, lines 1094-1109). -/
def extensionFor (mimeType : JsString) : JsString :=
  if mimeType.isEmpty then js "jpg"
  else if toLowerCase mimeType = js "image/jpeg" then js "jpg"
  else if toLowerCase mimeType = js "image/jpg" then js "jpg"
  else if toLowerCase mimeType = js "image/png" then js "png"
  else if toLowerCase mimeType = js "image/gif" then js "gif"
  else if toLowerCase mimeType = js "image/webp" then js "webp"
  else js "jpg"

/-- The code units kept by `replace(/[^a-z0-9\-]/gi, '_')`: ASCII letters,
digits and the hyphen. -/
def isHintCodeUnit (u : Nat) : Bool :=
  (0x61 ≤ u && u ≤ 0x7A) || (0x41 ≤ u && u ≤ 0x5A) || (0x30 ≤ u && u ≤ 0x39) || u == 0x2D

/-- The `sanitizedHint` of the upload handler (server.js, line 1112). -/
def sanitizedHintFor : JsValue → JsString
  | .string fileNameHint => fileNameHint.map fun u => if isHintCodeUnit u then u else 0x5F
  | _ => js "profile"

/-- The `filePath` of the upload handler (server.js, line 1113). -/
def filePathFor (host : Host) (userId : JsString) (fileNameHint : JsValue)
    (mimeType : JsString) : JsString :=
  js "users/" ++ userId ++ js "/" ++
    (if (sanitizedHintFor fileNameHint).isEmpty then js "profile"
      else sanitizedHintFor fileNameHint) ++
    js "-" ++ decimalString host.now ++ js "." ++ extensionFor mimeType

/-- The constant `MAX_FILE_SIZE_BYTES` (server.js, line 1087). -/
def MAX_FILE_SIZE_BYTES : Nat :=
  10 * 1024 * 1024

/-- The handler of `POST /api/onboarding/upload-profile-photo` (server.js,
lines 1053-1151), on the `req.body` that the body parser hands to it; the route
with the parser in front is `routeUploadProfilePhoto`. -/
def postUploadProfilePhoto (host : Host) (supabaseAdmin : Option Collaborator)
    (body : JsValue) : Handled :=
  match supabaseAdmin with
  | none => ⟨notConfigured, []⟩
  | some db =>
    let fileNameHint := body.orEmptyObject.prop (js "fileNameHint")
    match body.orEmptyObject.prop (js "userId") with
    | .string userId =>
      if userId.isEmpty then ⟨json 400 [("error", text "Invalid request: userId is required")], []⟩
      else
        match body.orEmptyObject.prop (js "dataUrl") with
        | .string dataUrl =>
          if dataUrl.isEmpty then
            ⟨json 400 [("error", text "Invalid request: dataUrl is required")], []⟩
          else
            match matchDataUrl dataUrl with
            | none => ⟨json 400 [("error", text "Invalid data URL format")], []⟩
            | some (mimeType, base64Data) =>
              let buffer := host.base64Decode base64Data
              if MAX_FILE_SIZE_BYTES < buffer.length then
                ⟨json 413 [("error",
                  text "Photo too large. Please choose an image under 10MB.")], []⟩
              else
                let filePath := filePathFor host userId fileNameHint mimeType
                let upload := Call.upload (js "profile-photos") filePath buffer
                  ((JsValue.string mimeType).or (text "image/jpeg"))
                match db upload with
                | .error _ _ =>
                    ⟨json 500 [("error", text "Failed to upload photo to storage")], [upload]⟩
                | .rejected _ =>
                    ⟨json 500 [("error", text "Unexpected error uploading photo")], [upload]⟩
                | .data uploadData =>
                    let path := (uploadData.prop (js "path")).or (.string filePath)
                    let getUrl := Call.getPublicUrl (js "profile-photos") path
                    match db getUrl with
                    | .rejected _ =>
                        ⟨json 500 [("error", text "Unexpected error uploading photo")],
                          [upload, getUrl]⟩
                    | .error _ _ =>
                        ⟨json 500 [("error",
                          text "Failed to generate public URL for uploaded photo")],
                          [upload, getUrl]⟩
                    | .data publicUrlData =>
                        if !(publicUrlData.prop (js "publicUrl")).truthy then
                          ⟨json 500 [("error",
                            text "Failed to generate public URL for uploaded photo")],
                            [upload, getUrl]⟩
                        else
                          ⟨json 200 [("success", .bool true),
                            ("url", publicUrlData.prop (js "publicUrl")), ("path", path)],
                            [upload, getUrl]⟩
        | _ => ⟨json 400 [("error", text "Invalid request: dataUrl is required")], []⟩
    | _ => ⟨json 400 [("error", text "Invalid request: userId is required")], []⟩

/-! ### `POST /api/scheduling/create-from-quote` -/

/-- The fields tested at server.js, line 1172. -/
def requiredScheduledJobFields : List JsString :=
  [js "contractor_id", js "job_request_id", js "job_date", js "start_time", js "title"]

/-- The handler of `POST /api/scheduling/create-from-quote` (server.js, lines 1153-1208). -/
def postCreateFromQuote (host : Host) (supabaseAdmin : Option Collaborator)
    (body : JsValue) : Handled :=
  match supabaseAdmin with
  | none => ⟨notConfigured, []⟩
  | some db =>
    let scheduledJob := body.orEmptyObject.prop (js "scheduledJob")
    if !scheduledJob.truthy || !scheduledJob.typeofObject then
      ⟨json 400 [("error", text "scheduledJob payload is required")], []⟩
    else
      match sanitizeScheduledJobPayload scheduledJob with
      | .error e =>
          ⟨json 500 [("error", text "Unexpected error creating scheduled job"),
            ("details", host.errorMessage e)], []⟩
      | .ok sanitized =>
          if !(sanitized.read (js "contractor_id")).truthy ||
              !(sanitized.read (js "job_request_id")).truthy ||
              !(sanitized.read (js "job_date")).truthy ||
              !(sanitized.read (js "start_time")).truthy ||
              !(sanitized.read (js "title")).truthy then
            ⟨json 400 [("error", text "Missing required fields for scheduled job")], []⟩
          else
            let call := Call.insert (js "scheduled_jobs") sanitized
            match db call with
            | .error _ message =>
                ⟨json 500 [("error", text "Failed to create scheduled job"),
                  ("details", message)], [call]⟩
            | .rejected message =>
                ⟨json 500 [("error", text "Unexpected error creating scheduled job"),
                  ("details", message)], [call]⟩
            | .data data => ⟨json 200 [("success", .bool true), ("scheduledJob", data)], [call]⟩

/-! ### `POST /api/notifications/send`, `GET /api/notifications/:userId` -/

/-- The set `allowedTypes` (server.js, line 1220). -/
def allowedTypes : List JsString :=
  [js "job", js "quote", js "message", js "review", js "payment", js "system"]

/-- The handler of `POST /api/notifications/send` (server.js, lines 1210-1268). -/
def postNotificationsSend (supabaseAdmin : Option Collaborator) (body : JsValue) : Handled :=
  match supabaseAdmin with
  | none => ⟨notConfigured, []⟩
  | some db =>
    let userId := body.orEmptyObject.prop (js "userId")
    let type := body.orEmptyObject.prop (js "type")
    let title := body.orEmptyObject.prop (js "title")
    let message := body.orEmptyObject.prop (js "message")
    let data := body.orEmptyObject.prop (js "data")
    let actionUrl := body.orEmptyObject.prop (js "actionUrl")
    if !userId.truthy || !type.truthy || !title.truthy || !message.truthy then
      ⟨json 400 [("error", text "Missing required notification fields")], []⟩
    else if !setHas allowedTypes type then
      ⟨json 400 [("error", text "Invalid notification type")], []⟩
    else
      let insertPayload : JsObject :=
        [(js "user_id", userId), (js "type", type), (js "title", title),
          (js "message", message), (js "metadata", data.nullish .null),
          (js "action_url", actionUrl.nullish .null)]
      let call := Call.insert (js "notifications") insertPayload
      match db call with
      | .error _ errorMessage =>
          ⟨json 500 [("error", text "Failed to create notification"),
            ("details", errorMessage)], [call]⟩
      | .rejected errorMessage =>
          ⟨json 500 [("error", text "Unexpected error creating notification"),
            ("details", errorMessage)], [call]⟩
      | .data notification =>
          ⟨json 200 [("success", .bool true), ("notification", notification)], [call]⟩

/-- The handler of `GET /api/notifications/:userId` (server.js, lines 1271-1312);
`limit` is the value of `req.query.limit`. -/
def getNotifications (host : Host) (supabaseAdmin : Option Collaborator)
    (userId : JsString) (limit : JsValue) : Handled :=
  match supabaseAdmin with
  | none => ⟨notConfiguredShort, []⟩
  | some db =>
    if userId.isEmpty then ⟨json 400 [("error", text "userId is required")], []⟩
    else
      let call := Call.selectList (js "notifications") (js "user_id") (.string userId)
        (some (host.parseInt (limit.defaultTo (.number (.finite false 50 0)))))
      match db call with
      | .error _ message =>
          ⟨json 500 [("error", text "Failed to fetch notifications"), ("details", message)],
            [call]⟩
      | .rejected message =>
          ⟨json 500 [("error", text "Unexpected error fetching notifications"),
            ("details", message)], [call]⟩
      | .data data =>
          ⟨json 200 [("success", .bool true), ("notifications", data.or (.array []))], [call]⟩

/-! ### `POST /api/jobs/update-status` -/

/-- The set `allowedStatuses` (server.js, lines 1323-1330). -/
def allowedStatuses : List JsString :=
  [js "open", js "quoted", js "accepted", js "in-progress", js "completed", js "cancelled"]

/-- The constant `normalizedStatus` (server.js, line 1338). -/
def normalizedStatus (status : JsValue) : JsValue :=
  if status.strictEqualsString (js "in_progress") then text "in-progress" else status

/-- The handler of `POST /api/jobs/update-status` (server.js, lines 1314-1373).
The two validations stand before the `try` block: an exception raised there,
by the template literal of line 1342 (whose quotation marks are the code unit
0x22), leaves the handler, and no response is sent by it. -/
def postJobsUpdateStatus (host : Host) (supabaseAdmin : Option Collaborator)
    (body : JsValue) : Except JsError Handled :=
  match supabaseAdmin with
  | none => .ok ⟨notConfigured, []⟩
  | some db =>
    let jobRequestId := body.orEmptyObject.prop (js "jobRequestId")
    let status := body.orEmptyObject.prop (js "status")
    if !jobRequestId.truthy || !status.truthy then
      .ok ⟨json 400 [("error", text "jobRequestId and status are required")], []⟩
    else if !setHas allowedStatuses (normalizedStatus status) then
      match status.toJsString host.numberToString with
      | .error e => .error e
      | .ok printed =>
          .ok ⟨json 400 [("error",
            .string (js "Invalid status " ++ [0x22] ++ printed ++ [0x22]))], []⟩
    else
      let call := Call.update (js "job_requests") [(js "status", normalizedStatus status)]
        (js "id") jobRequestId
      match db call with
      | .error _ message =>
          .ok ⟨json 500 [("error", text "Failed to update job status"), ("details", message)],
            [call]⟩
      | .rejected message =>
          .ok ⟨json 500 [("error", text "Unexpected error updating job status"),
            ("details", message)], [call]⟩
      | .data data => .ok ⟨json 200 [("success", .bool true), ("jobRequest", data)], [call]⟩

/-! ### `POST /api/payments/create`, `POST /api/payments/update-status` -/

/-- The expression `(amount * 0.029) + 0.30` (server.js, line 1399), on the
number that `amount` converts to. -/
def platformFee (amount : JsNumber) : JsNumber :=
  (amount.mul (decimalLiteral 29 3)).add (decimalLiteral 30 2)

/-- The expression `amount - platform_fee` (server.js, line 1400). -/
def contractorPayout (amount : JsNumber) : JsNumber :=
  amount.sub (platformFee amount)

/-- The handler of `POST /api/payments/create` (server.js, lines 1376-1442). -/
def postPaymentsCreate (host : Host) (supabaseAdmin : Option Collaborator)
    (body : JsValue) : Handled :=
  match supabaseAdmin with
  | none => ⟨notConfiguredShort, []⟩
  | some db =>
    let invoice_id := body.orEmptyObject.prop (js "invoice_id")
    let job_request_id := body.orEmptyObject.prop (js "job_request_id")
    let contractor_id := body.orEmptyObject.prop (js "contractor_id")
    let customer_id := body.orEmptyObject.prop (js "customer_id")
    let amount := body.orEmptyObject.prop (js "amount")
    let payment_method := body.orEmptyObject.prop (js "payment_method")
    if !invoice_id.truthy || !job_request_id.truthy || !contractor_id.truthy ||
        !customer_id.truthy || !amount.truthy then
      ⟨json 400 [("error", text "Missing required payment fields")], []⟩
    else
      match amount.toNumber host with
      | .error e =>
          ⟨json 500 [("error", text "Unexpected error creating payment"),
            ("details", host.errorMessage e)], []⟩
      | .ok amountNumber =>
          let paymentData : JsObject :=
            [(js "payment_number", .string (js "PAY-" ++ decimalString host.now)),
              (js "invoice_id", invoice_id), (js "job_request_id", job_request_id),
              (js "contractor_id", contractor_id), (js "customer_id", customer_id),
              (js "amount", amount), (js "payment_method", payment_method.or (text "stripe")),
              (js "status", text "pending"), (js "currency", text "usd"),
              (js "platform_fee", .number (platformFee amountNumber)),
              (js "contractor_payout", .number (contractorPayout amountNumber))]
          let call := Call.insert (js "payments") paymentData
          match db call with
          | .error _ message =>
              ⟨json 500 [("error", text "Failed to create payment"), ("details", message)],
                [call]⟩
          | .rejected message =>
              ⟨json 500 [("error", text "Unexpected error creating payment"),
                ("details", message)], [call]⟩
          | .data data =>
              match data.member (js "id") with
              | .error e =>
                  ⟨json 500 [("error", text "Unexpected error creating payment"),
                    ("details", host.errorMessage e)], [call]⟩
              | .ok _ => ⟨json 200 [("success", .bool true), ("payment", data)], [call]⟩

/-- The object `updateData` of `POST /api/payments/update-status` (server.js,
lines 1463-1469). -/
def paymentUpdateData (host : Host) (status stripe_payment_intent_id : JsValue) : JsObject :=
  let withStatus : JsObject := [(js "status", status)]
  let withIntent :=
    if stripe_payment_intent_id.truthy then
      withStatus.set (js "stripe_payment_intent_id") stripe_payment_intent_id
    else withStatus
  if status.strictEqualsString (js "succeeded") then
    withIntent.set (js "payment_date") (.string host.isoString)
  else withIntent

/-- The handler of `POST /api/payments/update-status` (server.js, lines 1445-1498). -/
def postPaymentsUpdateStatus (host : Host) (supabaseAdmin : Option Collaborator)
    (body : JsValue) : Handled :=
  match supabaseAdmin with
  | none => ⟨notConfiguredShort, []⟩
  | some db =>
    let paymentId := body.orEmptyObject.prop (js "paymentId")
    let status := body.orEmptyObject.prop (js "status")
    let stripe_payment_intent_id := body.orEmptyObject.prop (js "stripe_payment_intent_id")
    if !paymentId.truthy || !status.truthy then
      ⟨json 400 [("error", text "paymentId and status are required")], []⟩
    else
      let call := Call.update (js "payments")
        (paymentUpdateData host status stripe_payment_intent_id) (js "id") paymentId
      match db call with
      | .error _ message =>
          ⟨json 500 [("error", text "Failed to update payment status"), ("details", message)],
            [call]⟩
      | .rejected message =>
          ⟨json 500 [("error", text "Unexpected error updating payment"),
            ("details", message)], [call]⟩
      | .data data =>
          match data.member (js "id") with
          | .error e =>
              ⟨json 500 [("error", text "Unexpected error updating payment"),
                ("details", host.errorMessage e)], [call]⟩
          | .ok _ => ⟨json 200 [("success", .bool true), ("payment", data)], [call]⟩

/-! ## Vocabulary of the claims on the handlers -/

/-- The response body carries the collaborator's error message, under `details`
or under `error`. -/
def carriesMessage (body message : JsValue) : Prop :=
  body.prop (js "details") = message ∨ body.prop (js "error") = message

/-- Every call of the handler that the collaborator answers with an error other
than row-not-found leads to status 500 with the error message in the body. -/
def failsWithMessage (db : Collaborator) (handled : Handled) : Prop :=
  ∀ call ∈ handled.calls, ∀ code message, db call = .error code message →
    code.strictEqualsString (js "PGRST116") = false →
    handled.response.status = 500 ∧ carriesMessage handled.response.body message

/-- A host for the examples: its clock shows 2023-11-14 22:13:20 UTC, its
base64 decoder is the right one on a text made of the letter `A` only (three
zero bytes for four letters), and its other conversions are not used by the
examples. -/
def exampleHost : Host where
  numberToString := fun _ => js "0"
  stringToNumber := fun _ => .nan
  parseInt := fun _ => .nan
  now := 1700000000000
  isoString := js "2023-11-14T22:13:20.000Z"
  base64Decode := fun encoded => List.replicate (encoded.length / 4 * 3) 0
  errorMessage := fun _ => text "TypeError"

/-- A collaborator for the examples, which answers every call with the error
`code`, `message`. -/
def failingCollaborator (code message : String) : Collaborator :=
  fun _ => .error (text code) (text message)

/-- A collaborator for the examples, which answers every call with `data`. -/
def answeringCollaborator (data : JsValue) : Collaborator :=
  fun _ => .data data

/-- A record returned by the data store: an object. -/
def isRecord : JsValue → Bool
  | .object _ => true
  | _ => false

/-- The value of a text column of a record: a string, or null, or absent. -/
def isTextColumn : JsValue → Bool
  | .string _ => true
  | .null => true
  | .undefined => true
  | _ => false

/-- The contract of a lookup-by-identifier read that makes the single call
`call`: 404 exactly for the row-not-found code 'PGRST116', 500 for any other
error, and the answer described by `found` when a record is returned. -/
def answersLookup (db : Collaborator) (call : Call) (handled : Handled)
    (found : JsValue → Response → Prop) : Prop :=
  handled.calls = [call] ∧
  (handled.response.status = 404 ↔ ∃ message, db call = .error (text "PGRST116") message) ∧
  (∀ code message, db call = .error code message → code ≠ text "PGRST116" →
    handled.response.status = 500) ∧
  (∀ data, db call = .data data → found data handled.response)

/-! ## The push dispatchers

`src/pushNotificationService.js` routes a device token to one of the two native
channels, APNs and FCM; `src/oneSignalPushService.js` posts to one HTTP API.
An `async` method yields the value its promise is fulfilled with, or the
TypeError it is rejected with, and the list of the requests it made to the
channels, in order.  Logging has no effect on either. -/

/-- The test `value === undefined || value === null`: the values whose
properties cannot be read and that cannot be destructured. -/
def JsValue.isNullish : JsValue → Bool
  | .undefined => true
  | .null => true
  | _ => false

/-- The number whose value is a natural number. -/
def JsNumber.ofNat (n : Nat) : JsNumber :=
  roundRatio false n 1

/-- The test `n === 0`, true of both zeros. -/
def JsNumber.isZero : JsNumber → Bool
  | .finite _ mantissa _ => mantissa == 0
  | _ => false

/-- The test `n > 0` on a number. -/
def JsNumber.isPositive : JsNumber → Bool
  | .finite negative mantissa _ => !negative && mantissa != 0
  | .infinity negative => !negative
  | .nan => false

/-- The function `Math.floor`. -/
def JsNumber.floor : JsNumber → JsNumber
  | .finite negative mantissa exponent =>
      if 0 ≤ exponent then .finite negative mantissa exponent
      else if negative then
        roundRatio true ((mantissa + 2 ^ (-exponent).toNat - 1) / 2 ^ (-exponent).toNat) 1
      else roundRatio false (mantissa / 2 ^ (-exponent).toNat) 1
  | other => other

/-- Property read `value.length` on a value that is neither `undefined` nor
`null`: the length of an array or of a string, the own property of an object. -/
def JsValue.lengthOf : JsValue → JsValue
  | .array items => .number (JsNumber.ofNat items.length)
  | .string s => .number (JsNumber.ofNat s.length)
  | .object entries => (JsObject.get entries (js "length")).getD .undefined
  | _ => .undefined

/-- Property read `value[0]` on a value that is neither `undefined` nor `null`. -/
def JsValue.first : JsValue → JsValue
  | .array items => items.headD .undefined
  | .string s => (s.head?.map fun u => JsValue.string [u]).getD .undefined
  | .object entries => (JsObject.get entries (js "0")).getD .undefined
  | _ => .undefined

/-- An object literal. -/
def record (fields : List (String × JsValue)) : JsValue :=
  .object (fields.map fun f => (js f.1, f.2))

/-- The soft failure `{ success: false, error }`. -/
def softFailure (error : JsValue) : JsValue :=
  record [("success", .bool false), ("error", error)]

/-- What an awaited promise of a collaborator settles to. -/
inductive Settled where
  | fulfilled (value : JsValue)
  | rejected (reason : JsValue)

/-- The outcome of an `async` method: the value its promise is fulfilled with,
or the TypeError it is rejected with, and the requests made to the channels. -/
structure Dispatched (call : Type) where
  result : Except JsError JsValue
  calls : List call

/-- The block `catch (error) { return { success: false, error: error.message } }`
entered with the rejection reason of a collaborator: reading `message` off
`undefined` or `null` throws in turn. -/
def caught (reason : JsValue) : Except JsError JsValue :=
  match reason.member (js "message") with
  | .ok message => .ok (softFailure message)
  | .error e => .error e

/-- The same block entered with a TypeError that the engine raised. -/
def caughtTypeError (host : Host) (e : JsError) : JsValue :=
  softFailure (host.errorMessage e)

/-! ### `PushNotificationService` -/

/-- A request to one of the two native channels: `apnProvider.send(notification,
deviceToken)` or `admin.messaging().send(message)`. -/
inductive ChannelCall where
  | apns (notification : JsObject) (deviceToken : JsValue)
  | fcm (message : JsObject)

/-- The state of a `PushNotificationService`: `apnProvider` is `none` for
`null` and otherwise the behaviour of the provider's `send`. -/
structure PushNotificationService where
  apnProvider : Option (JsObject → JsValue → Settled)
  fcmInitialized : Bool

/-- The value `Math.floor(Date.now() / 1000) + 3600` (pushNotificationService.js,
line 113).  `Date.now()` is an integer below 2^53, so the quotient is the
rounding of the exact ratio. -/
def expiryAt (now : Nat) : JsNumber :=
  (roundRatio false now 1000).floor.add (JsNumber.ofNat 3600)

/-- The fields that `sendApplePush` assigns to the notification
(pushNotificationService.js, lines 112-121). -/
def apnsNotification (host : Host) (title body data sound badge : JsValue) : JsObject :=
  [(js "expiry", .number (expiryAt host.now)),
    (js "badge", badge.or (.number (JsNumber.ofNat 1))),
    (js "sound", sound),
    (js "alert", record [("title", title), ("body", body)]),
    (js "payload", data),
    (js "topic", text "com.dandee.homeops.app")]

/-- What `sendApplePush` makes of the value of the awaited send
(pushNotificationService.js, lines 125-131). -/
def apnsAnswer (host : Host) (result : JsValue) : Except JsError JsValue :=
  match result.member (js "failed") with
  | .error e => .error e
  | .ok failed =>
    match (if failed.truthy then
        (match failed.lengthOf.toNumber host with
          | .ok n => Except.ok n.isPositive
          | .error e => .error e)
        else .ok false) with
    | .error e => .error e
    | .ok true =>
        match failed.first.member (js "response") with
        | .error e => .error e
        | .ok response =>
          match response.member (js "reason") with
          | .error e => .error e
          | .ok reason => .ok (softFailure reason)
    | .ok false =>
        if (result.prop (js "sent")).isNullish then .error .typeError
        else .ok (record [("success", .bool true),
          ("sent", (result.prop (js "sent")).lengthOf)])

/-- The method `sendApplePush` (pushNotificationService.js, lines 105-136). -/
def PushNotificationService.sendApplePush (service : PushNotificationService) (host : Host)
    (deviceToken title body data sound badge : JsValue) : Dispatched ChannelCall :=
  match service.apnProvider with
  | none => ⟨.ok (softFailure (text "APNs not configured")), []⟩
  | some send =>
    let notification := apnsNotification host title body data sound badge
    match send notification deviceToken with
    | .rejected reason => ⟨caught reason, [.apns notification deviceToken]⟩
    | .fulfilled result =>
        match apnsAnswer host result with
        | .ok answer => ⟨.ok answer, [.apns notification deviceToken]⟩
        | .error e => ⟨.ok (caughtTypeError host e), [.apns notification deviceToken]⟩

/-- The `message` of `sendAndroidPush` (pushNotificationService.js, lines 148-162). -/
def fcmMessage (deviceToken title body data sound : JsValue) : JsObject :=
  [(js "notification", record [("title", title), ("body", body)]),
    (js "data", data),
    (js "android", record [("notification",
        record [("sound", sound.or (text "default")),
          ("channelId", text "dandee_notifications")]),
      ("priority", text "high")]),
    (js "token", deviceToken)]

/-- The method `sendAndroidPush` (pushNotificationService.js, lines 141-171);
`admin` is the behaviour of `admin.messaging().send`. -/
def PushNotificationService.sendAndroidPush (service : PushNotificationService)
    (admin : JsObject → Settled) (deviceToken title body data sound : JsValue) :
    Dispatched ChannelCall :=
  if !service.fcmInitialized then ⟨.ok (softFailure (text "FCM not configured")), []⟩
  else
    let message := fcmMessage deviceToken title body data sound
    match admin message with
    | .rejected reason => ⟨caught reason, [.fcm message]⟩
    | .fulfilled response =>
        ⟨.ok (record [("success", .bool true), ("messageId", response)]), [.fcm message]⟩

/-- The `try` statement of `sendPushNotification` (pushNotificationService.js,
lines 87-99) around a delegated send: the value the channel method returns, or
the soft failure made of the TypeError it raises. -/
def delegated (host : Host) (sent : Dispatched ChannelCall) : Dispatched ChannelCall :=
  match sent.result with
  | .ok answer => ⟨.ok answer, sent.calls⟩
  | .error e => ⟨.ok (caughtTypeError host e), sent.calls⟩

/-- The method `sendPushNotification` (pushNotificationService.js, lines 74-100). -/
def PushNotificationService.sendPushNotification (service : PushNotificationService)
    (admin : JsObject → Settled) (host : Host) (params : JsValue) : Dispatched ChannelCall :=
  if params.isNullish then ⟨.error .typeError, []⟩
  else
    let deviceToken := params.prop (js "deviceToken")
    let platform := params.prop (js "platform")
    let title := params.prop (js "title")
    let body := params.prop (js "body")
    let data := (params.prop (js "data")).defaultTo (.object [])
    let sound := (params.prop (js "sound")).defaultTo (text "default")
    let badge := params.prop (js "badge")
    if !deviceToken.truthy then ⟨.ok (softFailure (text "No device token")), []⟩
    else if !title.truthy || !body.truthy then
      ⟨.ok (softFailure (text "Title and body required")), []⟩
    else if platform.strictEqualsString (js "ios") then
      delegated host (service.sendApplePush host deviceToken title body data sound badge)
    else if platform.strictEqualsString (js "android") then
      delegated host (service.sendAndroidPush admin deviceToken title body data sound)
    else ⟨.ok (softFailure (text "Invalid platform")), []⟩

/-- The object spread `{ ...fields, ...source }`: the own properties of `source`
are written over `fields`; `undefined` and `null` have none. -/
def spread (fields : JsObject) (source : JsValue) : JsObject :=
  match objectEntries source with
  | .ok entries => entries.foldl (fun o e => o.set e.1 e.2) fields
  | .error _ => fields

/-- The argument of `sendPushNotification` that `sendBulkPush` builds for one
target (pushNotificationService.js, lines 181-185). -/
def bulkParams (token notification : JsValue) : JsValue :=
  .object (spread [(js "deviceToken", token.prop (js "deviceToken")),
    (js "platform", token.prop (js "platform"))] notification)

/-- The callback `(r) => r.status === 'fulfilled' && r.value.success` of the
filter (pushNotificationService.js, line 189), as a truth value. -/
def isSuccessful : Settled → Except JsError Bool
  | .fulfilled value =>
      match value.member (js "success") with
      | .ok success => .ok success.truthy
      | .error e => .error e
  | .rejected _ => .ok false

/-- The length of `results.filter(...)`. -/
def successfulCount : List Settled → Except JsError Nat
  | [] => .ok 0
  | r :: rest =>
      match isSuccessful r, successfulCount rest with
      | .ok true, .ok n => .ok (n + 1)
      | .ok false, .ok n => .ok n
      | .error e, _ => .error e
      | _, .error e => .error e

/-- The tally of `sendBulkPush` (pushNotificationService.js, lines 189-193) over
the settled sends.  The three counts are integers below 2^32, on which the
subtraction of numbers is that of integers. -/
def bulkTally (results : List Settled) : Except JsError JsValue :=
  match successfulCount results with
  | .ok successful =>
      .ok (record [("successful", .number (JsNumber.ofNat successful)),
        ("failed", .number (JsNumber.ofNat (results.length - successful))),
        ("total", .number (JsNumber.ofNat results.length))])
  | .error e => .error e

/-- What `Promise.allSettled` records for one send. -/
def settle (host : Host) (sent : Dispatched ChannelCall) : Settled :=
  match sent.result with
  | .ok value => .fulfilled value
  | .error e => .rejected (record [("message", host.errorMessage e)])

/-- The method `sendBulkPush` (pushNotificationService.js, lines 178-194).  The
sends start in the order of the targets; destructuring a target that is
`undefined` or `null` throws, after the sends to the targets before it. -/
def PushNotificationService.sendBulkPush (service : PushNotificationService)
    (admin : JsObject → Settled) (host : Host) (tokens : List JsValue)
    (notification : JsValue) : Dispatched ChannelCall :=
  let sends := (tokens.takeWhile fun token => !token.isNullish).map fun token =>
    service.sendPushNotification admin host (bulkParams token notification)
  if tokens.any JsValue.isNullish then ⟨.error .typeError, (sends.map Dispatched.calls).flatten⟩
  else ⟨bulkTally (sends.map (settle host)), (sends.map Dispatched.calls).flatten⟩

/-! ### `OneSignalPushService` -/

/-- A request `fetch(url, { method: 'POST', headers, body })` of the OneSignal
service: its URL, its `Authorization` header and the payload whose JSON text is
the body. -/
structure FetchCall where
  url : JsString
  authorization : JsString
  payload : JsObject

/-- What an awaited `fetch` yields: a response with its `ok` flag and what
`response.json()` settles to, or a rejection. -/
inductive FetchOutcome where
  | response (ok : Bool) (json : Settled)
  | rejected (reason : JsValue)

/-- The state of a `OneSignalPushService` (oneSignalPushService.js, lines 7-12):
`restApiKey` is `none` when the environment variable is not set. -/
structure OneSignalPushService where
  appId : JsString
  restApiKey : Option JsString
  apiUrl : JsString

/-- The constructor (oneSignalPushService.js, lines 7-12), from the two
environment variables. -/
def OneSignalPushService.create (ONESIGNAL_APP_ID ONESIGNAL_REST_API_KEY : Option JsString) :
    OneSignalPushService where
  appId :=
    match ONESIGNAL_APP_ID with
    | some appId => if appId.isEmpty then js "6223290e-02a1-47f3-87e8-8df1d5442ca1" else appId
    | none => js "6223290e-02a1-47f3-87e8-8df1d5442ca1"
  restApiKey := ONESIGNAL_REST_API_KEY
  apiUrl := js "https://onesignal.com/api/v1"

/-- The value of `this.restApiKey`. -/
def OneSignalPushService.restApiKeyValue (service : OneSignalPushService) : JsValue :=
  match service.restApiKey with
  | some key => .string key
  | none => .undefined

/-- The method `isConfigured` (oneSignalPushService.js, lines 156-158). -/
def OneSignalPushService.isConfigured (service : OneSignalPushService) : Bool :=
  service.restApiKeyValue.truthy

/-- The `payload` of both senders (oneSignalPushService.js, lines 42-56 and
109-121). -/
def OneSignalPushService.payload (service : OneSignalPushService)
    (recipients title body data url : JsValue) : JsObject :=
  let payload : JsObject :=
    [(js "app_id", .string service.appId), (js "include_external_user_ids", recipients),
      (js "headings", record [("en", title)]), (js "contents", record [("en", body)]),
      (js "data", data.or (.object []))]
  if url.truthy then
    ((payload.set (js "url") url).set (js "web_url") url).set (js "app_url") url
  else payload

/-- The request of both senders (oneSignalPushService.js, lines 60-67 and 125-132). -/
def OneSignalPushService.request (service : OneSignalPushService) (payload : JsObject) :
    FetchCall where
  url := service.apiUrl ++ js "/notifications"
  authorization := js "Basic " ++ service.restApiKey.getD (js "undefined")
  payload := payload

/-- What a sender makes of the decoded response (oneSignalPushService.js, lines
71-85 and 136-146); `sendToUser` adds the `details`.  The log line prints
`result.id` in a template literal. -/
def oneSignalAnswer (host : Host) (withDetails ok : Bool) (result : JsValue) :
    Except JsError JsValue :=
  if !ok then
    match result.member (js "errors") with
    | .error e => .error e
    | .ok errors =>
        let error := (if errors.isNullish then JsValue.undefined else errors.first).or
          (text "OneSignal API error")
        if withDetails then
          .ok (record [("success", .bool false), ("error", error), ("details", result)])
        else .ok (record [("success", .bool false), ("error", error)])
  else
    match result.member (js "id") with
    | .error e => .error e
    | .ok id =>
        match id.toJsString host.numberToString with
        | .error e => .error e
        | .ok _ =>
            .ok (record [("success", .bool true), ("id", id),
              ("recipients", (result.prop (js "recipients")).or (.number (JsNumber.ofNat 0)))])

/-- The request and the handling of its response, inside the `try` statement of
both senders. -/
def OneSignalPushService.post (service : OneSignalPushService)
    (fetch : FetchCall → FetchOutcome) (host : Host) (withDetails : Bool)
    (payload : JsObject) : Dispatched FetchCall :=
  match fetch (service.request payload) with
  | .rejected reason => ⟨caught reason, [service.request payload]⟩
  | .response _ (.rejected reason) => ⟨caught reason, [service.request payload]⟩
  | .response ok (.fulfilled result) =>
      match oneSignalAnswer host withDetails ok result with
      | .ok answer => ⟨.ok answer, [service.request payload]⟩
      | .error e => ⟨.ok (caughtTypeError host e), [service.request payload]⟩

/-- The method `sendToUser` (oneSignalPushService.js, lines 23-90).  The log
line before the request prints `userId` in a template literal. -/
def OneSignalPushService.sendToUser (service : OneSignalPushService)
    (fetch : FetchCall → FetchOutcome) (host : Host) (params : JsValue) :
    Dispatched FetchCall :=
  if params.isNullish then ⟨.error .typeError, []⟩
  else
    let userId := params.prop (js "userId")
    let title := params.prop (js "title")
    let body := params.prop (js "body")
    let data := (params.prop (js "data")).defaultTo (.object [])
    let url := params.prop (js "url")
    if !service.restApiKeyValue.truthy then
      ⟨.ok (softFailure (text "OneSignal not configured")), []⟩
    else if !userId.truthy then ⟨.ok (softFailure (text "No userId")), []⟩
    else if !title.truthy || !body.truthy then
      ⟨.ok (softFailure (text "Title and body required")), []⟩
    else
      match userId.toJsString host.numberToString with
      | .error e => ⟨.ok (caughtTypeError host e), []⟩
      | .ok _ =>
          service.post fetch host true (service.payload (.array [userId]) title body data url)

/-- The method `sendToUsers` (oneSignalPushService.js, lines 95-151).  The log
line before the request prints `userIds.length` in a template literal. -/
def OneSignalPushService.sendToUsers (service : OneSignalPushService)
    (fetch : FetchCall → FetchOutcome) (host : Host) (params : JsValue) :
    Dispatched FetchCall :=
  if params.isNullish then ⟨.error .typeError, []⟩
  else
    let userIds := params.prop (js "userIds")
    let title := params.prop (js "title")
    let body := params.prop (js "body")
    let data := (params.prop (js "data")).defaultTo (.object [])
    let url := params.prop (js "url")
    if !service.restApiKeyValue.truthy then
      ⟨.ok (softFailure (text "OneSignal not configured")), []⟩
    else if !userIds.truthy ||
        (match userIds.lengthOf with
          | .number n => n.isZero
          | _ => false) then
      ⟨.ok (softFailure (text "No userIds")), []⟩
    else
      match userIds.lengthOf.toJsString host.numberToString with
      | .error e => ⟨.ok (caughtTypeError host e), []⟩
      | .ok _ => service.post fetch host false (service.payload userIds title body data url)

/-! ## Vocabulary of the claims on the upload, onboarding and payment handlers -/

/-- Equality of two strings up to the case of the ASCII letters: the
case-insensitive comparison of claim C21. -/
def equalsIgnoringCase : JsString → JsString → Bool
  | [], [] => true
  | u :: s, v :: t =>
      (u == v || (0x41 ≤ u && u ≤ 0x5A && u + 0x20 == v) ||
        (0x41 ≤ v && v ≤ 0x5A && v + 0x20 == u)) && equalsIgnoringCase s t
  | _, _ => false

/-- A code unit that claim C22 says the path hint keeps: an ASCII letter, a
digit or the hyphen. -/
def isLetterDigitOrHyphen (u : Nat) : Bool :=
  ('a'.toNat ≤ u && u ≤ 'z'.toNat) || ('A'.toNat ≤ u && u ≤ 'Z'.toNat) ||
    ('0'.toNat ≤ u && u ≤ '9'.toNat) || u == '-'.toNat

/-- The hint of claim C22 for the `fileNameHint` of the request: for a
non-empty string, a string of the same length that agrees with it on letters,
digits and hyphens and has an underscore everywhere else; otherwise `profile`. -/
def hintAsClaimed (fileNameHint : JsValue) (hint : JsString) : Prop :=
  match fileNameHint with
  | .string s =>
      if s = [] then hint = js "profile"
      else hint.length = s.length ∧
        ∀ (i : Nat) (u : Nat), s[i]? = some u →
          hint[i]? = some (if isLetterDigitOrHyphen u then u else '_'.toNat)
  | _ => hint = js "profile"

/-- The condition of claim C23 on a sanitised profile: it has a key besides
`user_id`. -/
def hasKeyBesidesUserId (sanitized : JsObject) : Bool :=
  (objectKeys sanitized).any fun key => key != js "user_id"

/-- The platform fee of claim C28, in exact rational arithmetic. -/
def platformFeeExact (amount : ℚ) : ℚ :=
  amount * (29 / 1000) + 3 / 10

/-- The contractor payout of claim C28, in exact rational arithmetic. -/
def contractorPayoutExact (amount : ℚ) : ℚ :=
  amount - platformFeeExact amount

/-! ## Vocabulary of the claims on the push dispatchers -/

/-- The result object of a send: an object whose `success` is a boolean. -/
def isSendResult : JsValue → Bool
  | .object entries =>
      match JsObject.get entries (js "success") with
      | some (.bool _) => true
      | _ => false
  | _ => false

/-- A per-target outcome in the words of claim C24: a send that resolved with
a result object, or a rejected send. -/
def isSendOutcome : Settled → Bool
  | .fulfilled value => isSendResult value
  | .rejected _ => true

/-- A send that resolved with `success = true`. -/
def resolvedWithSuccess : Settled → Bool
  | .fulfilled value =>
      match value.prop (js "success") with
      | .bool true => true
      | _ => false
  | .rejected _ => false

/-- The answer `{ successful, failed, total }`. -/
def tally (successful failed total : Nat) : JsValue :=
  record [("successful", .number (JsNumber.ofNat successful)),
    ("failed", .number (JsNumber.ofNat failed)),
    ("total", .number (JsNumber.ofNat total))]

/-- An APNs provider for the examples: it rejects the device token `bad` and
accepts every other one. -/
def exampleProvider : JsObject → JsValue → Settled :=
  fun _ deviceToken =>
    if deviceToken.strictEqualsString (js "bad") then
      .rejected (record [("message", text "BadDeviceToken")])
    else .fulfilled (record [("sent", .array [deviceToken]), ("failed", .array [])])

/-- A service for the examples, with an APNs provider and without FCM. -/
def exampleService : PushNotificationService where
  apnProvider := some exampleProvider
  fcmInitialized := false

/-- An iOS target of the examples. -/
def exampleTarget (deviceToken : String) : JsValue :=
  record [("deviceToken", text deviceToken), ("platform", text "ios")]

/-! ## The body parser in front of the routes -/

/-- The limit `'10mb'` of the body parser (server.js, line 45), in bytes. -/
def JSON_BODY_LIMIT : Nat :=
  10 * 1024 * 1024

/-- A request as the middleware `express.json({ limit: '10mb' })` meets it. -/
structure Request where
  /-- The request has a body of a JSON media type; the parser skips every other
  request and leaves `req.body` empty. -/
  hasJsonBody : Bool
  /-- The message of the error raised before the body is read, for a charset or
  a content encoding that the parser does not support. -/
  refused : Option JsValue
  /-- The number of bytes of the body, after inflation. -/
  length : Nat
  /-- What parsing the text of the body yields: the value, or the message of
  the error for a text that the parser does not accept. -/
  parsed : Except JsValue JsValue

/-- The middleware `express.json({ limit: '10mb' })` (server.js, line 45): the
value of `req.body` for the handler, or the message of the error passed on.  A
body of more bytes than the limit is refused before it is parsed. -/
def expressJson (request : Request) : Except JsValue JsValue :=
  if !request.hasJsonBody then .ok (.object [])
  else
    match request.refused with
    | some message => .error message
    | none =>
        if JSON_BODY_LIMIT < request.length then .error (text "request entity too large")
        else request.parsed

/-- The error-handling middleware (server.js, lines 1501-1507). -/
def errorMiddleware (message : JsValue) : Response :=
  json 500 [("error", text "Internal server error"), ("details", message)]

/-- The route `POST /api/onboarding/upload-profile-photo` as the application
serves it: the body parser, then the handler; an error of the parser goes to
the error-handling middleware. -/
def routeUploadProfilePhoto (host : Host) (supabaseAdmin : Option Collaborator)
    (request : Request) : Handled :=
  match expressJson request with
  | .ok body => postUploadProfilePhoto host supabaseAdmin body
  | .error message => ⟨errorMiddleware message, []⟩

/-! ## Vocabulary of the claim on the size limit of an upload -/

/-- A lower bound on the number of bytes of a JSON text that parses to `body`:
the code units of the strings that `body` holds directly, each of which takes
at least one byte of the text. -/
def textLowerBound : JsValue → Nat
  | .string s => s.length
  | .object entries =>
      (entries.map fun e =>
        match e.2 with
        | .string s => s.length
        | _ => 0).sum
  | _ => 0

/-- The body that the parser would yield fits in the bytes of the request. -/
def Request.consistent (request : Request) : Prop :=
  ∀ body, request.parsed = .ok body → textLowerBound body ≤ request.length

/-- The decoder of `Buffer.from(text, 'base64')` yields at most three bytes for
four code units of the text. -/
def decodesBase64 (host : Host) : Prop :=
  ∀ encoded, (host.base64Decode encoded).length * 4 ≤ encoded.length * 3

/-- A host for the examples whose decoder is the right one on every text made
of the letter `A` only, padded or not. -/
def unpaddedHost : Host where
  numberToString := exampleHost.numberToString
  stringToNumber := exampleHost.stringToNumber
  parseInt := exampleHost.parseInt
  now := exampleHost.now
  isoString := exampleHost.isoString
  base64Decode := fun encoded => List.replicate (encoded.length * 3 / 4) 0
  errorMessage := exampleHost.errorMessage

/-- A request of the examples: a JSON body of `length` bytes that holds a user
id and a PNG data URL of `letters` letters `A`. -/
def photoRequest (length letters : Nat) : Request where
  hasJsonBody := true
  refused := none
  length := length
  parsed := .ok (.object [(js "userId", text "u1"),
    (js "dataUrl", .string (js "data:image/png;base64," ++ List.replicate letters 0x41))])

/-! ## Strings -/

theorem dropWhile_rdropWhile_of_fixed (p : Nat → Bool) (t : List Nat)
    (h : t.dropWhile p = t) : (t.rdropWhile p).dropWhile p = t.rdropWhile p := by
  obtain ⟨x, hx⟩ := List.rdropWhile_prefix p t
  cases hr : t.rdropWhile p with
  | nil => rfl
  | cons a r =>
    rw [hr] at hx
    subst hx
    have ha : p a = false := by
      by_contra hpa
      have hpa' : p a = true := by simpa using hpa
      have hlen := congrArg List.length h
      simp only [List.cons_append, List.dropWhile_cons, hpa', if_true] at hlen
      have := (List.dropWhile_sublist p (l := r ++ x)).length_le
      simp only [List.length_cons] at hlen
      omega
    simp [List.dropWhile_cons, ha]

theorem trim_trim (s : JsString) : trim (trim s) = trim s := by
  unfold trim
  rw [dropWhile_rdropWhile_of_fixed isWhiteSpace _ (List.dropWhile_idempotent _ _),
    List.rdropWhile_idempotent]

/-! ## Objects -/

theorem JsObject.get_set_self (o : JsObject) (k : JsString) (v : JsValue) :
    (o.set k v).get k = some v := by
  induction o with
  | nil => simp [JsObject.set, JsObject.get]
  | cons e rest ih =>
    obtain ⟨k0, v0⟩ := e
    by_cases h : k0 = k
    · simp [JsObject.set, JsObject.get, h]
    · simp [JsObject.set, JsObject.get, h, ih]

theorem JsObject.get_set_ne (o : JsObject) (k k1 : JsString) (v : JsValue) (hne : k1 ≠ k) :
    (o.set k v).get k1 = o.get k1 := by
  induction o with
  | nil => simp [JsObject.set, JsObject.get, Ne.symm hne]
  | cons e rest ih =>
    obtain ⟨k0, v0⟩ := e
    by_cases h : k0 = k
    · subst h
      simp [JsObject.set, JsObject.get, Ne.symm hne]
    · by_cases h1 : k0 = k1
      · subst h1
        simp [JsObject.set, JsObject.get, h]
      · simp [JsObject.set, JsObject.get, h, h1, ih]

theorem JsObject.set_of_not_mem (o : JsObject) (k : JsString) (v : JsValue)
    (h : k ∉ objectKeys o) : o.set k v = o ++ [(k, v)] := by
  induction o with
  | nil => rfl
  | cons e rest ih =>
    obtain ⟨k0, v0⟩ := e
    simp only [objectKeys, List.map_cons, List.mem_cons, not_or] at h
    have h0 : k0 ≠ k := fun hk => h.1 hk.symm
    simp only [JsObject.set, h0, if_false, List.cons_append]
    rw [ih (by simpa [objectKeys] using h.2)]

theorem JsObject.keys_set (o : JsObject) (k : JsString) (v : JsValue) :
    objectKeys (o.set k v) = if k ∈ objectKeys o then objectKeys o else objectKeys o ++ [k] := by
  induction o with
  | nil => simp [JsObject.set, objectKeys]
  | cons e rest ih =>
    obtain ⟨k0, v0⟩ := e
    by_cases h : k0 = k
    · subst h
      simp [JsObject.set, objectKeys]
    · have h1 : ¬ k = k0 := fun hk => h hk.symm
      simp only [objectKeys] at ih
      simp only [JsObject.set, h, if_false, objectKeys, List.map_cons, List.mem_cons, h1,
        false_or, ih]
      split <;> simp

theorem JsObject.mem_keys_set (o : JsObject) (k k1 : JsString) (v : JsValue) :
    k1 ∈ objectKeys (o.set k v) ↔ k1 ∈ objectKeys o ∨ k1 = k := by
  rw [JsObject.keys_set]
  split
  · constructor
    · exact Or.inl
    · rintro (h | h)
      · exact h
      · subst h; assumption
  · simp

theorem JsObject.mem_set (o : JsObject) (k : JsString) (v : JsValue) (e : JsString × JsValue)
    (h : e ∈ o.set k v) : e ∈ o ∨ e = (k, v) := by
  induction o with
  | nil => simpa [JsObject.set] using h
  | cons e0 rest ih =>
    obtain ⟨k0, v0⟩ := e0
    by_cases hk : k0 = k
    · subst hk
      simp only [JsObject.set, if_true, List.mem_cons] at h
      rcases h with h | h
      · exact Or.inr h
      · exact Or.inl (List.mem_cons_of_mem _ h)
    · simp only [JsObject.set, hk, if_false, List.mem_cons] at h
      rcases h with h | h
      · exact Or.inl (h ▸ List.mem_cons_self _ _)
      · rcases ih h with h1 | h1
        · exact Or.inl (List.mem_cons_of_mem _ h1)
        · exact Or.inr h1

theorem JsObject.keys_nodup_set (o : JsObject) (k : JsString) (v : JsValue)
    (h : (objectKeys o).Nodup) : (objectKeys (o.set k v)).Nodup := by
  rw [JsObject.keys_set]
  split
  · exact h
  · rename_i hk
    exact List.Nodup.append h (List.nodup_singleton k) (by simpa using hk)

theorem JsObject.get_eq_none_iff (o : JsObject) (k : JsString) :
    o.get k = none ↔ k ∉ objectKeys o := by
  induction o with
  | nil => simp [JsObject.get, objectKeys]
  | cons e rest ih =>
    obtain ⟨k0, v0⟩ := e
    by_cases h : k0 = k
    · simp [JsObject.get, objectKeys, h]
    · have h1 : ¬ k = k0 := fun hk => h hk.symm
      simp only [objectKeys] at ih
      simp [JsObject.get, objectKeys, h, h1, ih]

/-! ## The loop over the entries -/

theorem forEachEntry_cons_ok
    (write : JsString → JsValue → Except JsError (Option JsValue))
    {key : JsString} {value : JsValue}
    {rest : List (JsString × JsValue)} {acc out : JsObject}
    (h : forEachEntry (writeEntry write) ((key, value) :: rest) acc = .ok out) :
    ∃ r, write key value = .ok r ∧
      forEachEntry (writeEntry write) rest
        (match r with | none => acc | some x => acc.set key x) = .ok out := by
  simp only [forEachEntry, writeEntry] at h
  cases hw : write key value with
  | error e => simp [hw] at h
  | ok r =>
    refine ⟨r, rfl, ?_⟩
    cases r with
    | none => simpa [hw] using h
    | some x => simpa [hw] using h

theorem forEachEntry_get_of_not_mem
    (write : JsString → JsValue → Except JsError (Option JsValue))
    {entries : List (JsString × JsValue)} {acc out : JsObject}
    {key : JsString} (hkey : key ∉ objectKeys entries)
    (h : forEachEntry (writeEntry write) entries acc = .ok out) :
    out.get key = acc.get key := by
  induction entries generalizing acc with
  | nil =>
    simp only [forEachEntry, Except.ok.injEq] at h
    rw [h]
  | cons e rest ih =>
    obtain ⟨k0, v0⟩ := e
    simp only [objectKeys, List.map_cons, List.mem_cons, not_or] at hkey
    obtain ⟨r, _, hrest⟩ := forEachEntry_cons_ok write h
    rw [ih (by simpa [objectKeys] using hkey.2) hrest]
    cases r with
    | none => rfl
    | some x => exact JsObject.get_set_ne _ _ _ _ hkey.1

theorem forEachEntry_get_of_mem
    (write : JsString → JsValue → Except JsError (Option JsValue))
    {entries : List (JsString × JsValue)} {acc out : JsObject}
    {key : JsString} {value : JsValue} (hnodup : (objectKeys entries).Nodup)
    (hmem : (key, value) ∈ entries)
    (h : forEachEntry (writeEntry write) entries acc = .ok out) :
    ∃ r, write key value = .ok r ∧
      out.get key = (match r with | none => acc.get key | some x => some x) := by
  induction entries generalizing acc with
  | nil => cases hmem
  | cons e rest ih =>
    obtain ⟨k0, v0⟩ := e
    simp only [objectKeys, List.map_cons, List.nodup_cons] at hnodup
    obtain ⟨r, hr, hrest⟩ := forEachEntry_cons_ok write h
    rcases List.mem_cons.mp hmem with heq | hin
    · obtain ⟨rfl, rfl⟩ := Prod.mk.inj heq
      refine ⟨r, hr, ?_⟩
      rw [forEachEntry_get_of_not_mem write (by simpa [objectKeys] using hnodup.1) hrest]
      cases r with
      | none => rfl
      | some x => exact JsObject.get_set_self _ _ _
    · have hne : key ≠ k0 := by
        rintro rfl
        exact hnodup.1 (List.mem_map_of_mem Prod.fst hin)
      obtain ⟨r1, hr1, hget⟩ := ih (by simpa [objectKeys] using hnodup.2) hin hrest
      refine ⟨r1, hr1, ?_⟩
      rw [hget]
      cases r1 with
      | some x => rfl
      | none =>
        cases r with
        | none => rfl
        | some x => exact JsObject.get_set_ne _ _ _ _ hne

theorem forEachEntry_invariant
    (write : JsString → JsValue → Except JsError (Option JsValue))
    (P : JsObject → Prop) {entries : List (JsString × JsValue)}
    (hstep : ∀ acc key value x, P acc → (key, value) ∈ entries →
      write key value = .ok (some x) → P (acc.set key x))
    {acc out : JsObject} (hacc : P acc)
    (h : forEachEntry (writeEntry write) entries acc = .ok out) : P out := by
  induction entries generalizing acc with
  | nil =>
    simp only [forEachEntry, Except.ok.injEq] at h
    exact h ▸ hacc
  | cons e rest ih =>
    obtain ⟨k0, v0⟩ := e
    obtain ⟨r, hr, hrest⟩ := forEachEntry_cons_ok write h
    refine ih (fun acc key value x hP hin hw =>
      hstep acc key value x hP (List.mem_cons_of_mem _ hin) hw) ?_ hrest
    cases r with
    | none => exact hacc
    | some x => exact hstep acc k0 v0 x hacc (List.mem_cons_self _ _) hr

theorem forEachEntry_ok_of_writes_ok
    (write : JsString → JsValue → Except JsError (Option JsValue))
    {entries : List (JsString × JsValue)}
    (hok : ∀ e ∈ entries, ∃ r, write e.1 e.2 = .ok r) (acc : JsObject) :
    ∃ out, forEachEntry (writeEntry write) entries acc = .ok out := by
  induction entries generalizing acc with
  | nil => exact ⟨acc, rfl⟩
  | cons e rest ih =>
    obtain ⟨k0, v0⟩ := e
    obtain ⟨r, hr⟩ := hok (k0, v0) (List.mem_cons_self _ _)
    have hrest := fun acc1 => ih (fun e he => hok e (List.mem_cons_of_mem _ he)) acc1
    simp only [forEachEntry, writeEntry] at hr ⊢
    rw [hr]
    cases r with
    | none => exact hrest acc
    | some x => exact hrest (acc.set k0 x)

theorem forEachEntry_writes_ok_of_ok
    (write : JsString → JsValue → Except JsError (Option JsValue))
    {entries : List (JsString × JsValue)} {acc out : JsObject}
    (h : forEachEntry (writeEntry write) entries acc = .ok out) :
    ∀ e ∈ entries, ∃ r, write e.1 e.2 = .ok r := by
  induction entries generalizing acc with
  | nil => intro e he; cases he
  | cons e0 rest ih =>
    obtain ⟨k0, v0⟩ := e0
    obtain ⟨r, hr, hrest⟩ := forEachEntry_cons_ok write h
    intro e he
    rcases List.mem_cons.mp he with rfl | hin
    · exact ⟨r, hr⟩
    · exact ih hrest e hin

theorem forEachEntry_none
    (write : JsString → JsValue → Except JsError (Option JsValue))
    {entries : List (JsString × JsValue)}
    (hnone : ∀ e ∈ entries, write e.1 e.2 = .ok none) (acc : JsObject) :
    forEachEntry (writeEntry write) entries acc = .ok acc := by
  induction entries with
  | nil => rfl
  | cons e rest ih =>
    obtain ⟨k0, v0⟩ := e
    have h0 := hnone (k0, v0) (List.mem_cons_self _ _)
    simp only at h0
    simp only [forEachEntry, writeEntry, h0]
    exact ih (fun e he => hnone e (List.mem_cons_of_mem _ he))

theorem forEachEntry_fixed
    (write : JsString → JsValue → Except JsError (Option JsValue))
    {entries : List (JsString × JsValue)}
    (hfix : ∀ e ∈ entries, write e.1 e.2 = .ok (some e.2))
    (hnodup : (objectKeys entries).Nodup) (acc : JsObject)
    (hfresh : ∀ k ∈ objectKeys entries, k ∉ objectKeys acc) :
    forEachEntry (writeEntry write) entries acc = .ok (acc ++ entries) := by
  induction entries generalizing acc with
  | nil => simp [forEachEntry]
  | cons e rest ih =>
    obtain ⟨k0, v0⟩ := e
    have h0 := hfix (k0, v0) (List.mem_cons_self _ _)
    simp only at h0
    simp only [objectKeys, List.map_cons, List.nodup_cons] at hnodup
    have hk0 : k0 ∉ objectKeys acc := hfresh k0 (by simp [objectKeys])
    simp only [forEachEntry, writeEntry, h0]
    rw [JsObject.set_of_not_mem _ _ _ hk0,
      ih (fun e he => hfix e (List.mem_cons_of_mem _ he)) hnodup.2]
    · simp
    · intro k hk hmem
      simp only [objectKeys, List.map_append, List.map_cons, List.map_nil, List.mem_append,
        List.mem_singleton] at hmem
      rcases hmem with hmem | rfl
      · exact hfresh k (by simp only [objectKeys, List.map_cons, List.mem_cons]
                           exact Or.inr hk) hmem
      · exact hnodup.1 hk

/-! ## The callbacks as writes -/

theorem sanitizeProfileEntry_eq_writeEntry (numberToString : JsNumber → JsString)
    (allowedFields : List JsString) :
    sanitizeProfileEntry numberToString allowedFields
      = writeEntry (profileEntryWrite numberToString allowedFields) := by
  funext sanitized key value
  unfold sanitizeProfileEntry writeEntry profileEntryWrite
  split_ifs with h1 h2 h3 h4
  · rfl
  · subst h2
    cases value <;> first | rfl | (dsimp only; split_ifs <;> rfl)
  · cases value <;> first | rfl | (dsimp only; split_ifs <;> rfl)
  · cases value <;> first | rfl | (dsimp only; split <;> rfl)
  · cases value <;> first | rfl | (dsimp only; split_ifs <;> rfl)

theorem sanitizeScheduledJobEntry_eq_writeEntry :
    sanitizeScheduledJobEntry = writeEntry scheduledJobEntryWrite := by
  funext sanitized key value
  unfold sanitizeScheduledJobEntry writeEntry scheduledJobEntryWrite
  split_ifs with h1
  · rfl
  · cases value <;> first | rfl | (dsimp only; split_ifs <;> rfl)

/-! ## Facts about the allow-lists and the writes -/

theorem allowedFieldsFor_cases (profileType : JsValue) :
    allowedFieldsFor profileType = contractorAllowedFields ∨
      allowedFieldsFor profileType = customerAllowedFields := by
  cases profileType <;> simp only [allowedFieldsFor, or_true]
  split <;> simp

theorem user_id_not_allowed (profileType : JsValue) :
    js "user_id" ∉ allowedFieldsFor profileType := by
  rcases allowedFieldsFor_cases profileType with h | h <;> rw [h] <;> decide

theorem addressFields_allowed (profileType : JsValue) {key : JsString}
    (h : key ∈ addressFields) : key ∈ allowedFieldsFor profileType := by
  have h1 : ∀ k ∈ addressFields, k ∈ contractorAllowedFields := by decide
  have h2 : ∀ k ∈ addressFields, k ∈ customerAllowedFields := by decide
  rcases allowedFieldsFor_cases profileType with hc | hc <;> rw [hc]
  · exact h1 key h
  · exact h2 key h

theorem id_allowed (profileType : JsValue) : js "id" ∈ allowedFieldsFor profileType := by
  rcases allowedFieldsFor_cases profileType with h | h <;> rw [h] <;> decide

theorem geo_allowed (profileType : JsValue) {key : JsString}
    (h : key = js "latitude" ∨ key = js "longitude") : key ∈ allowedFieldsFor profileType := by
  rcases allowedFieldsFor_cases profileType with hc | hc <;> rw [hc] <;>
    rcases h with rfl | rfl <;> decide

theorem profileEntryWrite_some_allowed {numberToString : JsNumber → JsString}
    {allowedFields : List JsString} {key : JsString} {value x : JsValue}
    (h : profileEntryWrite numberToString allowedFields key value = .ok (some x)) :
    key ∈ allowedFields := by
  unfold profileEntryWrite at h
  split_ifs at h with h1
  · cases h
  all_goals simpa using h1

theorem profileEntryWrite_not_allowed (numberToString : JsNumber → JsString)
    {allowedFields : List JsString} {key : JsString} (value : JsValue)
    (h : key ∉ allowedFields) :
    profileEntryWrite numberToString allowedFields key value = .ok none := by
  unfold profileEntryWrite
  rw [if_pos (by simpa using h)]

theorem profileEntryWrite_id (numberToString : JsNumber → JsString) (profileType : JsValue)
    (value : JsValue) :
    profileEntryWrite numberToString (allowedFieldsFor profileType) (js "id") value =
      match value with
      | .string s => if !s.isEmpty && !startsWith s (js "temp-") then .ok (some value) else .ok none
      | _ => .ok none := by
  have h1 : ¬ ((!(allowedFieldsFor profileType).contains (js "id")) = true) := by
    simpa using id_allowed profileType
  unfold profileEntryWrite
  rw [if_neg h1, if_pos rfl]
  cases value <;> rfl

theorem profileEntryWrite_geo (numberToString : JsNumber → JsString) (profileType : JsValue)
    {key : JsString} (hkey : key = js "latitude" ∨ key = js "longitude") (value : JsValue) :
    profileEntryWrite numberToString (allowedFieldsFor profileType) key value =
      match value with
      | .number n => if !n.isNaN && n.isFinite then .ok (some value) else .ok none
      | _ => .ok none := by
  have h1 : ¬ ((!(allowedFieldsFor profileType).contains key) = true) := by
    simpa using geo_allowed profileType hkey
  have h2 : key ≠ js "id" := by rcases hkey with rfl | rfl <;> decide
  unfold profileEntryWrite
  rw [if_neg h1, if_neg h2, if_pos hkey]

theorem profileEntryWrite_address (numberToString : JsNumber → JsString) (profileType : JsValue)
    {key : JsString} (hkey : key ∈ addressFields) (value : JsValue) :
    profileEntryWrite numberToString (allowedFieldsFor profileType) key value =
      match value with
      | .undefined => .ok (some .null)
      | .null => .ok (some .null)
      | _ =>
          match value.toJsString numberToString with
          | .ok s => .ok (some (.string (trim s)))
          | .error e => .error e := by
  have h1 : ¬ ((!(allowedFieldsFor profileType).contains key) = true) := by
    simpa using addressFields_allowed profileType hkey
  have h2 : ∀ k ∈ addressFields, k ≠ js "id" ∧ ¬ (k = js "latitude" ∨ k = js "longitude") := by
    decide
  unfold profileEntryWrite
  rw [if_neg h1, if_neg (h2 key hkey).1, if_neg (h2 key hkey).2,
    if_pos (by simpa using hkey)]

theorem profileEntryWrite_other (numberToString : JsNumber → JsString)
    {allowedFields : List JsString} {key : JsString} (hallowed : key ∈ allowedFields)
    (hid : key ≠ js "id") (hgeo : ¬ (key = js "latitude" ∨ key = js "longitude"))
    (haddr : key ∉ addressFields) (value : JsValue) :
    profileEntryWrite numberToString allowedFields key value =
      match value with
      | .undefined => .ok none
      | .null => .ok none
      | .string s => if (trim s).isEmpty then .ok none else .ok (some (.string (trim s)))
      | _ => .ok (some value) := by
  unfold profileEntryWrite
  rw [if_neg (by simpa using hallowed), if_neg hid, if_neg hgeo, if_neg (by simpa using haddr)]

/-- A written value is a fixed point of the write: sanitising it again under
the same key writes it unchanged. -/
theorem profileEntryWrite_fixed {numberToString : JsNumber → JsString}
    {allowedFields : List JsString} {key : JsString} {value x : JsValue}
    (h : profileEntryWrite numberToString allowedFields key value = .ok (some x)) :
    profileEntryWrite numberToString allowedFields key x = .ok (some x) := by
  unfold profileEntryWrite at h ⊢
  split_ifs at h ⊢ with h1 h2 h3 h4
  · cases h
  · cases value with
    | string s =>
      dsimp only at h
      split_ifs at h with h5
      · cases h
        dsimp only
        rw [if_pos h5]
      · cases h
    | _ => simp at h
  · cases value with
    | number n =>
      dsimp only at h
      split_ifs at h with h5
      · cases h
        dsimp only
        rw [if_pos h5]
      · cases h
    | _ => simp at h
  · have key_fact : ∀ s : JsString,
        (match (JsValue.string (trim s)).toJsString numberToString with
          | .ok s1 => (Except.ok (some (JsValue.string (trim s1))) :
              Except JsError (Option JsValue))
          | .error e => .error e) = .ok (some (.string (trim s))) := by
      intro s
      simp [JsValue.toJsString, trim_trim]
    cases value with
    | undefined => cases h; rfl
    | null => cases h; rfl
    | _ =>
      dsimp only at h
      split at h
      · cases h
        exact key_fact _
      · cases h
  · cases value with
    | undefined => cases h
    | null => cases h
    | string s =>
      dsimp only at h
      split_ifs at h with h5
      · cases h
      · cases h
        dsimp only
        rw [trim_trim, if_neg h5]
    | _ =>
      cases h
      rfl

/-! ## The sanitisers as loops of writes -/

theorem objectEntries_orEmptyObject_ok (value : JsValue) :
    ∃ entries, objectEntries value.orEmptyObject = .ok entries := by
  unfold JsValue.orEmptyObject
  split_ifs with h
  · cases value with
    | undefined => simp [JsValue.truthy] at h
    | null => simp [JsValue.truthy] at h
    | _ => exact ⟨_, rfl⟩
  · exact ⟨[], rfl⟩

theorem sanitizeProfilePayload_of_entries (numberToString : JsNumber → JsString)
    {profile : JsValue} (profileType userId : JsValue) {entries : List (JsString × JsValue)}
    (hentries : objectEntries profile.orEmptyObject = .ok entries) :
    sanitizeProfilePayload numberToString profile profileType userId =
      forEachEntry (writeEntry (profileEntryWrite numberToString (allowedFieldsFor profileType)))
        entries [(js "user_id", userId)] := by
  unfold sanitizeProfilePayload
  simp only [hentries, sanitizeProfileEntry_eq_writeEntry]

theorem sanitizeProfilePayload_loop {numberToString : JsNumber → JsString}
    {profile profileType userId : JsValue} {out : JsObject}
    (h : sanitizeProfilePayload numberToString profile profileType userId = .ok out) :
    ∃ entries, objectEntries profile.orEmptyObject = .ok entries ∧
      forEachEntry (writeEntry (profileEntryWrite numberToString (allowedFieldsFor profileType)))
        entries [(js "user_id", userId)] = .ok out := by
  obtain ⟨entries, hentries⟩ := objectEntries_orEmptyObject_ok profile
  exact ⟨entries, hentries,
    by rw [← sanitizeProfilePayload_of_entries numberToString profileType userId hentries, h]⟩

theorem sanitizeScheduledJobPayload_of_entries {payload : JsValue}
    {entries : List (JsString × JsValue)}
    (hentries : objectEntries payload.orEmptyObject = .ok entries) :
    sanitizeScheduledJobPayload payload =
      forEachEntry (writeEntry scheduledJobEntryWrite) entries [] := by
  unfold sanitizeScheduledJobPayload
  simp only [hentries, sanitizeScheduledJobEntry_eq_writeEntry]

theorem allowedFieldsFor_contractor :
    allowedFieldsFor (.string (js "contractor")) = contractorAllowedFields := by
  simp [allowedFieldsFor]

theorem allowedFieldsFor_not_contractor {profileType : JsValue}
    (h : profileType ≠ .string (js "contractor")) :
    allowedFieldsFor profileType = customerAllowedFields := by
  cases profileType with
  | string s =>
    have hs : s ≠ js "contractor" := fun hs => h (by rw [hs])
    simp [allowedFieldsFor, hs]
  | _ => rfl

/-- The keys of the result: the owner key or allow-listed keys of the payload. -/
theorem sanitizeProfilePayload_keys {numberToString : JsNumber → JsString}
    {profile profileType userId : JsValue} {out : JsObject}
    (h : sanitizeProfilePayload numberToString profile profileType userId = .ok out) :
    ∀ key ∈ objectKeys out, key = js "user_id" ∨ key ∈ allowedFieldsFor profileType := by
  obtain ⟨entries, _, hloop⟩ := sanitizeProfilePayload_loop h
  refine forEachEntry_invariant _
    (fun o => ∀ key ∈ objectKeys o, key = js "user_id" ∨ key ∈ allowedFieldsFor profileType)
    ?_ ?_ hloop
  · intro acc key value x hacc _ hw k hk
    rcases (JsObject.mem_keys_set acc key k x).mp hk with hk1 | rfl
    · exact hacc k hk1
    · exact Or.inr (profileEntryWrite_some_allowed hw)
  · intro key hkey
    simp only [objectKeys, List.map_cons, List.map_nil, List.mem_singleton] at hkey
    exact Or.inl hkey

/-- The owner key keeps the value given by the caller through the whole loop. -/
theorem sanitizeProfilePayload_get_user_id {numberToString : JsNumber → JsString}
    {profile profileType userId : JsValue} {out : JsObject}
    (h : sanitizeProfilePayload numberToString profile profileType userId = .ok out) :
    out.get (js "user_id") = some userId := by
  obtain ⟨entries, _, hloop⟩ := sanitizeProfilePayload_loop h
  refine forEachEntry_invariant _ (fun o => o.get (js "user_id") = some userId) ?_ ?_ hloop
  · intro acc key value x hacc _ hw
    have hne : js "user_id" ≠ key := by
      rintro rfl
      exact user_id_not_allowed profileType (profileEntryWrite_some_allowed hw)
    rw [JsObject.get_set_ne _ _ _ _ hne]
    exact hacc
  · simp [JsObject.get]

/-- The shape of the result: the owner entry first, then entries with distinct
allow-listed keys whose values the sanitiser writes back unchanged. -/
theorem sanitizeProfilePayload_shape {numberToString : JsNumber → JsString}
    {profile profileType userId : JsValue} {out : JsObject}
    (h : sanitizeProfilePayload numberToString profile profileType userId = .ok out) :
    ∃ rest, out = (js "user_id", userId) :: rest ∧ (objectKeys rest).Nodup ∧
      ∀ e ∈ rest, profileEntryWrite numberToString (allowedFieldsFor profileType) e.1 e.2
        = .ok (some e.2) := by
  obtain ⟨entries, _, hloop⟩ := sanitizeProfilePayload_loop h
  refine forEachEntry_invariant _
    (fun o => ∃ rest, o = (js "user_id", userId) :: rest ∧ (objectKeys rest).Nodup ∧
      ∀ e ∈ rest, profileEntryWrite numberToString (allowedFieldsFor profileType) e.1 e.2
        = .ok (some e.2)) ?_ ?_ hloop
  · rintro acc key value x ⟨rest, rfl, hnodup, hfix⟩ _ hw
    have hne : js "user_id" ≠ key := by
      rintro rfl
      exact user_id_not_allowed profileType (profileEntryWrite_some_allowed hw)
    refine ⟨JsObject.set rest key x, ?_, JsObject.keys_nodup_set rest key x hnodup, ?_⟩
    · simp [JsObject.set, hne]
    · intro e he
      rcases JsObject.mem_set rest key x e he with he1 | rfl
      · exact hfix e he1
      · exact profileEntryWrite_fixed hw
  · exact ⟨[], rfl, List.nodup_nil, fun e he => by cases he⟩

/-- Sanitising a result again, for the same profile type and owner, returns it. -/
theorem sanitizeProfilePayload_again {numberToString : JsNumber → JsString}
    {profile profileType userId : JsValue} {out : JsObject}
    (h : sanitizeProfilePayload numberToString profile profileType userId = .ok out) :
    sanitizeProfilePayload numberToString (.object out) profileType userId = .ok out := by
  obtain ⟨rest, rfl, hnodup, hfix⟩ := sanitizeProfilePayload_shape h
  have hentries : objectEntries (JsValue.object ((js "user_id", userId) :: rest)).orEmptyObject
      = .ok ((js "user_id", userId) :: rest) := rfl
  rw [sanitizeProfilePayload_of_entries numberToString profileType userId hentries]
  simp only [forEachEntry, writeEntry,
    profileEntryWrite_not_allowed numberToString userId (user_id_not_allowed profileType)]
  refine forEachEntry_fixed _ hfix hnodup _ ?_
  intro k hk hmem
  simp only [objectKeys, List.map_cons, List.map_nil, List.mem_singleton] at hmem
  subst hmem
  obtain ⟨e, he, hek⟩ := List.mem_map.mp hk
  have := profileEntryWrite_some_allowed (hfix e he)
  rw [hek] at this
  exact user_id_not_allowed profileType this

/-- The value the result holds under a key of the payload other than the owner
key: what the callback writes for that entry, when the payload's keys are distinct. -/
theorem sanitizeProfilePayload_get_of_entry {numberToString : JsNumber → JsString}
    {profile profileType userId : JsValue} {entries : List (JsString × JsValue)}
    {key : JsString} {value : JsValue} {out : JsObject}
    (hentries : objectEntries profile.orEmptyObject = .ok entries)
    (hnodup : (objectKeys entries).Nodup) (hmem : (key, value) ∈ entries)
    (hkey : key ≠ js "user_id")
    (h : sanitizeProfilePayload numberToString profile profileType userId = .ok out) :
    ∃ r, profileEntryWrite numberToString (allowedFieldsFor profileType) key value = .ok r ∧
      out.get key = r := by
  rw [sanitizeProfilePayload_of_entries numberToString profileType userId hentries] at h
  obtain ⟨r, hr, hget⟩ := forEachEntry_get_of_mem _ hnodup hmem h
  refine ⟨r, hr, ?_⟩
  rw [hget]
  cases r with
  | some x => rfl
  | none => simp [JsObject.get, Ne.symm hkey]

theorem JsObject.mem_keys_iff_get (o : JsObject) (key : JsString) :
    key ∈ objectKeys o ↔ ∃ x, o.get key = some x := by
  rw [← not_iff_not, ← JsObject.get_eq_none_iff]
  cases o.get key <;> simp

theorem id_ne_user_id : js "id" ≠ js "user_id" := by decide

theorem geo_ne_user_id {key : JsString} (h : key = js "latitude" ∨ key = js "longitude") :
    key ≠ js "user_id" := by
  rcases h with rfl | rfl <;> decide

theorem address_ne_user_id {key : JsString} (h : key ∈ addressFields) :
    key ≠ js "user_id" := by
  have : ∀ k ∈ addressFields, k ≠ js "user_id" := by decide
  exact this key h

/-- The 'id' entry of the payload is copied when it is a non-empty string that
does not start with 'temp-', and left out otherwise. -/
theorem sanitizeProfilePayload_get_id {numberToString : JsNumber → JsString}
    {profile profileType userId : JsValue} {entries : List (JsString × JsValue)}
    {value : JsValue} {out : JsObject}
    (hentries : objectEntries profile.orEmptyObject = .ok entries)
    (hnodup : (objectKeys entries).Nodup) (hmem : (js "id", value) ∈ entries)
    (h : sanitizeProfilePayload numberToString profile profileType userId = .ok out) :
    out.get (js "id") =
      match value with
      | .string s => if !s.isEmpty && !startsWith s (js "temp-") then some value else none
      | _ => none := by
  obtain ⟨r, hr, hget⟩ := sanitizeProfilePayload_get_of_entry hentries hnodup hmem id_ne_user_id h
  rw [hget]
  rw [profileEntryWrite_id] at hr
  cases value with
  | string s =>
    dsimp only at hr ⊢
    split_ifs at hr ⊢ <;> cases hr <;> rfl
  | _ => cases hr; rfl

/-- A latitude or longitude entry of the payload is copied when it is a finite
number, and left out otherwise. -/
theorem sanitizeProfilePayload_get_geo {numberToString : JsNumber → JsString}
    {profile profileType userId : JsValue} {entries : List (JsString × JsValue)}
    {key : JsString} {value : JsValue} {out : JsObject}
    (hkey : key = js "latitude" ∨ key = js "longitude")
    (hentries : objectEntries profile.orEmptyObject = .ok entries)
    (hnodup : (objectKeys entries).Nodup) (hmem : (key, value) ∈ entries)
    (h : sanitizeProfilePayload numberToString profile profileType userId = .ok out) :
    out.get key =
      match value with
      | .number (.finite _ _ _) => some value
      | _ => none := by
  obtain ⟨r, hr, hget⟩ :=
    sanitizeProfilePayload_get_of_entry hentries hnodup hmem (geo_ne_user_id hkey) h
  rw [hget]
  rw [profileEntryWrite_geo numberToString profileType hkey] at hr
  cases value with
  | number n => cases n <;> cases hr <;> rfl
  | _ => cases hr; rfl

/-- An address entry of the payload is always written: null for a null or
undefined value, the trimmed string form otherwise. -/
theorem sanitizeProfilePayload_get_address {numberToString : JsNumber → JsString}
    {profile profileType userId : JsValue} {entries : List (JsString × JsValue)}
    {key : JsString} {value : JsValue} {out : JsObject}
    (hkey : key ∈ addressFields)
    (hentries : objectEntries profile.orEmptyObject = .ok entries)
    (hnodup : (objectKeys entries).Nodup) (hmem : (key, value) ∈ entries)
    (h : sanitizeProfilePayload numberToString profile profileType userId = .ok out) :
    match value with
    | .undefined => out.get key = some .null
    | .null => out.get key = some .null
    | _ => ∃ s, value.toJsString numberToString = .ok s ∧
        out.get key = some (.string (trim s)) := by
  obtain ⟨r, hr, hget⟩ :=
    sanitizeProfilePayload_get_of_entry hentries hnodup hmem (address_ne_user_id hkey) h
  rw [hget]
  rw [profileEntryWrite_address numberToString profileType hkey] at hr
  cases value with
  | undefined => cases hr; rfl
  | null => cases hr; rfl
  | _ =>
    dsimp only at hr ⊢
    split at hr
    · rename_i s hs
      cases hr
      exact ⟨s, hs, rfl⟩
    · cases hr

/-- Any other allow-listed entry of the payload: left out when null, undefined
or blank, trimmed when a string, copied otherwise. -/
theorem sanitizeProfilePayload_get_other {numberToString : JsNumber → JsString}
    {profile profileType userId : JsValue} {entries : List (JsString × JsValue)}
    {key : JsString} {value : JsValue} {out : JsObject}
    (hallowed : key ∈ allowedFieldsFor profileType)
    (hid : key ≠ js "id") (hgeo : ¬ (key = js "latitude" ∨ key = js "longitude"))
    (haddr : key ∉ addressFields)
    (hentries : objectEntries profile.orEmptyObject = .ok entries)
    (hnodup : (objectKeys entries).Nodup) (hmem : (key, value) ∈ entries)
    (h : sanitizeProfilePayload numberToString profile profileType userId = .ok out) :
    out.get key =
      match value with
      | .undefined => none
      | .null => none
      | .string s => if (trim s).isEmpty then none else some (.string (trim s))
      | _ => some value := by
  have hne : key ≠ js "user_id" := by
    rintro rfl
    exact user_id_not_allowed profileType hallowed
  obtain ⟨r, hr, hget⟩ := sanitizeProfilePayload_get_of_entry hentries hnodup hmem hne h
  rw [hget]
  rw [profileEntryWrite_other numberToString hallowed hid hgeo haddr] at hr
  cases value with
  | string s =>
    dsimp only at hr ⊢
    split_ifs at hr ⊢ <;> cases hr <;> rfl
  | _ => cases hr; rfl

/-! ## The claims -/

/-- Claim C1. Whenever `sanitizeProfilePayload` returns an object, each of its
keys is `user_id` or belongs to the allow-list selected by the profile type:
the contractor list for the profile type 'contractor', the customer list for
every other profile type. -/
theorem sanitizeProfilePayload_keys_subset_allow_list
    (numberToString : JsNumber → JsString) (profile profileType userId : JsValue)
    (out : JsObject)
    (h : sanitizeProfilePayload numberToString profile profileType userId = .ok out) :
    ∀ key ∈ objectKeys out,
      (profileType = .string (js "contractor") →
        key = js "user_id" ∨ key ∈ contractorAllowedFields) ∧
      (profileType ≠ .string (js "contractor") →
        key = js "user_id" ∨ key ∈ customerAllowedFields) := by
  intro key hkey
  have hk := sanitizeProfilePayload_keys h key hkey
  constructor
  · rintro rfl
    rwa [allowedFieldsFor_contractor] at hk
  · intro hne
    rwa [allowedFieldsFor_not_contractor hne] at hk

theorem sanitizeProfilePayload_keys_subset_allow_list_witness :
    sanitizeProfilePayload (fun _ => js "0")
        (.object [(js "id", .string (js "temp-1")), (js "foo", .string (js "bar")),
          (js "business_name", .string (js " Acme ")), (js "user_id", .string (js "evil"))])
        (.string (js "contractor")) (.string (js "u1"))
      = .ok [(js "user_id", .string (js "u1")), (js "business_name", .string (js "Acme"))] ∧
    (js "business_name" = js "user_id" ∨ js "business_name" ∈ contractorAllowedFields) :=
  ⟨rfl,
    (sanitizeProfilePayload_keys_subset_allow_list (fun _ => js "0")
      (.object [(js "id", .string (js "temp-1")), (js "foo", .string (js "bar")),
        (js "business_name", .string (js " Acme ")), (js "user_id", .string (js "evil"))])
      (.string (js "contractor")) (.string (js "u1"))
      [(js "user_id", .string (js "u1")), (js "business_name", .string (js "Acme"))] rfl
      (js "business_name") (by decide)).1 rfl⟩

/-- Claim C2. Whenever `sanitizeProfilePayload` returns an object, that object
has the key `user_id` and its value is the `userId` argument, whatever the
payload holds under `user_id` or `id`. -/
theorem sanitizeProfilePayload_user_id_injected
    (numberToString : JsNumber → JsString) (profile profileType userId : JsValue)
    (out : JsObject)
    (h : sanitizeProfilePayload numberToString profile profileType userId = .ok out) :
    js "user_id" ∈ objectKeys out ∧ out.get (js "user_id") = some userId := by
  have hget := sanitizeProfilePayload_get_user_id h
  exact ⟨(JsObject.mem_keys_iff_get out _).mpr ⟨userId, hget⟩, hget⟩

theorem sanitizeProfilePayload_user_id_injected_witness :
    sanitizeProfilePayload (fun _ => js "0")
        (.object [(js "user_id", .string (js "evil")), (js "id", .string (js "abc"))])
        (.string (js "customer")) (.string (js "u1"))
      = .ok [(js "user_id", .string (js "u1")), (js "id", .string (js "abc"))] ∧
    JsObject.get [(js "user_id", .string (js "u1")), (js "id", .string (js "abc"))]
      (js "user_id") = some (.string (js "u1")) :=
  ⟨rfl,
    (sanitizeProfilePayload_user_id_injected (fun _ => js "0")
      (.object [(js "user_id", .string (js "evil")), (js "id", .string (js "abc"))])
      (.string (js "customer")) (.string (js "u1"))
      [(js "user_id", .string (js "u1")), (js "id", .string (js "abc"))] rfl).2⟩

/-- Claim C3. `sanitizeProfilePayload` is idempotent: when it returns an object,
sanitising that object again with the same profile type and owner returns the
same object, with the same keys in the same order and the same values. -/
theorem sanitizeProfilePayload_idempotent
    (numberToString : JsNumber → JsString) (profile profileType userId : JsValue)
    (out : JsObject)
    (h : sanitizeProfilePayload numberToString profile profileType userId = .ok out) :
    sanitizeProfilePayload numberToString (.object out) profileType userId = .ok out :=
  sanitizeProfilePayload_again h

theorem sanitizeProfilePayload_idempotent_witness :
    sanitizeProfilePayload (fun _ => js "0")
        (.object [(js "address", .string (js "  12 Main St ")), (js "zip_code", .null),
          (js "first_name", .string (js " Ann ")), (js "foo", .bool true),
          (js "latitude", .number (.finite false 85 (-1)))])
        (.string (js "customer")) (.string (js "u1"))
      = .ok [(js "user_id", .string (js "u1")), (js "address", .string (js "12 Main St")),
          (js "zip_code", .null), (js "first_name", .string (js "Ann")),
          (js "latitude", .number (.finite false 85 (-1)))] ∧
    sanitizeProfilePayload (fun _ => js "0")
        (.object [(js "user_id", .string (js "u1")), (js "address", .string (js "12 Main St")),
          (js "zip_code", .null), (js "first_name", .string (js "Ann")),
          (js "latitude", .number (.finite false 85 (-1)))])
        (.string (js "customer")) (.string (js "u1"))
      = .ok [(js "user_id", .string (js "u1")), (js "address", .string (js "12 Main St")),
          (js "zip_code", .null), (js "first_name", .string (js "Ann")),
          (js "latitude", .number (.finite false 85 (-1)))] :=
  ⟨rfl,
    sanitizeProfilePayload_idempotent (fun _ => js "0")
      (.object [(js "address", .string (js "  12 Main St ")), (js "zip_code", .null),
        (js "first_name", .string (js " Ann ")), (js "foo", .bool true),
        (js "latitude", .number (.finite false 85 (-1)))])
      (.string (js "customer")) (.string (js "u1")) _ rfl⟩

/-- Claim C4. For a payload with distinct keys that holds `id` with value `v`,
a returned object has the key `id` if and only if `v` is a non-empty string
that does not start with 'temp-'; the value stored is then `v` itself; and a
string starting with 'temp-' never yields an `id` key. -/
theorem sanitizeProfilePayload_id_kept_iff
    (numberToString : JsNumber → JsString) (profile profileType userId : JsValue)
    (entries : List (JsString × JsValue)) (v : JsValue) (out : JsObject)
    (hentries : objectEntries profile.orEmptyObject = .ok entries)
    (hnodup : (objectKeys entries).Nodup) (hmem : (js "id", v) ∈ entries)
    (h : sanitizeProfilePayload numberToString profile profileType userId = .ok out) :
    (js "id" ∈ objectKeys out ↔
      ∃ s, v = .string s ∧ s ≠ [] ∧ startsWith s (js "temp-") = false) ∧
    (js "id" ∈ objectKeys out → out.get (js "id") = some v) ∧
    (∀ s, v = .string s → startsWith s (js "temp-") = true → js "id" ∉ objectKeys out) := by
  have hget := sanitizeProfilePayload_get_id hentries hnodup hmem h
  rw [JsObject.mem_keys_iff_get]
  cases v with
  | string s =>
    dsimp only at hget
    by_cases hs : s = []
    · subst hs
      simp [hget]
    · cases hp : startsWith s (js "temp-") <;> simp [hget, hs, hp]
  | _ => simp [hget]

theorem sanitizeProfilePayload_id_kept_iff_witness :
    sanitizeProfilePayload (fun _ => js "0")
        (.object [(js "id", .string (js "temp-abc")), (js "phone", .string (js "555"))])
        (.string (js "customer")) (.string (js "u1"))
      = .ok [(js "user_id", .string (js "u1")), (js "phone", .string (js "555"))] ∧
    js "id" ∉ objectKeys [(js "user_id", JsValue.string (js "u1")),
      (js "phone", JsValue.string (js "555"))] :=
  ⟨rfl,
    (sanitizeProfilePayload_id_kept_iff (fun _ => js "0")
      (.object [(js "id", .string (js "temp-abc")), (js "phone", .string (js "555"))])
      (.string (js "customer")) (.string (js "u1"))
      [(js "id", .string (js "temp-abc")), (js "phone", .string (js "555"))]
      (.string (js "temp-abc"))
      [(js "user_id", .string (js "u1")), (js "phone", .string (js "555"))]
      rfl (by decide) (List.mem_cons_self _ _) rfl).2.2 (js "temp-abc") rfl rfl⟩

/-- Claim C5. For a payload with distinct keys that holds `latitude` or
`longitude` with value `v`, a returned object has that key if and only if `v`
is a finite number (a number that is neither NaN nor an infinity), and then
with the value `v`; and the callback never throws on such an entry, so any
other value is dropped without an error. -/
theorem sanitizeProfilePayload_geo_kept_iff
    (numberToString : JsNumber → JsString) (profile profileType userId : JsValue)
    (entries : List (JsString × JsValue)) (key : JsString) (v : JsValue) (out : JsObject)
    (hkey : key = js "latitude" ∨ key = js "longitude")
    (hentries : objectEntries profile.orEmptyObject = .ok entries)
    (hnodup : (objectKeys entries).Nodup) (hmem : (key, v) ∈ entries)
    (h : sanitizeProfilePayload numberToString profile profileType userId = .ok out) :
    (key ∈ objectKeys out ↔
      ∃ negative mantissa exponent, v = .number (.finite negative mantissa exponent)) ∧
    (key ∈ objectKeys out → out.get key = some v) ∧
    (∀ sanitized, ∃ sanitized', sanitizeProfileEntry numberToString
      (allowedFieldsFor profileType) sanitized key v = .ok sanitized') := by
  have hget := sanitizeProfilePayload_get_geo hkey hentries hnodup hmem h
  rw [JsObject.mem_keys_iff_get]
  refine ⟨?_, ?_, ?_⟩
  · cases v with
    | number n => cases n <;> simp [hget]
    | _ => simp [hget]
  · cases v with
    | number n => cases n <;> simp [hget]
    | _ => simp [hget]
  · intro sanitized
    rw [sanitizeProfileEntry_eq_writeEntry]
    unfold writeEntry
    rw [profileEntryWrite_geo numberToString profileType hkey]
    cases v with
    | number n => cases n <;> exact ⟨_, rfl⟩
    | _ => exact ⟨_, rfl⟩

theorem sanitizeProfilePayload_geo_kept_iff_witness :
    sanitizeProfilePayload (fun _ => js "0")
        (.object [(js "latitude", .string (js "42.5")),
          (js "longitude", .number (.finite true 83 0))])
        (.string (js "customer")) (.string (js "u1"))
      = .ok [(js "user_id", .string (js "u1")), (js "longitude", .number (.finite true 83 0))] ∧
    (js "latitude" ∈ objectKeys [(js "user_id", JsValue.string (js "u1")),
        (js "longitude", JsValue.number (.finite true 83 0))] ↔
      ∃ negative mantissa exponent,
        JsValue.string (js "42.5") = .number (.finite negative mantissa exponent)) :=
  ⟨rfl,
    (sanitizeProfilePayload_geo_kept_iff (fun _ => js "0")
      (.object [(js "latitude", .string (js "42.5")),
        (js "longitude", .number (.finite true 83 0))])
      (.string (js "customer")) (.string (js "u1"))
      [(js "latitude", .string (js "42.5")), (js "longitude", .number (.finite true 83 0))]
      (js "latitude") (.string (js "42.5"))
      [(js "user_id", .string (js "u1")), (js "longitude", .number (.finite true 83 0))]
      (Or.inl rfl) rfl (by decide) (List.mem_cons_self _ _) rfl).1⟩

/-- Claim C6. For a payload with distinct keys, either profile type, and an
address key (`address`, `city`, `state`, `zip_code`) held with value `v`, a
returned object always has that key: with the value null when `v` is null or
undefined, and otherwise with the string form of `v` with leading and trailing
white space removed, so that an empty or blank string is kept as the empty
string. -/
theorem sanitizeProfilePayload_address_always_kept
    (numberToString : JsNumber → JsString) (profile profileType userId : JsValue)
    (entries : List (JsString × JsValue)) (key : JsString) (v : JsValue) (out : JsObject)
    (hkey : key ∈ addressFields)
    (hentries : objectEntries profile.orEmptyObject = .ok entries)
    (hnodup : (objectKeys entries).Nodup) (hmem : (key, v) ∈ entries)
    (h : sanitizeProfilePayload numberToString profile profileType userId = .ok out) :
    key ∈ objectKeys out ∧
    (v = .undefined ∨ v = .null → out.get key = some .null) ∧
    (v ≠ .undefined → v ≠ .null →
      ∃ s, v.toJsString numberToString = .ok s ∧ out.get key = some (.string (trim s))) ∧
    (∀ s, v = .string s → trim s = [] → out.get key = some (.string [])) := by
  have hget := sanitizeProfilePayload_get_address hkey hentries hnodup hmem h
  rw [JsObject.mem_keys_iff_get]
  cases v with
  | undefined => simp [hget]
  | null => simp [hget]
  | string s =>
    obtain ⟨s1, hs1, hout⟩ := hget
    have hs : s1 = s := by
      simp only [JsValue.toJsString, Except.ok.injEq] at hs1
      exact hs1.symm
    subst hs
    refine ⟨⟨_, hout⟩, by simp, fun _ _ => ⟨s1, hs1, hout⟩, ?_⟩
    intro s2 hs2 htrim
    cases hs2
    rw [hout, htrim]
  | _ =>
    obtain ⟨s1, hs1, hout⟩ := hget
    exact ⟨⟨_, hout⟩, by simp, fun _ _ => ⟨s1, hs1, hout⟩, by simp⟩

theorem sanitizeProfilePayload_address_always_kept_witness :
    sanitizeProfilePayload (fun _ => js "0")
        (.object [(js "address", .string (js "  ")), (js "state", .bool true)])
        (.string (js "contractor")) (.string (js "u1"))
      = .ok [(js "user_id", .string (js "u1")), (js "address", .string (js "")),
          (js "state", .string (js "true"))] ∧
    JsObject.get [(js "user_id", .string (js "u1")), (js "address", .string (js "")),
      (js "state", .string (js "true"))] (js "address") = some (.string []) :=
  ⟨rfl,
    (sanitizeProfilePayload_address_always_kept (fun _ => js "0")
      (.object [(js "address", .string (js "  ")), (js "state", .bool true)])
      (.string (js "contractor")) (.string (js "u1"))
      [(js "address", .string (js "  ")), (js "state", .bool true)]
      (js "address") (.string (js "  "))
      [(js "user_id", .string (js "u1")), (js "address", .string (js "")),
        (js "state", .string (js "true"))]
      (by decide) rfl (by decide) (List.mem_cons_self _ _) rfl).2.2.2 (js "  ") rfl rfl⟩

/-- Claim C7. For a payload with distinct keys and an allow-listed key that is
not `id`, not `latitude` or `longitude` and not an address key, held with value
`v`: a returned object does not have the key when `v` is null, undefined or a
string whose trimmed form is empty; it has the key with the trimmed string when
`v` is a string with a non-empty trimmed form; and it has the key with `v`
unchanged when `v` is any other value. -/
theorem sanitizeProfilePayload_other_field
    (numberToString : JsNumber → JsString) (profile profileType userId : JsValue)
    (entries : List (JsString × JsValue)) (key : JsString) (v : JsValue) (out : JsObject)
    (hallowed : key ∈ allowedFieldsFor profileType)
    (hid : key ≠ js "id") (hgeo : key ≠ js "latitude" ∧ key ≠ js "longitude")
    (haddr : key ∉ addressFields)
    (hentries : objectEntries profile.orEmptyObject = .ok entries)
    (hnodup : (objectKeys entries).Nodup) (hmem : (key, v) ∈ entries)
    (h : sanitizeProfilePayload numberToString profile profileType userId = .ok out) :
    (v = .undefined ∨ v = .null ∨ (∃ s, v = .string s ∧ trim s = []) →
      key ∉ objectKeys out) ∧
    (∀ s, v = .string s → trim s ≠ [] → out.get key = some (.string (trim s))) ∧
    (v ≠ .undefined → v ≠ .null → (∀ s, v ≠ .string s) → out.get key = some v) := by
  have hget := sanitizeProfilePayload_get_other hallowed hid (not_or.mpr hgeo) haddr
    hentries hnodup hmem h
  rw [← JsObject.get_eq_none_iff]
  cases v with
  | undefined => simp [hget]
  | null => simp [hget]
  | string s =>
    dsimp only at hget
    by_cases hs : trim s = []
    · simp [hget, hs]
    · simp [hget, hs]
  | _ => simp [hget]

theorem sanitizeProfilePayload_other_field_witness :
    sanitizeProfilePayload (fun _ => js "0")
        (.object [(js "bio", .string (js "   ")), (js "first_name", .string (js " Ann ")),
          (js "email_notifications", .bool false)])
        (.string (js "customer")) (.string (js "u1"))
      = .ok [(js "user_id", .string (js "u1")), (js "first_name", .string (js "Ann")),
          (js "email_notifications", .bool false)] ∧
    JsObject.get [(js "user_id", .string (js "u1")), (js "first_name", .string (js "Ann")),
      (js "email_notifications", .bool false)] (js "first_name")
      = some (.string (trim (js " Ann "))) :=
  ⟨rfl,
    (sanitizeProfilePayload_other_field (fun _ => js "0")
      (.object [(js "bio", .string (js "   ")), (js "first_name", .string (js " Ann ")),
        (js "email_notifications", .bool false)])
      (.string (js "customer")) (.string (js "u1"))
      [(js "bio", .string (js "   ")), (js "first_name", .string (js " Ann ")),
        (js "email_notifications", .bool false)]
      (js "first_name") (.string (js " Ann "))
      [(js "user_id", .string (js "u1")), (js "first_name", .string (js "Ann")),
        (js "email_notifications", .bool false)]
      (by decide) (by decide) (by decide) (by decide) rfl (by decide)
      (List.mem_cons_of_mem _ (List.mem_cons_self _ _)) rfl).2.1 (js " Ann ") rfl
      (by decide)⟩

/-! ## Fully-invalid payloads -/

theorem profileEntryWrite_invalidEntry (numberToString : JsNumber → JsString)
    (profileType : JsValue) (e : JsString × JsValue)
    (h : invalidEntry (allowedFieldsFor profileType) e) :
    profileEntryWrite numberToString (allowedFieldsFor profileType) e.1 e.2 = .ok none := by
  obtain ⟨key, value⟩ := e
  dsimp only [invalidEntry] at h ⊢
  by_cases hallowed : key ∈ allowedFieldsFor profileType
  swap
  · exact profileEntryWrite_not_allowed numberToString value hallowed
  by_cases hid : key = js "id"
  · subst hid
    rw [profileEntryWrite_id]
    rcases h with h | ⟨_, h⟩ | ⟨h, _⟩ | ⟨_, h, _⟩
    · exact absurd hallowed h
    · cases value with
      | string s =>
        simp only [isPersistableId] at h
        dsimp only
        rw [if_neg (by simp [h])]
      | _ => rfl
    · exact absurd h (by decide)
    · exact absurd rfl h
  by_cases hgeo : key = js "latitude" ∨ key = js "longitude"
  · rw [profileEntryWrite_geo numberToString profileType hgeo]
    have haddr : key ∉ addressFields := by rcases hgeo with rfl | rfl <;> decide
    rcases h with h | ⟨h, _⟩ | ⟨_, h⟩ | ⟨_, _, h⟩
    · exact absurd hallowed h
    · exact absurd h hid
    · cases value with
      | number n => cases n <;> first | rfl | simp [isFiniteNumber] at h
      | _ => rfl
    · cases value with
      | number n => simp [isBlank] at h
      | _ => rfl
  · rcases h with h | ⟨h, _⟩ | ⟨h, _⟩ | ⟨haddr, _, h⟩
    · exact absurd hallowed h
    · exact absurd h hid
    · exact absurd h hgeo
    · rw [profileEntryWrite_other numberToString hallowed hid hgeo haddr]
      cases value with
      | undefined => rfl
      | null => rfl
      | string s =>
        simp only [isBlank] at h
        dsimp only
        rw [if_pos h]
      | _ => simp [isBlank] at h

/-- Claim C8, as stated, fails: the payload whose only entry is `id` with a
whitespace-only string is fully invalid in the claim's words (`id` is a
non-address field holding a whitespace-only string), and the sanitiser keeps
that `id`, so the result has a key besides `user_id`. -/
theorem fully_invalid_as_claimed_counterexample :
    (∀ e ∈ [(js "id", JsValue.string (js "   "))],
      invalidEntryAsClaimed (allowedFieldsFor (.string (js "customer"))) e) ∧
    sanitizeProfilePayload (fun _ => js "0") (.object [(js "id", .string (js "   "))])
        (.string (js "customer")) (.string (js "u1"))
      = .ok [(js "user_id", .string (js "u1")), (js "id", .string (js "   "))] ∧
    sanitizeProfilePayload (fun _ => js "0") (.object [(js "id", .string (js "   "))])
        (.string (js "customer")) (.string (js "u1"))
      ≠ .ok [(js "user_id", .string (js "u1"))] := by
  refine ⟨?_, rfl, ?_⟩
  · intro e he
    rw [List.mem_singleton] at he
    subst he
    exact Or.inr (Or.inr (Or.inr ⟨by decide, rfl⟩))
  · intro h
    have hlen := congrArg (fun r => match r with
      | Except.ok o => List.length o
      | Except.error _ => 0) h
    exact absurd hlen (by decide)

/-- Claim C8, amended. For an omitted (undefined), null or empty payload, and
for every payload each of whose entries has a key outside the allow-list, or is
an `id` that is not a non-empty string or starts with 'temp-', or a
latitude/longitude that is not a finite number, or a field other than `id` and
the address fields whose value is null, undefined or a whitespace-only string,
`sanitizeProfilePayload` returns exactly the object with the single entry
`user_id` set to the owner. -/
theorem sanitizeProfilePayload_fully_invalid
    (numberToString : JsNumber → JsString) (profileType userId : JsValue) :
    sanitizeProfilePayload numberToString .undefined profileType userId
      = .ok [(js "user_id", userId)] ∧
    sanitizeProfilePayload numberToString .null profileType userId
      = .ok [(js "user_id", userId)] ∧
    sanitizeProfilePayload numberToString (.object []) profileType userId
      = .ok [(js "user_id", userId)] ∧
    ∀ (profile : JsValue) (entries : List (JsString × JsValue)),
      objectEntries profile.orEmptyObject = .ok entries →
      (∀ e ∈ entries, invalidEntry (allowedFieldsFor profileType) e) →
      sanitizeProfilePayload numberToString profile profileType userId
        = .ok [(js "user_id", userId)] := by
  refine ⟨rfl, rfl, rfl, ?_⟩
  intro profile entries hentries hinvalid
  rw [sanitizeProfilePayload_of_entries numberToString profileType userId hentries]
  exact forEachEntry_none _
    (fun e he => profileEntryWrite_invalidEntry numberToString profileType e (hinvalid e he)) _

theorem sanitizeProfilePayload_fully_invalid_witness :
    sanitizeProfilePayload (fun _ => js "0")
        (.object [(js "foo", .string (js "bar")), (js "id", .string (js "temp-abc")),
          (js "latitude", .number .nan), (js "bio", .string (js "  "))])
        (.string (js "customer")) (.string (js "u1"))
      = .ok [(js "user_id", .string (js "u1"))] :=
  (sanitizeProfilePayload_fully_invalid (fun _ => js "0") (.string (js "customer"))
    (.string (js "u1"))).2.2.2
    (.object [(js "foo", .string (js "bar")), (js "id", .string (js "temp-abc")),
      (js "latitude", .number .nan), (js "bio", .string (js "  "))])
    [(js "foo", .string (js "bar")), (js "id", .string (js "temp-abc")),
      (js "latitude", .number .nan), (js "bio", .string (js "  "))]
    rfl
    (by
      intro e he
      simp only [List.mem_cons, List.mem_singleton, List.not_mem_nil, or_false] at he
      rcases he with rfl | rfl | rfl | rfl
      · exact Or.inl (by decide)
      · exact Or.inr (Or.inl ⟨rfl, rfl⟩)
      · exact Or.inr (Or.inr (Or.inl ⟨Or.inl rfl, rfl⟩))
      · exact Or.inr (Or.inr (Or.inr ⟨by decide, by decide, rfl⟩)))

/-- Claim C9. The payload {address: "", city: "Troy", latitude: NaN,
foo: "bar"} with profile type 'customer' and owner "u1" is sanitised to exactly
{user_id: "u1", address: "", city: "Troy"}. -/
theorem sanitizeProfilePayload_example (numberToString : JsNumber → JsString) :
    sanitizeProfilePayload numberToString
        (.object [(js "address", .string (js "")), (js "city", .string (js "Troy")),
          (js "latitude", .number .nan), (js "foo", .string (js "bar"))])
        (.string (js "customer")) (.string (js "u1"))
      = .ok [(js "user_id", .string (js "u1")), (js "address", .string (js "")),
          (js "city", .string (js "Troy"))] :=
  rfl

/-! ## Exceptions -/

/-- The callback of `sanitizeScheduledJobPayload` never throws, so the function
returns an object for every payload. -/
theorem sanitizeScheduledJobPayload_returns (payload : JsValue) :
    ∃ out, sanitizeScheduledJobPayload payload = .ok out := by
  obtain ⟨entries, hentries⟩ := objectEntries_orEmptyObject_ok payload
  rw [sanitizeScheduledJobPayload_of_entries hentries]
  refine forEachEntry_ok_of_writes_ok _ ?_ _
  intro e _
  unfold scheduledJobEntryWrite
  split_ifs
  · exact ⟨_, rfl⟩
  · cases e.2 <;> dsimp only <;> (try split_ifs) <;> exact ⟨_, rfl⟩

/-- The function `sanitizeProfilePayload` returns an object exactly when
`String(value)` succeeds on every address value that is neither null nor
undefined; otherwise it throws. -/
theorem sanitizeProfilePayload_returns_iff (numberToString : JsNumber → JsString)
    (profile profileType userId : JsValue) (entries : List (JsString × JsValue))
    (hentries : objectEntries profile.orEmptyObject = .ok entries) :
    (∃ out, sanitizeProfilePayload numberToString profile profileType userId = .ok out) ↔
      ∀ e ∈ entries, e.1 ∈ addressFields →
        e.2 = .undefined ∨ e.2 = .null ∨ ∃ s, e.2.toJsString numberToString = .ok s := by
  rw [sanitizeProfilePayload_of_entries numberToString profileType userId hentries]
  constructor
  · rintro ⟨out, hout⟩ e he hkey
    obtain ⟨r, hr⟩ := forEachEntry_writes_ok_of_ok _ hout e he
    rw [profileEntryWrite_address numberToString profileType hkey] at hr
    cases hv : e.2 with
    | undefined => exact Or.inl rfl
    | null => exact Or.inr (Or.inl rfl)
    | _ =>
      rw [hv] at hr
      dsimp only at hr
      refine Or.inr (Or.inr ?_)
      split at hr
      · rename_i s hs
        exact ⟨s, hs⟩
      · cases hr
  · intro hall
    refine forEachEntry_ok_of_writes_ok _ ?_ _
    intro e he
    by_cases hkey : e.1 ∈ addressFields
    · rw [profileEntryWrite_address numberToString profileType hkey]
      rcases hall e he hkey with hv | hv | ⟨s, hs⟩
      · rw [hv]; exact ⟨_, rfl⟩
      · rw [hv]; exact ⟨_, rfl⟩
      · cases hv : e.2 with
        | undefined => exact ⟨_, rfl⟩
        | null => exact ⟨_, rfl⟩
        | _ =>
          rw [hv] at hs
          dsimp only
          rw [hs]
          exact ⟨_, rfl⟩
    · unfold profileEntryWrite
      split_ifs with h1 h2 h3 h4
      · exact ⟨_, rfl⟩
      · cases e.2 <;> dsimp only <;> (try split_ifs) <;> exact ⟨_, rfl⟩
      · cases e.2 <;> dsimp only <;> (try split_ifs) <;> exact ⟨_, rfl⟩
      · exact absurd (by simpa using h4) hkey
      · cases e.2 <;> dsimp only <;> (try split_ifs) <;> exact ⟨_, rfl⟩

/-- Claim C10 fails on the code. The decoded JSON payload
{"address": {"toString": null}} makes `sanitizeProfilePayload` throw a
TypeError, for every profile type and owner: `String(value)` finds no callable
`toString` on the address value and cannot convert it to a primitive. -/
theorem sanitizeProfilePayload_throws (numberToString : JsNumber → JsString)
    (profileType userId : JsValue) :
    sanitizeProfilePayload numberToString
        (.object [(js "address", .object [(js "toString", .null)])]) profileType userId
      = .error .typeError := by
  have hentries : objectEntries
      (JsValue.object [(js "address", .object [(js "toString", .null)])]).orEmptyObject
      = .ok [(js "address", .object [(js "toString", .null)])] := rfl
  rw [sanitizeProfilePayload_of_entries numberToString profileType userId hentries]
  simp only [forEachEntry, writeEntry]
  rw [profileEntryWrite_address numberToString profileType (by decide)]
  rfl

/-! ## The allow-lists compared -/

theorem mem_both_iff_mem_filter (l1 l2 : List JsString) (k : JsString) :
    k ∈ l1 ∧ k ∈ l2 ↔ k ∈ l1.filter (fun x => l2.contains x) := by
  simp [List.mem_filter]

theorem mem_only_iff_mem_filter (l1 l2 : List JsString) (k : JsString) :
    k ∈ l1 ∧ k ∉ l2 ↔ k ∈ l1.filter (fun x => !l2.contains x) := by
  simp [List.mem_filter]

/-- Claim C11, as stated, fails: `id` belongs to the customer allow-list and
to the contractor allow-list. -/
theorem allow_lists_disjoint_counterexample :
    js "id" ∈ customerAllowedFields ∧ js "id" ∈ contractorAllowedFields := by
  decide

/-- Claim C11, amended. The customer allow-list and the contractor allow-list
overlap: the field names that belong to both are exactly `id`, `first_name`,
`last_name`, `phone`, `address`, `city`, `state`, `zip_code`, `bio`,
`profile_photo`, `email_notifications`, `sms_notifications`,
`preferred_contact_method`, `latitude` and `longitude`, and the field names of
the customer list that the contractor list lacks are exactly `home_type` and
`home_age`. -/
theorem allow_lists_shared_fields :
    (∀ k, k ∈ customerAllowedFields ∧ k ∈ contractorAllowedFields ↔
      k ∈ [js "id", js "first_name", js "last_name", js "phone", js "address", js "city",
        js "state", js "zip_code", js "bio", js "profile_photo", js "email_notifications",
        js "sms_notifications", js "preferred_contact_method", js "latitude",
        js "longitude"]) ∧
    (∀ k, k ∈ customerAllowedFields ∧ k ∉ contractorAllowedFields ↔
      k ∈ [js "home_type", js "home_age"]) := by
  constructor
  · intro k
    rw [mem_both_iff_mem_filter]
    have h : customerAllowedFields.filter (fun x => contractorAllowedFields.contains x) =
        [js "id", js "first_name", js "last_name", js "phone", js "address", js "city",
          js "state", js "zip_code", js "bio", js "profile_photo", js "email_notifications",
          js "sms_notifications", js "preferred_contact_method", js "latitude",
          js "longitude"] := by decide
    rw [h]
  · intro k
    rw [mem_only_iff_mem_filter]
    have h : customerAllowedFields.filter (fun x => !contractorAllowedFields.contains x) =
        [js "home_type", js "home_age"] := by decide
    rw [h]

/-! ## The guard on the data-store client -/

/-- Every handler but `POST /api/onboarding/complete` answers 503 and calls no
collaborator when the data-store client was never initialised. -/
theorem handlers_not_configured (host : Host) (body : JsValue) (param : JsString)
    (limit : JsValue) :
    getReviewsContractor none param = ⟨json 503 [("error", text "Supabase not configured")], []⟩ ∧
    getPaymentsContractor none param
      = ⟨json 503 [("error", text "Supabase not configured")], []⟩ ∧
    postContractorsProfile host none body = ⟨notConfigured, []⟩ ∧
    getContractorsProfile none param = ⟨notConfigured, []⟩ ∧
    postCustomersProfile host none body = ⟨notConfigured, []⟩ ∧
    getCustomersProfile none param = ⟨notConfigured, []⟩ ∧
    getJobDetails host none param = ⟨notConfiguredShort, []⟩ ∧
    getJobLocation host none param = ⟨notConfiguredShort, []⟩ ∧
    postUploadProfilePhoto host none body = ⟨notConfigured, []⟩ ∧
    postCreateFromQuote host none body = ⟨notConfigured, []⟩ ∧
    postNotificationsSend none body = ⟨notConfigured, []⟩ ∧
    getNotifications host none param limit = ⟨notConfiguredShort, []⟩ ∧
    postJobsUpdateStatus host none body = .ok ⟨notConfigured, []⟩ ∧
    postPaymentsCreate host none body = ⟨notConfiguredShort, []⟩ ∧
    postPaymentsUpdateStatus host none body = ⟨notConfiguredShort, []⟩ ∧
    notConfigured.status = 503 ∧ notConfiguredShort.status = 503 :=
  ⟨rfl, rfl, rfl, rfl, rfl, rfl, rfl, rfl, rfl, rfl, rfl, rfl, rfl, rfl, rfl, rfl, rfl⟩

/-- Claim C13 fails on the code. With the data-store client never initialised,
`POST /api/onboarding/complete` answers 500, not 503, for every request; it
makes no collaborator call. -/
theorem postOnboardingComplete_not_configured (host : Host) (body : JsValue) :
    (postOnboardingComplete host none body).response.status = 500 ∧
    (postOnboardingComplete host none body).response.status ≠ 503 ∧
    (postOnboardingComplete host none body).calls = [] :=
  ⟨rfl, by show (500 : Nat) ≠ 503; decide, rfl⟩

/-! ## Nothing to persist -/

theorem onboardingProfileStep_nothing_to_persist (host : Host) (db : Collaborator)
    (profile profileType userId : JsValue) (responseBody : JsObject) (calls : List Call)
    (out : JsObject)
    (h : sanitizeProfilePayload host.numberToString profile profileType userId = .ok out)
    (hkeys : (objectKeys out).length ≤ 1) :
    onboardingProfileStep host db profile profileType userId responseBody calls
      = ⟨⟨200, .object responseBody⟩, calls⟩ := by
  unfold onboardingProfileStep
  by_cases hp : profile.isNonEmptyObject = true
  · rw [if_pos hp, h]
    dsimp only
    rw [if_neg (by omega)]
  · rw [if_neg hp]

theorem postProfile_guard_cases (userId profile : JsValue) :
    (!userId.truthy || !profile.truthy || !profile.typeofObject) = true ∨
      (userId.truthy = true ∧ profile.truthy = true ∧ profile.typeofObject = true) := by
  cases userId.truthy <;> cases profile.truthy <;> cases profile.typeofObject <;> simp

/-- Claim C12. In each profile-writing handler, when the sanitised profile has
no key besides `user_id`, no upsert is issued: `POST /api/contractors/profile`
and `POST /api/customers/profile` answer 400 without any collaborator call, and
`POST /api/onboarding/complete` issues no upsert and, whenever the request has a
user id and its metadata update (if any) succeeds, answers 200 with
`profileUpdated` false. -/
theorem no_upsert_when_nothing_to_persist (host : Host) (db : Collaborator) (body : JsValue)
    (out : JsObject) (hkeys : (objectKeys out).length ≤ 1) :
    (sanitizeProfilePayload host.numberToString (body.orEmptyObject.prop (js "profile"))
        (text "contractor") (body.orEmptyObject.prop (js "userId")) = .ok out →
      (postContractorsProfile host (some db) body).response.status = 400 ∧
      (postContractorsProfile host (some db) body).calls = []) ∧
    (sanitizeProfilePayload host.numberToString (body.orEmptyObject.prop (js "profile"))
        (text "customer") (body.orEmptyObject.prop (js "userId")) = .ok out →
      (postCustomersProfile host (some db) body).response.status = 400 ∧
      (postCustomersProfile host (some db) body).calls = []) ∧
    (sanitizeProfilePayload host.numberToString (body.orEmptyObject.prop (js "profile"))
        ((body.orEmptyObject.prop (js "profileType")).defaultTo (text "customer"))
        (body.orEmptyObject.prop (js "userId")) = .ok out →
      (∀ call ∈ (postOnboardingComplete host (some db) body).calls,
        ∀ table row onConflict, call ≠ .upsert table row onConflict) ∧
      ((body.orEmptyObject.prop (js "userId")).truthy = true →
        ((body.orEmptyObject.prop (js "metadata")).isNonEmptyObject = false ∨
          ∃ data, db (.updateUserById (body.orEmptyObject.prop (js "userId"))
            (body.orEmptyObject.prop (js "metadata"))) = .data data) →
        (postOnboardingComplete host (some db) body).response.status = 200 ∧
        (postOnboardingComplete host (some db) body).response.body.prop (js "profileUpdated")
          = .bool false)) := by
  refine ⟨?_, ?_, ?_⟩
  · intro h
    unfold postContractorsProfile
    dsimp only
    rcases postProfile_guard_cases (body.orEmptyObject.prop (js "userId"))
      (body.orEmptyObject.prop (js "profile")) with hg | ⟨h1, h2, h3⟩
    · rw [if_pos hg]
      exact ⟨rfl, rfl⟩
    · rw [if_neg (by simp [h1, h2, h3]), h]
      dsimp only
      rw [if_pos hkeys]
      exact ⟨rfl, rfl⟩
  · intro h
    unfold postCustomersProfile
    dsimp only
    rcases postProfile_guard_cases (body.orEmptyObject.prop (js "userId"))
      (body.orEmptyObject.prop (js "profile")) with hg | ⟨h1, h2, h3⟩
    · rw [if_pos hg]
      exact ⟨rfl, rfl⟩
    · rw [if_neg (by simp [h1, h2, h3]), h]
      dsimp only
      rw [if_pos hkeys]
      exact ⟨rfl, rfl⟩
  · intro h
    unfold postOnboardingComplete
    dsimp only
    cases hu : (body.orEmptyObject.prop (js "userId")).truthy
    · simp
    · simp only [Bool.not_true, Bool.false_eq_true, if_false, true_implies]
      cases hm : (body.orEmptyObject.prop (js "metadata")).isNonEmptyObject
      · simp only [Bool.false_eq_true, if_false,
          onboardingProfileStep_nothing_to_persist host db _ _ _ _ _ out h hkeys]
        refine ⟨by simp, fun _ => ?_⟩
        constructor <;> first | rfl | trivial
      · simp only [if_true]
        cases hdb : db (.updateUserById (body.orEmptyObject.prop (js "userId"))
            (body.orEmptyObject.prop (js "metadata"))) with
        | error code message =>
          refine ⟨by simp, ?_⟩
          rintro (hfalse | ⟨data, hdata⟩)
          · cases hfalse
          · cases hdata
        | rejected message =>
          refine ⟨by simp, ?_⟩
          rintro (hfalse | ⟨data, hdata⟩)
          · cases hfalse
          · cases hdata
        | data data =>
          simp only [onboardingProfileStep_nothing_to_persist host db _ _ _ _ _ out h hkeys]
          refine ⟨by simp, fun _ => ?_⟩
          constructor <;> first | rfl | trivial

theorem no_upsert_when_nothing_to_persist_witness :
    (postContractorsProfile exampleHost (some (answeringCollaborator .null))
      (.object [(js "userId", text "u1"),
        (js "profile", .object [(js "foo", text "bar")])])).response.status = 400 ∧
    (postContractorsProfile exampleHost (some (answeringCollaborator .null))
      (.object [(js "userId", text "u1"),
        (js "profile", .object [(js "foo", text "bar")])])).calls = [] :=
  (no_upsert_when_nothing_to_persist exampleHost (answeringCollaborator .null)
    (.object [(js "userId", text "u1"), (js "profile", .object [(js "foo", text "bar")])])
    [(js "user_id", text "u1")] (by decide)).1 rfl

/-! ## Collaborator errors -/

theorem getReviewsContractor_failsWithMessage (db : Collaborator) (contractorId : JsString) :
    failsWithMessage db (getReviewsContractor (some db) contractorId) := by
  intro call hcall code message hdb hcode
  unfold getReviewsContractor at hcall ⊢
  dsimp only at hcall ⊢
  repeat' (split at hcall)
  all_goals (dsimp only at hcall)
  all_goals first
    | exact absurd hcall (List.not_mem_nil _)
    | (rw [List.mem_singleton] at hcall
       subst hcall
       simp_all only [Outcome.error.injEq, reduceCtorEq, Bool.true_eq_false, Bool.false_eq_true]
       <;> exact ⟨rfl, Or.inr rfl⟩)

theorem getPaymentsContractor_failsWithMessage (db : Collaborator) (contractorId : JsString) :
    failsWithMessage db (getPaymentsContractor (some db) contractorId) := by
  intro call hcall code message hdb hcode
  unfold getPaymentsContractor at hcall ⊢
  dsimp only at hcall ⊢
  repeat' (split at hcall)
  all_goals (dsimp only at hcall)
  all_goals first
    | exact absurd hcall (List.not_mem_nil _)
    | (rw [List.mem_singleton] at hcall
       subst hcall
       simp_all only [Outcome.error.injEq, reduceCtorEq, Bool.true_eq_false, Bool.false_eq_true]
       <;> exact ⟨rfl, Or.inr rfl⟩)

theorem postContractorsProfile_failsWithMessage (db : Collaborator) (host : Host) (body : JsValue) :
    failsWithMessage db (postContractorsProfile host (some db) body) := by
  intro call hcall code message hdb hcode
  unfold postContractorsProfile at hcall ⊢
  dsimp only at hcall ⊢
  repeat' (split at hcall)
  all_goals (dsimp only at hcall)
  all_goals first
    | exact absurd hcall (List.not_mem_nil _)
    | (rw [List.mem_singleton] at hcall
       subst hcall
       simp_all only [Outcome.error.injEq, reduceCtorEq, Bool.true_eq_false, Bool.false_eq_true]
       <;> exact ⟨rfl, Or.inl rfl⟩)

theorem getContractorsProfile_failsWithMessage (db : Collaborator) (userId : JsString) :
    failsWithMessage db (getContractorsProfile (some db) userId) := by
  intro call hcall code message hdb hcode
  unfold getContractorsProfile getProfile at hcall ⊢
  dsimp only at hcall ⊢
  repeat' (split at hcall)
  all_goals (dsimp only at hcall)
  all_goals first
    | exact absurd hcall (List.not_mem_nil _)
    | (rw [List.mem_singleton] at hcall
       subst hcall
       simp_all only [Outcome.error.injEq, reduceCtorEq, Bool.true_eq_false, Bool.false_eq_true]
       <;> exact ⟨rfl, Or.inl rfl⟩)

theorem postCustomersProfile_failsWithMessage (db : Collaborator) (host : Host) (body : JsValue) :
    failsWithMessage db (postCustomersProfile host (some db) body) := by
  intro call hcall code message hdb hcode
  unfold postCustomersProfile at hcall ⊢
  dsimp only at hcall ⊢
  repeat' (split at hcall)
  all_goals (dsimp only at hcall)
  all_goals first
    | exact absurd hcall (List.not_mem_nil _)
    | (rw [List.mem_singleton] at hcall
       subst hcall
       simp_all only [Outcome.error.injEq, reduceCtorEq, Bool.true_eq_false, Bool.false_eq_true]
       <;> exact ⟨rfl, Or.inl rfl⟩)

theorem getCustomersProfile_failsWithMessage (db : Collaborator) (userId : JsString) :
    failsWithMessage db (getCustomersProfile (some db) userId) := by
  intro call hcall code message hdb hcode
  unfold getCustomersProfile getProfile at hcall ⊢
  dsimp only at hcall ⊢
  repeat' (split at hcall)
  all_goals (dsimp only at hcall)
  all_goals first
    | exact absurd hcall (List.not_mem_nil _)
    | (rw [List.mem_singleton] at hcall
       subst hcall
       simp_all only [Outcome.error.injEq, reduceCtorEq, Bool.true_eq_false, Bool.false_eq_true]
       <;> exact ⟨rfl, Or.inl rfl⟩)

theorem getJobDetails_failsWithMessage (db : Collaborator) (host : Host) (jobId : JsString) :
    failsWithMessage db (getJobDetails host (some db) jobId) := by
  intro call hcall code message hdb hcode
  unfold getJobDetails at hcall ⊢
  dsimp only at hcall ⊢
  repeat' (split at hcall)
  all_goals (dsimp only at hcall)
  all_goals first
    | exact absurd hcall (List.not_mem_nil _)
    | (rw [List.mem_singleton] at hcall
       subst hcall
       simp_all only [Outcome.error.injEq, reduceCtorEq, Bool.true_eq_false, Bool.false_eq_true]
       <;> exact ⟨rfl, Or.inr rfl⟩)

theorem getJobLocation_failsWithMessage (db : Collaborator) (host : Host) (jobId : JsString) :
    failsWithMessage db (getJobLocation host (some db) jobId) := by
  intro call hcall code message hdb hcode
  unfold getJobLocation at hcall ⊢
  dsimp only at hcall ⊢
  repeat' (split at hcall)
  all_goals (dsimp only at hcall)
  all_goals first
    | exact absurd hcall (List.not_mem_nil _)
    | (rw [List.mem_singleton] at hcall
       subst hcall
       simp_all only [Outcome.error.injEq, reduceCtorEq, Bool.true_eq_false, Bool.false_eq_true]
       <;> exact ⟨rfl, Or.inr rfl⟩)

theorem postCreateFromQuote_failsWithMessage (db : Collaborator) (host : Host) (body : JsValue) :
    failsWithMessage db (postCreateFromQuote host (some db) body) := by
  intro call hcall code message hdb hcode
  unfold postCreateFromQuote at hcall ⊢
  dsimp only at hcall ⊢
  repeat' (split at hcall)
  all_goals (dsimp only at hcall)
  all_goals first
    | exact absurd hcall (List.not_mem_nil _)
    | (rw [List.mem_singleton] at hcall
       subst hcall
       simp_all only [Outcome.error.injEq, reduceCtorEq, Bool.true_eq_false, Bool.false_eq_true]
       <;> exact ⟨rfl, Or.inl rfl⟩)

theorem postNotificationsSend_failsWithMessage (db : Collaborator) (body : JsValue) :
    failsWithMessage db (postNotificationsSend (some db) body) := by
  intro call hcall code message hdb hcode
  unfold postNotificationsSend at hcall ⊢
  dsimp only at hcall ⊢
  repeat' (split at hcall)
  all_goals (dsimp only at hcall)
  all_goals first
    | exact absurd hcall (List.not_mem_nil _)
    | (rw [List.mem_singleton] at hcall
       subst hcall
       simp_all only [Outcome.error.injEq, reduceCtorEq, Bool.true_eq_false, Bool.false_eq_true]
       <;> exact ⟨rfl, Or.inl rfl⟩)

theorem getNotifications_failsWithMessage (db : Collaborator) (host : Host) (userId : JsString) (limit : JsValue) :
    failsWithMessage db (getNotifications host (some db) userId limit) := by
  intro call hcall code message hdb hcode
  unfold getNotifications at hcall ⊢
  dsimp only at hcall ⊢
  repeat' (split at hcall)
  all_goals (dsimp only at hcall)
  all_goals first
    | exact absurd hcall (List.not_mem_nil _)
    | (rw [List.mem_singleton] at hcall
       subst hcall
       simp_all only [Outcome.error.injEq, reduceCtorEq, Bool.true_eq_false, Bool.false_eq_true]
       <;> exact ⟨rfl, Or.inl rfl⟩)

theorem postPaymentsCreate_failsWithMessage (db : Collaborator) (host : Host) (body : JsValue) :
    failsWithMessage db (postPaymentsCreate host (some db) body) := by
  intro call hcall code message hdb hcode
  unfold postPaymentsCreate at hcall ⊢
  dsimp only at hcall ⊢
  repeat' (split at hcall)
  all_goals (dsimp only at hcall)
  all_goals first
    | exact absurd hcall (List.not_mem_nil _)
    | (rw [List.mem_singleton] at hcall
       subst hcall
       simp_all only [Outcome.error.injEq, reduceCtorEq, Bool.true_eq_false, Bool.false_eq_true]
       <;> exact ⟨rfl, Or.inl rfl⟩)

theorem postPaymentsUpdateStatus_failsWithMessage (db : Collaborator) (host : Host) (body : JsValue) :
    failsWithMessage db (postPaymentsUpdateStatus host (some db) body) := by
  intro call hcall code message hdb hcode
  unfold postPaymentsUpdateStatus at hcall ⊢
  dsimp only at hcall ⊢
  repeat' (split at hcall)
  all_goals (dsimp only at hcall)
  all_goals first
    | exact absurd hcall (List.not_mem_nil _)
    | (rw [List.mem_singleton] at hcall
       subst hcall
       simp_all only [Outcome.error.injEq, reduceCtorEq, Bool.true_eq_false, Bool.false_eq_true]
       <;> exact ⟨rfl, Or.inl rfl⟩)

theorem postOnboardingComplete_failsWithMessage (db : Collaborator) (host : Host)
    (body : JsValue) :
    failsWithMessage db (postOnboardingComplete host (some db) body) := by
  unfold failsWithMessage postOnboardingComplete onboardingProfileStep
  dsimp only
  repeat' split
  all_goals (intro call hcall code message hdb hcode)
  all_goals (dsimp only at hcall)
  all_goals (simp only [List.mem_append, List.mem_cons, List.mem_singleton, List.not_mem_nil,
    or_false, false_or] at hcall)
  all_goals first
    | (rcases hcall with rfl | rfl <;>
       simp_all only [Outcome.error.injEq, reduceCtorEq, Bool.true_eq_false,
         Bool.false_eq_true, eq_self_iff_true, if_true, if_false]
       <;> exact ⟨rfl, Or.inl rfl⟩)

theorem postJobsUpdateStatus_failsWithMessage (db : Collaborator) (host : Host)
    (body : JsValue) (handled : Handled)
    (h : postJobsUpdateStatus host (some db) body = .ok handled) :
    failsWithMessage db handled := by
  intro call hcall code message hdb hcode
  unfold postJobsUpdateStatus at h
  dsimp only at h
  repeat' (split at h)
  all_goals (cases h)
  all_goals (dsimp only at hcall)
  all_goals first
    | exact absurd hcall (List.not_mem_nil _)
    | (rw [List.mem_singleton] at hcall
       subst hcall
       simp_all only [Outcome.error.injEq, reduceCtorEq, Bool.true_eq_false, Bool.false_eq_true]
       <;> exact ⟨rfl, Or.inl rfl⟩)

theorem postUploadProfilePhoto_error (db : Collaborator) (host : Host) (body : JsValue) :
    ∀ call ∈ (postUploadProfilePhoto host (some db) body).calls, ∀ code message,
      db call = .error code message →
      (postUploadProfilePhoto host (some db) body).response
          = json 500 [("error", text "Failed to upload photo to storage")] ∨
        (postUploadProfilePhoto host (some db) body).response
          = json 500 [("error", text "Failed to generate public URL for uploaded photo")] := by
  unfold postUploadProfilePhoto
  dsimp only
  repeat' split
  all_goals (intro call hcall code message hdb)
  all_goals (dsimp only at hcall)
  all_goals (simp only [List.mem_cons, List.mem_singleton, List.not_mem_nil, or_false] at hcall)
  all_goals first
    | exact Or.inl rfl
    | exact Or.inr rfl
    | (rcases hcall with rfl | rfl <;>
       simp_all only [Outcome.error.injEq, reduceCtorEq])

/-- Claim C14, as stated, fails: when the storage upload of
`POST /api/onboarding/upload-profile-photo` returns an error with the message
'bucket not found', the answer is 500 with the body
{error: 'Failed to upload photo to storage'}, which does not carry that message. -/
theorem upload_error_message_counterexample :
    (postUploadProfilePhoto exampleHost (some (failingCollaborator "404" "bucket not found"))
      (.object [(js "userId", text "u1"),
        (js "dataUrl", text "data:image/png;base64,AAAA")])).calls
      = [.upload (js "profile-photos") (js "users/u1/profile-1700000000000.png") [0, 0, 0]
          (text "image/png")] ∧
    (postUploadProfilePhoto exampleHost (some (failingCollaborator "404" "bucket not found"))
      (.object [(js "userId", text "u1"),
        (js "dataUrl", text "data:image/png;base64,AAAA")])).response.status = 500 ∧
    (postUploadProfilePhoto exampleHost (some (failingCollaborator "404" "bucket not found"))
      (.object [(js "userId", text "u1"),
        (js "dataUrl", text "data:image/png;base64,AAAA")])).response.body
      = .object [(js "error", text "Failed to upload photo to storage")] ∧
    ¬ carriesMessage
      (postUploadProfilePhoto exampleHost (some (failingCollaborator "404" "bucket not found"))
        (.object [(js "userId", text "u1"),
          (js "dataUrl", text "data:image/png;base64,AAAA")])).response.body
      (text "bucket not found") := by
  refine ⟨rfl, rfl, rfl, ?_⟩
  rintro (h | h)
  · cases h
  · exact absurd (JsValue.string.inj h) (by decide)

/-- Claim C14, amended. In every handler that delegates to the data store, a
collaborator call that returns an error other than row-not-found leads to the
status 500 with the collaborator's error message in the body, under `details`
or `error`.  `POST /api/onboarding/upload-profile-photo` answers 500 to an
error of a storage call as well, but with the fixed body
{error: 'Failed to upload photo to storage'} (or, for the public-URL call,
{error: 'Failed to generate public URL for uploaded photo'}), without the
collaborator's message. -/
theorem collaborator_error_gives_500 (host : Host) (db : Collaborator) :
    (∀ contractorId, failsWithMessage db (getReviewsContractor (some db) contractorId)) ∧
    (∀ contractorId, failsWithMessage db (getPaymentsContractor (some db) contractorId)) ∧
    (∀ body, failsWithMessage db (postOnboardingComplete host (some db) body)) ∧
    (∀ body, failsWithMessage db (postContractorsProfile host (some db) body)) ∧
    (∀ userId, failsWithMessage db (getContractorsProfile (some db) userId)) ∧
    (∀ body, failsWithMessage db (postCustomersProfile host (some db) body)) ∧
    (∀ userId, failsWithMessage db (getCustomersProfile (some db) userId)) ∧
    (∀ jobId, failsWithMessage db (getJobDetails host (some db) jobId)) ∧
    (∀ jobId, failsWithMessage db (getJobLocation host (some db) jobId)) ∧
    (∀ body, failsWithMessage db (postCreateFromQuote host (some db) body)) ∧
    (∀ body, failsWithMessage db (postNotificationsSend (some db) body)) ∧
    (∀ userId limit, failsWithMessage db (getNotifications host (some db) userId limit)) ∧
    (∀ body handled, postJobsUpdateStatus host (some db) body = .ok handled →
      failsWithMessage db handled) ∧
    (∀ body, failsWithMessage db (postPaymentsCreate host (some db) body)) ∧
    (∀ body, failsWithMessage db (postPaymentsUpdateStatus host (some db) body)) ∧
    (∀ body, ∀ call ∈ (postUploadProfilePhoto host (some db) body).calls, ∀ code message,
      db call = .error code message →
      (postUploadProfilePhoto host (some db) body).response
          = json 500 [("error", text "Failed to upload photo to storage")] ∨
        (postUploadProfilePhoto host (some db) body).response
          = json 500 [("error", text "Failed to generate public URL for uploaded photo")]) :=
  ⟨getReviewsContractor_failsWithMessage db, getPaymentsContractor_failsWithMessage db,
    postOnboardingComplete_failsWithMessage db host,
    postContractorsProfile_failsWithMessage db host, getContractorsProfile_failsWithMessage db,
    postCustomersProfile_failsWithMessage db host, getCustomersProfile_failsWithMessage db,
    getJobDetails_failsWithMessage db host, getJobLocation_failsWithMessage db host,
    postCreateFromQuote_failsWithMessage db host, postNotificationsSend_failsWithMessage db,
    getNotifications_failsWithMessage db host,
    postJobsUpdateStatus_failsWithMessage db host,
    postPaymentsCreate_failsWithMessage db host, postPaymentsUpdateStatus_failsWithMessage db host,
    postUploadProfilePhoto_error db host⟩

/-! ## Lookups by identifier -/

theorem strictEqualsString_iff (value : JsValue) (literal : JsString) :
    value.strictEqualsString literal = true ↔ value = .string literal := by
  cases value <;> simp [JsValue.strictEqualsString]

theorem strictEqualsString_eq_false (value : JsValue) (literal : JsString)
    (h : value ≠ .string literal) : value.strictEqualsString literal = false := by
  rw [← Bool.not_eq_true, strictEqualsString_iff]
  exact h

theorem getProfile_answersLookup (table : JsString) (notFound failed unexpected : String)
    (db : Collaborator) (userId : JsString) (hid : userId ≠ []) :
    answersLookup db (.selectSingle table (js "*") (js "user_id") (.string userId))
      (getProfile table notFound failed unexpected (some db) userId)
      (fun data response => response = json 200 [("success", .bool true), ("profile", data)]) := by
  have hempty : userId.isEmpty = false := by
    cases userId with
    | nil => exact absurd rfl hid
    | cons _ _ => rfl
  unfold answersLookup getProfile
  simp only [hempty, Bool.false_eq_true, if_false]
  cases hdb : db (.selectSingle table (js "*") (js "user_id") (.string userId)) with
  | data data =>
    refine ⟨rfl, ⟨fun h => absurd h (by show (200 : Nat) ≠ 404; decide), ?_⟩, ?_, ?_⟩
    · rintro ⟨_, h⟩
      cases h
    · intro _ _ h
      cases h
    · intro d h
      cases h
      rfl
  | rejected message =>
    refine ⟨rfl, ⟨fun h => absurd h (by show (500 : Nat) ≠ 404; decide), ?_⟩, ?_, ?_⟩
    · rintro ⟨_, h⟩
      cases h
    · intro _ _ h
      cases h
    · intro d h
      cases h
  | error code message =>
    by_cases hcode : code = text "PGRST116"
    · have hs : code.strictEqualsString (js "PGRST116") = true :=
        (strictEqualsString_iff _ _).mpr hcode
      dsimp only
      rw [if_pos hs]
      refine ⟨rfl, ⟨fun _ => ⟨message, by rw [hcode]⟩, fun _ => rfl⟩, ?_, ?_⟩
      · intro c m h hne
        cases h
        exact absurd hcode hne
      · intro d h
        cases h
    · have hs : code.strictEqualsString (js "PGRST116") = false :=
        strictEqualsString_eq_false _ _ hcode
      dsimp only
      rw [if_neg (by rw [hs]; exact Bool.false_ne_true)]
      refine ⟨rfl, ⟨fun h => absurd h (by show (500 : Nat) ≠ 404; decide), ?_⟩, ?_, ?_⟩
      · rintro ⟨m, h⟩
        cases h
        exact absurd rfl hcode
      · intro _ _ _ _
        rfl
      · intro d h
        cases h

theorem isEmpty_eq_false_of_ne_nil (s : JsString) (h : s ≠ []) : s.isEmpty = false := by
  cases s with
  | nil => exact absurd rfl h
  | cons _ _ => rfl

theorem getJobDetails_answersLookup (host : Host) (db : Collaborator) (jobId : JsString)
    (hid : jobId ≠ []) :
    answersLookup db (.selectSingle (js "job_requests") (js "*") (js "id") (.string jobId))
      (getJobDetails host (some db) jobId)
      (fun data response => isRecord data = true →
        response = json 200 [("success", .bool true), ("job", jobDetails host data)]) := by
  unfold answersLookup getJobDetails
  simp only [isEmpty_eq_false_of_ne_nil jobId hid, Bool.false_eq_true, if_false]
  cases hdb : db (.selectSingle (js "job_requests") (js "*") (js "id") (.string jobId)) with
  | data data =>
    dsimp only
    cases hm : data.member (js "id") with
    | error e =>
      refine ⟨rfl, ⟨fun h => absurd h (by show (500 : Nat) ≠ 404; decide), ?_⟩, ?_, ?_⟩
      · rintro ⟨_, h⟩
        cases h
      · intro _ _ h
        cases h
      · intro d h hrec
        cases h
        cases data with
        | object _ => cases hm
        | _ => cases hrec
    | ok value =>
      refine ⟨rfl, ⟨fun h => absurd h (by show (200 : Nat) ≠ 404; decide), ?_⟩, ?_, ?_⟩
      · rintro ⟨_, h⟩
        cases h
      · intro _ _ h
        cases h
      · intro d h _
        cases h
        rfl
  | rejected message =>
    refine ⟨rfl, ⟨fun h => absurd h (by show (500 : Nat) ≠ 404; decide), ?_⟩, ?_, ?_⟩
    · rintro ⟨_, h⟩
      cases h
    · intro _ _ h
      cases h
    · intro d h
      cases h
  | error code message =>
    by_cases hcode : code = text "PGRST116"
    · have hs : code.strictEqualsString (js "PGRST116") = true :=
        (strictEqualsString_iff _ _).mpr hcode
      dsimp only
      rw [if_pos hs]
      refine ⟨rfl, ⟨fun _ => ⟨message, by rw [hcode]⟩, fun _ => rfl⟩, ?_, ?_⟩
      · intro c m h hne
        cases h
        exact absurd hcode hne
      · intro d h
        cases h
    · have hs : code.strictEqualsString (js "PGRST116") = false :=
        strictEqualsString_eq_false _ _ hcode
      dsimp only
      rw [if_neg (by rw [hs]; exact Bool.false_ne_true)]
      refine ⟨rfl, ⟨fun h => absurd h (by show (500 : Nat) ≠ 404; decide), ?_⟩, ?_, ?_⟩
      · rintro ⟨m, h⟩
        cases h
        exact absurd rfl hcode
      · intro _ _ _ _
        rfl
      · intro d h
        cases h

theorem textColumns_or_string (a b : JsValue) (ha : isTextColumn a = true)
    (hb : isTextColumn b = true) : ∃ s, (a.or b).or (text "") = .string s := by
  cases a <;> cases b <;> simp only [isTextColumn, Bool.false_eq_true] at ha hb <;>
    simp only [JsValue.or, JsValue.truthy, Bool.false_eq_true, if_false] <;>
    (try split_ifs) <;> first | exact ⟨_, rfl⟩ | contradiction

theorem getJobLocation_answersLookup (host : Host) (db : Collaborator) (jobId : JsString)
    (hid : jobId ≠ []) :
    answersLookup db
      (.selectSingle (js "job_requests") (js "id, address, location") (js "id") (.string jobId))
      (getJobLocation host (some db) jobId)
      (fun data response => isRecord data = true →
        isTextColumn (data.prop (js "address")) = true →
        isTextColumn (data.prop (js "location")) = true →
        ∃ fullAddress, response = json 200 [("success", .bool true),
          ("jobId", data.prop (js "id")), ("address", data.prop (js "address")),
          ("location", data.prop (js "location")), ("fullAddress", .string fullAddress)]) := by
  unfold answersLookup getJobLocation
  simp only [isEmpty_eq_false_of_ne_nil jobId hid, Bool.false_eq_true, if_false]
  cases hdb : db (.selectSingle (js "job_requests") (js "id, address, location") (js "id")
      (.string jobId)) with
  | data data =>
    dsimp only
    cases hm : data.member (js "address") with
    | error e =>
      refine ⟨rfl, ⟨fun h => absurd h (by show (500 : Nat) ≠ 404; decide), ?_⟩, ?_, ?_⟩
      · rintro ⟨_, h⟩
        cases h
      · intro _ _ h
        cases h
      · intro d h hrec
        cases h
        cases data with
        | object _ => cases hm
        | _ => cases hrec
    | ok address =>
      dsimp only
      cases ht : callTrim ((address.or (data.prop (js "location"))).or (text "")) with
      | error e =>
        refine ⟨rfl, ⟨fun h => absurd h (by show (500 : Nat) ≠ 404; decide), ?_⟩, ?_, ?_⟩
        · rintro ⟨_, h⟩
          cases h
        · intro _ _ h
          cases h
        · intro d h hrec ha hl
          cases h
          have haddr : address = data.prop (js "address") := by
            cases data <;> first | (cases hrec; done) | (cases hm; rfl)
          subst haddr
          obtain ⟨s, hs⟩ := textColumns_or_string _ _ ha hl
          rw [hs] at ht
          cases ht
      | ok trimmed =>
        refine ⟨rfl, ⟨fun h => absurd h (by show (200 : Nat) ≠ 404; decide), ?_⟩, ?_, ?_⟩
        · rintro ⟨_, h⟩
          cases h
        · intro _ _ h
          cases h
        · intro d h hrec ha hl
          cases h
          have haddr : address = data.prop (js "address") := by
            cases data <;> first | (cases hrec; done) | (cases hm; rfl)
          subst haddr
          obtain ⟨s, hs⟩ := textColumns_or_string _ _ ha hl
          rw [hs] at ht
          cases ht
          exact ⟨_, rfl⟩
  | rejected message =>
    refine ⟨rfl, ⟨fun h => absurd h (by show (500 : Nat) ≠ 404; decide), ?_⟩, ?_, ?_⟩
    · rintro ⟨_, h⟩
      cases h
    · intro _ _ h
      cases h
    · intro d h
      cases h
  | error code message =>
    by_cases hcode : code = text "PGRST116"
    · have hs : code.strictEqualsString (js "PGRST116") = true :=
        (strictEqualsString_iff _ _).mpr hcode
      dsimp only
      rw [if_pos hs]
      refine ⟨rfl, ⟨fun _ => ⟨message, by rw [hcode]⟩, fun _ => rfl⟩, ?_, ?_⟩
      · intro c m h hne
        cases h
        exact absurd hcode hne
      · intro d h
        cases h
    · have hs : code.strictEqualsString (js "PGRST116") = false :=
        strictEqualsString_eq_false _ _ hcode
      dsimp only
      rw [if_neg (by rw [hs]; exact Bool.false_ne_true)]
      refine ⟨rfl, ⟨fun h => absurd h (by show (500 : Nat) ≠ 404; decide), ?_⟩, ?_, ?_⟩
      · rintro ⟨m, h⟩
        cases h
        exact absurd rfl hcode
      · intro _ _ _ _
        rfl
      · intro d h
        cases h

/-- Claim C15. With an initialised client and a non-empty identifier, each
lookup-by-identifier read (contractor profile, customer profile, job details,
job location) makes one call and answers 404 if and only if the collaborator
returns an error whose code is 'PGRST116'; any other collaborator error gives
500; and when a record is returned the answer is 200 with it: the profile
itself, the job details built from the record, or the address and location of
a record whose two columns are text. -/
theorem lookup_status_by_error_code (host : Host) (db : Collaborator) (id : JsString)
    (hid : id ≠ []) :
    answersLookup db (.selectSingle (js "contractor_profiles") (js "*") (js "user_id") (.string id))
      (getContractorsProfile (some db) id)
      (fun data response => response = json 200 [("success", .bool true), ("profile", data)]) ∧
    answersLookup db (.selectSingle (js "customer_profiles") (js "*") (js "user_id") (.string id))
      (getCustomersProfile (some db) id)
      (fun data response => response = json 200 [("success", .bool true), ("profile", data)]) ∧
    answersLookup db (.selectSingle (js "job_requests") (js "*") (js "id") (.string id))
      (getJobDetails host (some db) id)
      (fun data response => isRecord data = true →
        response = json 200 [("success", .bool true), ("job", jobDetails host data)]) ∧
    answersLookup db
      (.selectSingle (js "job_requests") (js "id, address, location") (js "id") (.string id))
      (getJobLocation host (some db) id)
      (fun data response => isRecord data = true →
        isTextColumn (data.prop (js "address")) = true →
        isTextColumn (data.prop (js "location")) = true →
        ∃ fullAddress, response = json 200 [("success", .bool true),
          ("jobId", data.prop (js "id")), ("address", data.prop (js "address")),
          ("location", data.prop (js "location")), ("fullAddress", .string fullAddress)]) :=
  ⟨getProfile_answersLookup _ _ _ _ db id hid, getProfile_answersLookup _ _ _ _ db id hid,
    getJobDetails_answersLookup host db id hid, getJobLocation_answersLookup host db id hid⟩

theorem lookup_status_by_error_code_witness :
    (getContractorsProfile (some (failingCollaborator "PGRST116" "no rows")) (js "u1")).response.status
      = 404 ∧
    (getJobLocation exampleHost (some (failingCollaborator "PGRST116" "no rows"))
      (js "j1")).response.status = 404 :=
  ⟨((lookup_status_by_error_code exampleHost (failingCollaborator "PGRST116" "no rows") (js "u1")
      (by decide)).1).2.1.mpr ⟨text "no rows", rfl⟩,
    rfl⟩

/-! ## `POST /api/jobs/update-status` -/

theorem setHas_iff (elements : List JsString) (value : JsValue) :
    setHas elements value = true ↔ ∃ s ∈ elements, value = .string s := by
  cases value <;> simp [setHas]

/-- For a status that `String()` can print, the validation of
`POST /api/jobs/update-status` is as claim C16 says: with a job request id, the
answer is 400 without any call exactly when the status is missing or its
normalised form is outside the allowed set; otherwise one update is issued,
which writes the normalised status. -/
theorem postJobsUpdateStatus_of_printable (host : Host) (db : Collaborator) (body : JsValue)
    (printed : JsString)
    (hid : (body.orEmptyObject.prop (js "jobRequestId")).truthy = true)
    (hprint : (body.orEmptyObject.prop (js "status")).toJsString host.numberToString
      = .ok printed) :
    ∃ handled, postJobsUpdateStatus host (some db) body = .ok handled ∧
      ((handled.response.status = 400 ∧ handled.calls = []) ↔
        ((body.orEmptyObject.prop (js "status")).truthy = false ∨
          setHas allowedStatuses (normalizedStatus (body.orEmptyObject.prop (js "status")))
            = false)) ∧
      ((body.orEmptyObject.prop (js "status")).truthy = true →
        setHas allowedStatuses (normalizedStatus (body.orEmptyObject.prop (js "status")))
          = true →
        handled.calls = [.update (js "job_requests")
          [(js "status", normalizedStatus (body.orEmptyObject.prop (js "status")))] (js "id")
          (body.orEmptyObject.prop (js "jobRequestId"))]) := by
  unfold postJobsUpdateStatus
  dsimp only
  rw [hid]
  cases hs : (body.orEmptyObject.prop (js "status")).truthy
  · exact ⟨_, rfl, by simp [json], by simp⟩
  · cases hset : setHas allowedStatuses
        (normalizedStatus (body.orEmptyObject.prop (js "status")))
    · simp only [Bool.not_true, Bool.or_self, Bool.false_eq_true, if_false, Bool.not_false,
        if_true, hprint]
      exact ⟨_, rfl, by simp [json], by simp⟩
    · simp only [Bool.not_true, Bool.or_self, Bool.false_eq_true, if_false]
      cases hdb : db (.update (js "job_requests")
          [(js "status", normalizedStatus (body.orEmptyObject.prop (js "status")))] (js "id")
          (body.orEmptyObject.prop (js "jobRequestId"))) <;>
        exact ⟨_, rfl, by simp [json], by simp⟩

/-- The legacy spelling 'in_progress' is rewritten to 'in-progress' before the
membership test, and so accepted; 'bogus' is not accepted. -/
theorem normalizedStatus_examples :
    normalizedStatus (text "in_progress") = text "in-progress" ∧
    setHas allowedStatuses (normalizedStatus (text "in_progress")) = true ∧
    setHas allowedStatuses (text "in_progress") = false ∧
    setHas allowedStatuses (normalizedStatus (text "bogus")) = false :=
  ⟨rfl, rfl, rfl, rfl⟩

/-- Claim C16 fails on the code. For the request
{"jobRequestId": "j1", "status": {"toString": null}} the status is outside the
allowed set, yet the handler sends no 400: building the message
`Invalid status "${status}"` throws a TypeError before the `try` block, so the
exception leaves the handler. -/
theorem postJobsUpdateStatus_throws (host : Host) (db : Collaborator) :
    setHas allowedStatuses (normalizedStatus (.object [(js "toString", .null)])) = false ∧
    postJobsUpdateStatus host (some db)
        (.object [(js "jobRequestId", text "j1"),
          (js "status", .object [(js "toString", .null)])])
      = .error .typeError :=
  ⟨rfl, rfl⟩

/-! ## `POST /api/notifications/send` -/

theorem allowedTypes_truthy (type : JsValue) (h : ∃ s ∈ allowedTypes, type = .string s) :
    type.truthy = true := by
  obtain ⟨s, hs, rfl⟩ := h
  have hne : ∀ s ∈ allowedTypes, (JsValue.string s).truthy = true := by decide
  exact hne s hs

/-- Claim C17. In `POST /api/notifications/send` with an initialised client, a
request whose type is not one of job, quote, message, review, payment, system
is answered 400 and no insert is issued; a request with a user id, a title and
a message and a type of that set issues exactly one insert, whose row carries
that type. -/
theorem notification_type_validated (db : Collaborator) (body : JsValue) :
    ((∀ s ∈ allowedTypes, body.orEmptyObject.prop (js "type") ≠ .string s) →
      (postNotificationsSend (some db) body).response.status = 400 ∧
      (postNotificationsSend (some db) body).calls = []) ∧
    ((body.orEmptyObject.prop (js "userId")).truthy = true →
      (body.orEmptyObject.prop (js "title")).truthy = true →
      (body.orEmptyObject.prop (js "message")).truthy = true →
      (∃ s ∈ allowedTypes, body.orEmptyObject.prop (js "type") = .string s) →
      (postNotificationsSend (some db) body).calls =
        [.insert (js "notifications")
          [(js "user_id", body.orEmptyObject.prop (js "userId")),
            (js "type", body.orEmptyObject.prop (js "type")),
            (js "title", body.orEmptyObject.prop (js "title")),
            (js "message", body.orEmptyObject.prop (js "message")),
            (js "metadata", (body.orEmptyObject.prop (js "data")).nullish .null),
            (js "action_url", (body.orEmptyObject.prop (js "actionUrl")).nullish .null)]]) := by
  constructor
  · intro htype
    have hset : setHas allowedTypes (body.orEmptyObject.prop (js "type")) = false := by
      rw [← Bool.not_eq_true, setHas_iff]
      rintro ⟨s, hs, heq⟩
      exact htype s hs heq
    unfold postNotificationsSend
    dsimp only
    split_ifs with h1 h2
    · exact ⟨rfl, rfl⟩
    · exact ⟨rfl, rfl⟩
    · rw [hset] at h2
      exact absurd rfl h2
  · intro hu ht hm htype
    have hset : setHas allowedTypes (body.orEmptyObject.prop (js "type")) = true :=
      (setHas_iff _ _).mpr htype
    have hty := allowedTypes_truthy _ htype
    unfold postNotificationsSend
    dsimp only
    rw [if_neg (by simp [hu, ht, hm, hty]), if_neg (by simp [hset])]
    split <;> rfl

theorem notification_type_validated_witness :
    (postNotificationsSend (some (answeringCollaborator .null))
      (.object [(js "userId", text "u1"), (js "type", text "unknown_type"),
        (js "title", text "Hello"), (js "message", text "World")])).response.status = 400 ∧
    (postNotificationsSend (some (answeringCollaborator .null))
      (.object [(js "userId", text "u1"), (js "type", text "unknown_type"),
        (js "title", text "Hello"), (js "message", text "World")])).calls = [] :=
  (notification_type_validated (answeringCollaborator .null)
    (.object [(js "userId", text "u1"), (js "type", text "unknown_type"),
      (js "title", text "Hello"), (js "message", text "World")])).1
    (by
      intro s hs h
      have hne : ∀ s ∈ allowedTypes, s ≠ js "unknown_type" := by decide
      exact hne s hs (JsValue.string.inj h).symm)

/-! ## `POST /api/payments/create` -/

theorem postPaymentsCreate_calls (host : Host) (db : Collaborator) (body : JsValue) :
    ∀ call ∈ (postPaymentsCreate host (some db) body).calls,
      ∃ row amount, call = .insert (js "payments") row ∧
        (body.orEmptyObject.prop (js "amount")).toNumber host = .ok amount ∧
        row.get (js "platform_fee") = some (.number (platformFee amount)) ∧
        row.get (js "contractor_payout") = some (.number (contractorPayout amount)) := by
  unfold postPaymentsCreate
  dsimp only
  repeat' split
  all_goals (intro call hcall)
  all_goals (dsimp only at hcall)
  all_goals first
    | exact absurd hcall (List.not_mem_nil _)
    | (rw [List.mem_singleton] at hcall
       subst hcall
       exact ⟨_, _, rfl, by assumption, rfl, rfl⟩)

set_option maxRecDepth 8192 in
/-- The fee and the payout of the amount 100.00, in binary64 arithmetic. -/
theorem fee_of_one_hundred :
    ((decimalLiteral 10000 2).mul (decimalLiteral 29 3)).add (decimalLiteral 30 2)
      = decimalLiteral 32 1 ∧
    (decimalLiteral 10000 2).sub
        (((decimalLiteral 10000 2).mul (decimalLiteral 29 3)).add (decimalLiteral 30 2))
      = decimalLiteral 968 1 ∧
    platformFee (.finite false 100 0) = decimalLiteral 32 1 ∧
    contractorPayout (.finite false 100 0) = decimalLiteral 968 1 := by
  decide

/-- The doubles of the example, by mantissa and exponent: 0.029, 0.30, 100.00,
3.2 and 96.8. -/
theorem decimalLiteral_values :
    decimalLiteral 29 3 = .finite false 8358680908399641 (-58) ∧
    decimalLiteral 30 2 = .finite false 5404319552844595 (-54) ∧
    decimalLiteral 10000 2 = .finite false 7036874417766400 (-46) ∧
    decimalLiteral 32 1 = .finite false 7205759403792794 (-51) ∧
    decimalLiteral 968 1 = .finite false 6811694436397875 (-46) := by
  decide

/-- Claim C18. In `POST /api/payments/create` every inserted row has
`platform_fee = (amount * 0.029) + 0.30` and
`contractor_payout = amount - platform_fee`, computed in binary64 arithmetic in
that order on the number that `amount` converts to; for the amount 100.00 the
fee is the double 3.2 and the payout is the double 96.8. -/
theorem payment_fee_formula (host : Host) (db : Collaborator) (body : JsValue) :
    (∀ call ∈ (postPaymentsCreate host (some db) body).calls,
      ∃ row amount, call = .insert (js "payments") row ∧
        (body.orEmptyObject.prop (js "amount")).toNumber host = .ok amount ∧
        row.get (js "platform_fee") =
          some (.number ((amount.mul (decimalLiteral 29 3)).add (decimalLiteral 30 2))) ∧
        row.get (js "contractor_payout") =
          some (.number
            (amount.sub ((amount.mul (decimalLiteral 29 3)).add (decimalLiteral 30 2))))) ∧
    ((decimalLiteral 10000 2).mul (decimalLiteral 29 3)).add (decimalLiteral 30 2)
      = decimalLiteral 32 1 ∧
    (decimalLiteral 10000 2).sub
        (((decimalLiteral 10000 2).mul (decimalLiteral 29 3)).add (decimalLiteral 30 2))
      = decimalLiteral 968 1 ∧
    platformFee (.finite false 100 0) = decimalLiteral 32 1 ∧
    contractorPayout (.finite false 100 0) = decimalLiteral 968 1 :=
  ⟨postPaymentsCreate_calls host db body, fee_of_one_hundred⟩

/-! ## `POST /api/scheduling/create-from-quote` -/

theorem scheduledJobEntryWrite_some_allowed {key : JsString} {value x : JsValue}
    (h : scheduledJobEntryWrite key value = .ok (some x)) :
    key ∈ scheduledJobAllowedFields := by
  unfold scheduledJobEntryWrite at h
  split_ifs at h with h1
  · cases h
  · simpa using h1

theorem scheduledJobEntryWrite_ok (key : JsString) (value : JsValue) :
    ∃ r, scheduledJobEntryWrite key value = .ok r := by
  unfold scheduledJobEntryWrite
  split_ifs
  · exact ⟨_, rfl⟩
  · cases value <;> dsimp only <;> (try split_ifs) <;> exact ⟨_, rfl⟩

theorem sanitizeScheduledJobPayload_keys {payload : JsValue} {out : JsObject}
    (h : sanitizeScheduledJobPayload payload = .ok out) :
    ∀ key ∈ objectKeys out, key ∈ scheduledJobAllowedFields := by
  obtain ⟨entries, hentries⟩ := objectEntries_orEmptyObject_ok payload
  rw [sanitizeScheduledJobPayload_of_entries hentries] at h
  refine forEachEntry_invariant _ (fun o => ∀ key ∈ objectKeys o, key ∈ scheduledJobAllowedFields)
    ?_ ?_ h
  · intro acc key value x hacc _ hw k hk
    rcases (JsObject.mem_keys_set acc key k x).mp hk with hk1 | rfl
    · exact hacc k hk1
    · exact scheduledJobEntryWrite_some_allowed hw
  · intro key hkey
    cases hkey

theorem JsObject.read_falsy_iff (o : JsObject) (key : JsString) :
    (o.read key).truthy = false ↔
      (o.get key = none ∨ ∃ value, o.get key = some value ∧ value.truthy = false) := by
  unfold JsObject.read
  cases o.get key with
  | none => simp [JsValue.truthy]
  | some value => simp

theorem required_fields_guard (sanitized : JsObject) :
    (!(sanitized.read (js "contractor_id")).truthy ||
      !(sanitized.read (js "job_request_id")).truthy ||
      !(sanitized.read (js "job_date")).truthy ||
      !(sanitized.read (js "start_time")).truthy ||
      !(sanitized.read (js "title")).truthy) = true ↔
    ∃ key ∈ requiredScheduledJobFields, (sanitized.read key).truthy = false := by
  simp [requiredScheduledJobFields, or_assoc]

/-- Claim C19. In `POST /api/scheduling/create-from-quote` with an initialised
client and an object `scheduledJob`, the sanitiser returns, and the request is
answered 400 without any insert if and only if one of `contractor_id`,
`job_request_id`, `job_date`, `start_time`, `title` is absent from the sanitised
payload or falsy in it; otherwise exactly one insert is issued, whose row is
the sanitised payload; and every key of the sanitised payload belongs to the
scheduled-job allow-list. -/
theorem scheduled_job_required_fields (host : Host) (db : Collaborator) (body : JsValue)
    (htruthy : (body.orEmptyObject.prop (js "scheduledJob")).truthy = true)
    (hobject : (body.orEmptyObject.prop (js "scheduledJob")).typeofObject = true) :
    ∃ sanitized,
      sanitizeScheduledJobPayload (body.orEmptyObject.prop (js "scheduledJob")) = .ok sanitized ∧
      (((postCreateFromQuote host (some db) body).response.status = 400 ∧
          (postCreateFromQuote host (some db) body).calls = []) ↔
        ∃ key ∈ requiredScheduledJobFields,
          (sanitized.get key = none ∨
            ∃ value, sanitized.get key = some value ∧ value.truthy = false)) ∧
      ((∀ key ∈ requiredScheduledJobFields,
          ∃ value, sanitized.get key = some value ∧ value.truthy = true) →
        (postCreateFromQuote host (some db) body).calls
          = [.insert (js "scheduled_jobs") sanitized]) ∧
      (∀ key ∈ objectKeys sanitized, key ∈ scheduledJobAllowedFields) := by
  obtain ⟨sanitized, hs⟩ :=
    sanitizeScheduledJobPayload_returns (body.orEmptyObject.prop (js "scheduledJob"))
  refine ⟨sanitized, hs, ?_, ?_, sanitizeScheduledJobPayload_keys hs⟩
  · have hguard := required_fields_guard sanitized
    simp only [← JsObject.read_falsy_iff]
    unfold postCreateFromQuote
    dsimp only
    rw [if_neg (by simp [htruthy, hobject]), hs]
    dsimp only
    by_cases hreq : ∃ key ∈ requiredScheduledJobFields, (sanitized.read key).truthy = false
    · rw [if_pos (hguard.mpr hreq)]
      exact ⟨fun _ => hreq, fun _ => ⟨rfl, rfl⟩⟩
    · rw [if_neg (fun h => hreq (hguard.mp h))]
      constructor
      · rintro ⟨_, hcalls⟩
        revert hcalls
        split <;> intro hcalls <;> cases hcalls
      · intro h
        exact absurd h hreq
  · intro hall
    have hguard := required_fields_guard sanitized
    have hreq : ¬ ∃ key ∈ requiredScheduledJobFields, (sanitized.read key).truthy = false := by
      rintro ⟨key, hkey, hfalse⟩
      obtain ⟨value, hget, htrue⟩ := hall key hkey
      rcases (JsObject.read_falsy_iff sanitized key).mp hfalse with hnone | ⟨v, hv, hvf⟩
      · rw [hnone] at hget
        cases hget
      · rw [hv] at hget
        cases hget
        rw [htrue] at hvf
        cases hvf
    unfold postCreateFromQuote
    dsimp only
    rw [if_neg (by simp [htruthy, hobject]), hs]
    dsimp only
    rw [if_neg (fun h => hreq (hguard.mp h))]
    split <;> rfl

theorem scheduled_job_required_fields_witness :
    (postCreateFromQuote exampleHost (some (answeringCollaborator .null))
      (.object [(js "scheduledJob", .object [(js "contractor_id", text "c1"),
        (js "job_request_id", text "j1"), (js "job_date", text "2024-05-01"),
        (js "start_time", text "09:00"), (js "title", text "   ")])])).response.status = 400 ∧
    (postCreateFromQuote exampleHost (some (answeringCollaborator .null))
      (.object [(js "scheduledJob", .object [(js "contractor_id", text "c1"),
        (js "job_request_id", text "j1"), (js "job_date", text "2024-05-01"),
        (js "start_time", text "09:00"), (js "title", text "   ")])])).calls = [] := by
  obtain ⟨sanitized, hs, hiff, _, _⟩ :=
    scheduled_job_required_fields exampleHost (answeringCollaborator .null)
      (.object [(js "scheduledJob", .object [(js "contractor_id", text "c1"),
        (js "job_request_id", text "j1"), (js "job_date", text "2024-05-01"),
        (js "start_time", text "09:00"), (js "title", text "   ")])]) rfl rfl
  have hval : sanitized = [(js "contractor_id", text "c1"), (js "job_request_id", text "j1"),
      (js "job_date", text "2024-05-01"), (js "start_time", text "09:00")] := by
    have : sanitizeScheduledJobPayload (.object [(js "contractor_id", text "c1"),
        (js "job_request_id", text "j1"), (js "job_date", text "2024-05-01"),
        (js "start_time", text "09:00"), (js "title", text "   ")]) =
        .ok [(js "contractor_id", text "c1"), (js "job_request_id", text "j1"),
          (js "job_date", text "2024-05-01"), (js "start_time", text "09:00")] := rfl
    have hs2 : sanitizeScheduledJobPayload (.object [(js "contractor_id", text "c1"),
        (js "job_request_id", text "j1"), (js "job_date", text "2024-05-01"),
        (js "start_time", text "09:00"), (js "title", text "   ")]) = .ok sanitized := hs
    rw [this] at hs2
    exact (Except.ok.inj hs2).symm
  subst hval
  exact hiff.mpr ⟨js "title", by decide, Or.inl rfl⟩

/-! ## `POST /api/onboarding/upload-profile-photo` -/

theorem matchDataUrl_ne_nil {dataUrl mimeType base64Data : JsString}
    (h : matchDataUrl dataUrl = some (mimeType, base64Data)) : dataUrl.isEmpty = false := by
  cases dataUrl with
  | nil => cases h
  | cons _ _ => rfl

theorem postUploadProfilePhoto_of_match (host : Host) (db : Collaborator) (body : JsValue)
    (userId dataUrl mimeType base64Data : JsString)
    (huser : body.orEmptyObject.prop (js "userId") = .string userId) (hne : userId ≠ [])
    (hdata : body.orEmptyObject.prop (js "dataUrl") = .string dataUrl)
    (hmatch : matchDataUrl dataUrl = some (mimeType, base64Data)) :
    (MAX_FILE_SIZE_BYTES < (host.base64Decode base64Data).length →
      postUploadProfilePhoto host (some db) body
        = ⟨json 413 [("error", text "Photo too large. Please choose an image under 10MB.")],
            []⟩) ∧
    (¬ MAX_FILE_SIZE_BYTES < (host.base64Decode base64Data).length →
      ((postUploadProfilePhoto host (some db) body).response.status = 500 ∨
        (postUploadProfilePhoto host (some db) body).response.status = 200) ∧
      (postUploadProfilePhoto host (some db) body).calls.head? =
        some (.upload (js "profile-photos")
          (filePathFor host userId (body.orEmptyObject.prop (js "fileNameHint")) mimeType)
          (host.base64Decode base64Data) ((JsValue.string mimeType).or (text "image/jpeg")))) := by
  unfold postUploadProfilePhoto
  simp only [huser, hdata, isEmpty_eq_false_of_ne_nil userId hne, matchDataUrl_ne_nil hmatch,
    hmatch, Bool.false_eq_true, if_false]
  constructor
  · intro hbig
    rw [if_pos hbig]
  · intro hsmall
    rw [if_neg hsmall]
    repeat' split
    all_goals first
      | exact ⟨Or.inl rfl, rfl⟩
      | exact ⟨Or.inr rfl, rfl⟩

/-- The size check of the handler taken alone (server.js, lines 1085-1092), on
whatever `req.body` it is given and whatever the decoder yields: with a
non-empty string user id and a data URL of the expected form, the handler
answers 413 without any upload if and only if the decoded byte length exceeds
10 * 1024 * 1024 = 10485760, and otherwise issues the upload with the decoded
bytes.  The section on the route shows which of these bodies the body parser
lets through to the handler. -/
theorem upload_size_limit (host : Host) (db : Collaborator) (body : JsValue)
    (userId dataUrl mimeType base64Data : JsString)
    (huser : body.orEmptyObject.prop (js "userId") = .string userId) (hne : userId ≠ [])
    (hdata : body.orEmptyObject.prop (js "dataUrl") = .string dataUrl)
    (hmatch : matchDataUrl dataUrl = some (mimeType, base64Data)) :
    (((postUploadProfilePhoto host (some db) body).response.status = 413 ∧
        (postUploadProfilePhoto host (some db) body).calls = []) ↔
      10485760 < (host.base64Decode base64Data).length) ∧
    ((postUploadProfilePhoto host (some db) body).response.status = 413 ↔
      10485760 < (host.base64Decode base64Data).length) ∧
    ((host.base64Decode base64Data).length ≤ 10485760 →
      (postUploadProfilePhoto host (some db) body).calls.head? =
        some (.upload (js "profile-photos")
          (filePathFor host userId (body.orEmptyObject.prop (js "fileNameHint")) mimeType)
          (host.base64Decode base64Data) ((JsValue.string mimeType).or (text "image/jpeg")))) ∧
    ((host.base64Decode base64Data).length = 10485760 →
      (postUploadProfilePhoto host (some db) body).response.status ≠ 413) ∧
    MAX_FILE_SIZE_BYTES = 10 * 1024 * 1024 ∧ MAX_FILE_SIZE_BYTES = 10485760 := by
  obtain ⟨hbig, hsmall⟩ :=
    postUploadProfilePhoto_of_match host db body userId dataUrl mimeType base64Data
      huser hne hdata hmatch
  have hmax : MAX_FILE_SIZE_BYTES = 10485760 := rfl
  rw [hmax] at hbig hsmall
  have hstatus : (postUploadProfilePhoto host (some db) body).response.status = 413 ↔
      10485760 < (host.base64Decode base64Data).length := by
    constructor
    · intro h
      by_contra hn
      rcases (hsmall hn).1 with h5 | h2
      · rw [h5] at h
        exact absurd h (by decide)
      · rw [h2] at h
        exact absurd h (by decide)
    · intro h
      rw [hbig h]
      rfl
  refine ⟨?_, hstatus, ?_, ?_, rfl, rfl⟩
  · constructor
    · intro h
      exact hstatus.mp h.1
    · intro h
      rw [hbig h]
      exact ⟨rfl, rfl⟩
  · intro hle
    exact (hsmall (by omega)).2
  · intro heq h
    have := hstatus.mp h
    omega

theorem upload_size_limit_witness :
    (postUploadProfilePhoto exampleHost (some (answeringCollaborator .null))
      (.object [(js "userId", text "u1"),
        (js "dataUrl", text "data:image/png;base64,AAAA")])).calls.head?
      = some (.upload (js "profile-photos") (js "users/u1/profile-1700000000000.png") [0, 0, 0]
          (text "image/png")) :=
  (upload_size_limit exampleHost (answeringCollaborator .null)
    (.object [(js "userId", text "u1"), (js "dataUrl", text "data:image/png;base64,AAAA")])
    (js "u1") (js "data:image/png;base64,AAAA") (js "image/png") (js "AAAA")
    rfl (by decide) rfl rfl).2.2.1 (by decide)

/-! ## The extension and the storage path of an uploaded photo -/

theorem equalsIgnoringCase_iff (mimeType literal : JsString)
    (hlower : ∀ v ∈ literal, ¬ (0x41 ≤ v ∧ v ≤ 0x5A)) :
    equalsIgnoringCase mimeType literal = true ↔ toLowerCase mimeType = literal := by
  induction mimeType generalizing literal with
  | nil =>
    cases literal with
    | nil => simp [equalsIgnoringCase, toLowerCase]
    | cons v t => simp [equalsIgnoringCase, toLowerCase]
  | cons u s ih =>
    cases literal with
    | nil => simp [equalsIgnoringCase, toLowerCase]
    | cons v t =>
      have hv : ¬ (0x41 ≤ v ∧ v ≤ 0x5A) := hlower v (List.mem_cons_self _ _)
      have ht : ∀ w ∈ t, ¬ (0x41 ≤ w ∧ w ≤ 0x5A) :=
        fun w hw => hlower w (List.mem_cons_of_mem _ hw)
      have ih1 := ih t ht
      simp only [toLowerCase] at ih1
      simp only [equalsIgnoringCase, toLowerCase, List.map_cons, List.cons.injEq,
        Bool.and_eq_true, Bool.or_eq_true, beq_iff_eq, decide_eq_true_eq, ih1]
      constructor
      · rintro ⟨h, hs⟩
        refine ⟨?_, hs⟩
        split_ifs with hu <;> omega
      · rintro ⟨h, hs⟩
        refine ⟨?_, hs⟩
        split_ifs at h with hu <;> omega

theorem extensionFor_nil : extensionFor [] = js "jpg" := rfl

/-- Claim C21. The file extension of the photo-upload handler is a total
function of the declared MIME type, compared without regard to the case of
ASCII letters: `image/jpeg` and `image/jpg` give `jpg`, `image/png` gives `png`,
`image/gif` gives `gif`, `image/webp` gives `webp`, and every other type, the
empty one included, gives `jpg`; the result is always one of `jpg`, `png`,
`gif` and `webp`. -/
theorem extension_by_mime_type (mimeType : JsString) :
    extensionFor mimeType =
      (if equalsIgnoringCase mimeType (js "image/jpeg") = true ∨
          equalsIgnoringCase mimeType (js "image/jpg") = true then js "jpg"
        else if equalsIgnoringCase mimeType (js "image/png") = true then js "png"
        else if equalsIgnoringCase mimeType (js "image/gif") = true then js "gif"
        else if equalsIgnoringCase mimeType (js "image/webp") = true then js "webp"
        else js "jpg") ∧
    extensionFor mimeType ∈ [js "jpg", js "png", js "gif", js "webp"] ∧
    extensionFor (js "") = js "jpg" ∧
    extensionFor (js "image/jpeg") = js "jpg" ∧
    extensionFor (js "Image/JPG") = js "jpg" ∧
    extensionFor (js "IMAGE/PNG") = js "png" ∧
    extensionFor (js "image/gif") = js "gif" ∧
    extensionFor (js "image/WebP") = js "webp" ∧
    extensionFor (js "image/svg+xml") = js "jpg" ∧
    extensionFor (js "image/png;charset=utf-8") = js "jpg" := by
  refine ⟨?_, ?_, rfl, by decide, by decide, by decide, by decide, by decide, by decide,
    by decide⟩
  · have h1 := equalsIgnoringCase_iff mimeType (js "image/jpeg") (by decide)
    have h2 := equalsIgnoringCase_iff mimeType (js "image/jpg") (by decide)
    have h3 := equalsIgnoringCase_iff mimeType (js "image/png") (by decide)
    have h4 := equalsIgnoringCase_iff mimeType (js "image/gif") (by decide)
    have h5 := equalsIgnoringCase_iff mimeType (js "image/webp") (by decide)
    simp only [h1, h2, h3, h4, h5]
    unfold extensionFor
    cases mimeType with
    | nil => decide
    | cons u s =>
      simp only [List.isEmpty_cons, Bool.false_eq_true, if_false]
      split_ifs <;> simp_all
  · unfold extensionFor
    split_ifs <;> simp

theorem sanitizedHint_spec (fileNameHint : JsValue) :
    hintAsClaimed fileNameHint
      (if (sanitizedHintFor fileNameHint).isEmpty then js "profile"
        else sanitizedHintFor fileNameHint) := by
  cases fileNameHint with
  | string s =>
    cases s with
    | nil => simp [hintAsClaimed, sanitizedHintFor]
    | cons u t =>
      have hiff : ∀ w : Nat, isHintCodeUnit w = isLetterDigitOrHyphen w := fun w => rfl
      simp only [hintAsClaimed, sanitizedHintFor, List.map_cons, List.isEmpty_cons,
        Bool.false_eq_true, if_false, reduceCtorEq, List.length_cons, List.length_map,
        true_and, hiff]
      intro i w hw
      rw [← List.map_cons (fun u => if isLetterDigitOrHyphen u = true then u else 0x5F) u t,
        List.getElem?_map, hw]
      rfl
  | _ => rfl

theorem sanitizedHint_no_separator (fileNameHint : JsValue) :
    '/'.toNat ∉ (if (sanitizedHintFor fileNameHint).isEmpty then js "profile"
        else sanitizedHintFor fileNameHint) ∧
    '.'.toNat ∉ (if (sanitizedHintFor fileNameHint).isEmpty then js "profile"
        else sanitizedHintFor fileNameHint) := by
  have hprofile : '/'.toNat ∉ js "profile" ∧ '.'.toNat ∉ js "profile" := by decide
  split_ifs with h
  · exact hprofile
  · cases fileNameHint with
    | string s =>
      simp only [sanitizedHintFor, List.mem_map, not_exists, not_and]
      constructor <;>
      · intro u _ hu
        split_ifs at hu with hk
        · subst hu
          revert hk
          decide
        · revert hu
          decide
    | _ => exact hprofile

theorem postUploadProfilePhoto_upload_call (host : Host) (db : Collaborator) (body : JsValue)
    (bucket path : JsString) (bytes : List Nat) (contentType : JsValue)
    (hcall : Call.upload bucket path bytes contentType ∈
      (postUploadProfilePhoto host (some db) body).calls) :
    ∃ userId dataUrl mimeType base64Data,
      body.orEmptyObject.prop (js "userId") = .string userId ∧
      body.orEmptyObject.prop (js "dataUrl") = .string dataUrl ∧
      matchDataUrl dataUrl = some (mimeType, base64Data) ∧
      path = filePathFor host userId (body.orEmptyObject.prop (js "fileNameHint")) mimeType := by
  unfold postUploadProfilePhoto at hcall
  dsimp only at hcall
  revert hcall
  repeat' split
  all_goals (intro hcall)
  all_goals first
    | exact absurd hcall (List.not_mem_nil _)
    | (simp only [List.mem_cons, List.mem_singleton, Call.upload.injEq, reduceCtorEq,
        or_false, List.not_mem_nil] at hcall
       obtain ⟨_, hpath, _, _⟩ := hcall
       exact ⟨_, _, _, _, by assumption, by assumption, by assumption, hpath⟩)

/-- Claim C22. Every upload issued by the photo-upload handler has the path
`'users/' + userId + '/' + hint + '-' + timestamp + '.' + extension`, with the
user id and the MIME type of the request and the clock value in decimal; for a
non-empty string `fileNameHint` the hint has the same length, keeps every ASCII
letter, digit and hyphen and has `_` in every other place, and it is `profile`
when `fileNameHint` is not a string or is empty; the hint contains neither `/`
nor `.`. -/
theorem upload_storage_path (host : Host) (db : Collaborator) (body : JsValue)
    (bucket path : JsString) (bytes : List Nat) (contentType : JsValue)
    (hcall : Call.upload bucket path bytes contentType ∈
      (postUploadProfilePhoto host (some db) body).calls) :
    ∃ userId dataUrl mimeType base64Data hint,
      body.orEmptyObject.prop (js "userId") = .string userId ∧
      body.orEmptyObject.prop (js "dataUrl") = .string dataUrl ∧
      matchDataUrl dataUrl = some (mimeType, base64Data) ∧
      path = js "users/" ++ userId ++ js "/" ++ hint ++ js "-" ++ decimalString host.now ++
        js "." ++ extensionFor mimeType ∧
      hintAsClaimed (body.orEmptyObject.prop (js "fileNameHint")) hint ∧
      '/'.toNat ∉ hint ∧ '.'.toNat ∉ hint := by
  obtain ⟨userId, dataUrl, mimeType, base64Data, huser, hdata, hmatch, hpath⟩ :=
    postUploadProfilePhoto_upload_call host db body bucket path bytes contentType hcall
  exact ⟨userId, dataUrl, mimeType, base64Data, _, huser, hdata, hmatch, hpath,
    sanitizedHint_spec _, sanitizedHint_no_separator _⟩

theorem upload_storage_path_witness :
    Call.upload (js "profile-photos") (js "users/u1/my_photo_1_-1700000000000.png") [0, 0, 0]
        (text "image/png") ∈
      (postUploadProfilePhoto exampleHost (some (answeringCollaborator .null))
        (.object [(js "userId", text "u1"),
          (js "dataUrl", text "data:image/png;base64,AAAA"),
          (js "fileNameHint", text "my/photo.1é")])).calls ∧
    ∃ userId dataUrl mimeType base64Data hint,
      (JsValue.object [(js "userId", text "u1"),
          (js "dataUrl", text "data:image/png;base64,AAAA"),
          (js "fileNameHint", text "my/photo.1é")]).orEmptyObject.prop (js "userId")
        = .string userId ∧
      (JsValue.object [(js "userId", text "u1"),
          (js "dataUrl", text "data:image/png;base64,AAAA"),
          (js "fileNameHint", text "my/photo.1é")]).orEmptyObject.prop (js "dataUrl")
        = .string dataUrl ∧
      matchDataUrl dataUrl = some (mimeType, base64Data) ∧
      js "users/u1/my_photo_1_-1700000000000.png" =
        js "users/" ++ userId ++ js "/" ++ hint ++ js "-" ++
          decimalString exampleHost.now ++ js "." ++ extensionFor mimeType ∧
      hintAsClaimed ((JsValue.object [(js "userId", text "u1"),
          (js "dataUrl", text "data:image/png;base64,AAAA"),
          (js "fileNameHint", text "my/photo.1é")]).orEmptyObject.prop (js "fileNameHint"))
        hint ∧
      '/'.toNat ∉ hint ∧ '.'.toNat ∉ hint :=
  ⟨List.mem_cons_self _ _,
    upload_storage_path exampleHost (answeringCollaborator .null)
      (.object [(js "userId", text "u1"),
        (js "dataUrl", text "data:image/png;base64,AAAA"),
        (js "fileNameHint", text "my/photo.1é")])
      (js "profile-photos") (js "users/u1/my_photo_1_-1700000000000.png") [0, 0, 0]
      (text "image/png") (List.mem_cons_self _ _)⟩

/-! ## The flags of `POST /api/onboarding/complete` -/

theorem sanitizeProfilePayload_more_keys_iff {numberToString : JsNumber → JsString}
    {profile profileType userId : JsValue} {out : JsObject}
    (h : sanitizeProfilePayload numberToString profile profileType userId = .ok out) :
    1 < (objectKeys out).length ↔ hasKeyBesidesUserId out = true := by
  obtain ⟨rest, rfl, _, hfix⟩ := sanitizeProfilePayload_shape h
  cases rest with
  | nil => simp [objectKeys, hasKeyBesidesUserId]
  | cons e rest =>
    have hallowed := profileEntryWrite_some_allowed (hfix e (List.mem_cons_self _ _))
    have hne : e.1 ≠ js "user_id" := by
      intro heq
      rw [heq] at hallowed
      exact user_id_not_allowed profileType hallowed
    simp [objectKeys, hasKeyBesidesUserId, hne]

/-- The profile step leaves `metadataUpdated` as it finds it and, when it
answers 200, reports in `profileUpdated` whether it upserted. -/
theorem onboardingProfileStep_flags (host : Host) (db : Collaborator)
    (profile profileType userId : JsValue) (responseBody : JsObject) (calls : List Call)
    (hflag : responseBody.get (js "profileUpdated") = some (.bool false))
    (h200 : (onboardingProfileStep host db profile profileType userId responseBody
      calls).response.status = 200) :
    (onboardingProfileStep host db profile profileType userId responseBody
        calls).response.body.prop (js "metadataUpdated")
      = responseBody.read (js "metadataUpdated") ∧
    (onboardingProfileStep host db profile profileType userId responseBody
        calls).response.body.prop (js "profileUpdated")
      = .bool (profile.isNonEmptyObject &&
          match sanitizeProfilePayload host.numberToString profile profileType userId with
          | .ok sanitized => hasKeyBesidesUserId sanitized
          | .error _ => false) := by
  have hread : (JsValue.object responseBody).prop (js "profileUpdated") = .bool false := by
    simp [JsValue.prop, hflag]
  unfold onboardingProfileStep at h200 ⊢
  by_cases hp : profile.isNonEmptyObject = true
  · rw [if_pos hp] at h200 ⊢
    rw [hp, Bool.true_and]
    cases hs : sanitizeProfilePayload host.numberToString profile profileType userId with
    | error e =>
      rw [hs] at h200
      exact absurd (show (500 : Nat) = 200 from h200) (by decide)
    | ok sanitized =>
      rw [hs] at h200
      dsimp only at h200 ⊢
      by_cases hk : 1 < (objectKeys sanitized).length
      · rw [if_pos hk] at h200 ⊢
        rw [(sanitizeProfilePayload_more_keys_iff hs).mp hk]
        revert h200
        split
        · intro h200; exact absurd (show (500 : Nat) = 200 from h200) (by decide)
        · intro h200; exact absurd (show (500 : Nat) = 200 from h200) (by decide)
        · intro _
          constructor
          · simp only [JsValue.prop, JsObject.read]
            rw [JsObject.get_set_ne _ _ _ _ (by decide), JsObject.get_set_ne _ _ _ _ (by decide)]
          · simp only [JsValue.prop]
            rw [JsObject.get_set_ne _ _ _ _ (by decide), JsObject.get_set_self]
            rfl
      · rw [if_neg hk]
        have hfalse : hasKeyBesidesUserId sanitized = false := by
          cases hb : hasKeyBesidesUserId sanitized
          · rfl
          · exact absurd ((sanitizeProfilePayload_more_keys_iff hs).mpr hb) hk
        rw [hfalse]
        exact ⟨rfl, hread⟩
  · rw [if_neg hp]
    rw [Bool.not_eq_true] at hp
    rw [hp, Bool.false_and]
    exact ⟨rfl, hread⟩

theorem postOnboardingComplete_flags (host : Host) (db : Collaborator) (body : JsValue)
    (h200 : (postOnboardingComplete host (some db) body).response.status = 200) :
    (postOnboardingComplete host (some db) body).response.body.prop (js "metadataUpdated")
      = .bool (body.orEmptyObject.prop (js "metadata")).isNonEmptyObject ∧
    (postOnboardingComplete host (some db) body).response.body.prop (js "profileUpdated")
      = .bool ((body.orEmptyObject.prop (js "profile")).isNonEmptyObject &&
          match sanitizeProfilePayload host.numberToString (body.orEmptyObject.prop (js "profile"))
            ((body.orEmptyObject.prop (js "profileType")).defaultTo (text "customer"))
            (body.orEmptyObject.prop (js "userId")) with
          | .ok sanitized => hasKeyBesidesUserId sanitized
          | .error _ => false) := by
  unfold postOnboardingComplete at h200 ⊢
  dsimp only at h200 ⊢
  by_cases hu : (!(body.orEmptyObject.prop (js "userId")).truthy) = true
  · rw [if_pos hu] at h200
    exact absurd (show (400 : Nat) = 200 from h200) (by decide)
  · rw [if_neg hu] at h200 ⊢
    by_cases hm : (body.orEmptyObject.prop (js "metadata")).isNonEmptyObject = true
    · rw [if_pos hm] at h200 ⊢
      rw [hm]
      revert h200
      split
      · intro h200; exact absurd (show (500 : Nat) = 200 from h200) (by decide)
      · intro h200; exact absurd (show (500 : Nat) = 200 from h200) (by decide)
      · intro h200
        have hstep := onboardingProfileStep_flags host db _ _ _ _ _
          (by rw [JsObject.get_set_ne _ _ _ _ (by decide),
                JsObject.get_set_ne _ _ _ _ (by decide)]; rfl) h200
        refine ⟨?_, hstep.2⟩
        rw [hstep.1]
        unfold JsObject.read
        rw [JsObject.get_set_ne _ _ _ _ (by decide), JsObject.get_set_self]
        rfl
    · rw [if_neg hm] at h200 ⊢
      rw [Bool.not_eq_true] at hm
      rw [hm]
      have hstep := onboardingProfileStep_flags host db _ _ _
        [(js "success", .bool true), (js "metadataUpdated", .bool false),
          (js "profileUpdated", .bool false)] [] rfl h200
      exact ⟨hstep.1, hstep.2⟩

theorem bool_true_iff (b : Bool) : JsValue.bool b = .bool true ↔ b = true := by
  cases b <;> simp

theorem bool_false_iff (b : Bool) : JsValue.bool b = .bool false ↔ b = false := by
  cases b <;> simp

theorem profile_flag_iff (p : Bool) (sanitize : Except JsError JsObject) :
    (p && match sanitize with
        | .ok sanitized => hasKeyBesidesUserId sanitized
        | .error _ => false) = true ↔
      p = true ∧ ∃ sanitized, sanitize = .ok sanitized ∧ hasKeyBesidesUserId sanitized = true := by
  cases sanitize with
  | ok sanitized => simp
  | error e => simp

/-- Claim C23. In a 200 response of `POST /api/onboarding/complete`,
`metadataUpdated` is true if and only if the metadata of the request is an
object with at least one key, and false otherwise; `profileUpdated` is true if
and only if the profile of the request is an object with at least one key whose
sanitised form has a key besides `user_id`, and false otherwise.  A request
with a user id and neither metadata nor profile is answered 200 with both flags
false, without any collaborator call, and each of the four combinations of the
two flags is the answer to some request. -/
theorem onboarding_flags_independent (host : Host) (db : Collaborator) (body : JsValue) :
    ((postOnboardingComplete host (some db) body).response.status = 200 →
      (((postOnboardingComplete host (some db) body).response.body.prop (js "metadataUpdated")
          = .bool true ↔
        (body.orEmptyObject.prop (js "metadata")).isNonEmptyObject = true) ∧
      ((postOnboardingComplete host (some db) body).response.body.prop (js "metadataUpdated")
          = .bool false ↔
        (body.orEmptyObject.prop (js "metadata")).isNonEmptyObject = false) ∧
      ((postOnboardingComplete host (some db) body).response.body.prop (js "profileUpdated")
          = .bool true ↔
        ((body.orEmptyObject.prop (js "profile")).isNonEmptyObject = true ∧
          ∃ sanitized,
            sanitizeProfilePayload host.numberToString (body.orEmptyObject.prop (js "profile"))
              ((body.orEmptyObject.prop (js "profileType")).defaultTo (text "customer"))
              (body.orEmptyObject.prop (js "userId")) = .ok sanitized ∧
            hasKeyBesidesUserId sanitized = true)) ∧
      ((postOnboardingComplete host (some db) body).response.body.prop (js "profileUpdated")
          = .bool false ↔
        ¬ ((body.orEmptyObject.prop (js "profile")).isNonEmptyObject = true ∧
          ∃ sanitized,
            sanitizeProfilePayload host.numberToString (body.orEmptyObject.prop (js "profile"))
              ((body.orEmptyObject.prop (js "profileType")).defaultTo (text "customer"))
              (body.orEmptyObject.prop (js "userId")) = .ok sanitized ∧
            hasKeyBesidesUserId sanitized = true)))) ∧
    ((body.orEmptyObject.prop (js "userId")).truthy = true →
      (body.orEmptyObject.prop (js "metadata")).isNonEmptyObject = false →
      (body.orEmptyObject.prop (js "profile")).isNonEmptyObject = false →
      postOnboardingComplete host (some db) body =
        ⟨⟨200, .object [(js "success", .bool true), (js "metadataUpdated", .bool false),
          (js "profileUpdated", .bool false)]⟩, []⟩) ∧
    (∀ metadataUpdated profileUpdated : Bool, ∃ request,
      (postOnboardingComplete exampleHost (some (answeringCollaborator .null))
        request).response.status = 200 ∧
      (postOnboardingComplete exampleHost (some (answeringCollaborator .null))
        request).response.body.prop (js "metadataUpdated") = .bool metadataUpdated ∧
      (postOnboardingComplete exampleHost (some (answeringCollaborator .null))
        request).response.body.prop (js "profileUpdated") = .bool profileUpdated) := by
  refine ⟨?_, ?_, ?_⟩
  · intro h200
    obtain ⟨hm, hp⟩ := postOnboardingComplete_flags host db body h200
    rw [hm, hp, bool_true_iff, bool_false_iff, bool_true_iff, bool_false_iff,
      ← profile_flag_iff, Bool.not_eq_true]
    exact ⟨Iff.rfl, Iff.rfl, Iff.rfl, Iff.rfl⟩
  · intro hu hm hp
    unfold postOnboardingComplete
    dsimp only
    rw [if_neg (by simp [hu]), if_neg (by simp [hm])]
    unfold onboardingProfileStep
    rw [if_neg (by simp [hp])]
  · intro metadataUpdated profileUpdated
    cases metadataUpdated <;> cases profileUpdated
    · exact ⟨.object [(js "userId", text "u1")], rfl, rfl, rfl⟩
    · exact ⟨.object [(js "userId", text "u1"),
        (js "profile", .object [(js "city", text "Troy")])], rfl, rfl, rfl⟩
    · exact ⟨.object [(js "userId", text "u1"),
        (js "metadata", .object [(js "role", text "customer")])], rfl, rfl, rfl⟩
    · exact ⟨.object [(js "userId", text "u1"),
        (js "metadata", .object [(js "role", text "customer")]),
        (js "profile", .object [(js "city", text "Troy")])], rfl, rfl, rfl⟩

theorem onboarding_flags_independent_witness :
    (postOnboardingComplete exampleHost (some (answeringCollaborator .null))
      (.object [(js "userId", text "u1"),
        (js "profile", .object [(js "city", text "Troy")])])).response.status = 200 ∧
    (postOnboardingComplete exampleHost (some (answeringCollaborator .null))
      (.object [(js "userId", text "u1"),
        (js "profile", .object [(js "city", text "Troy")])])).response.body.prop
        (js "metadataUpdated") = .bool false ∧
    (postOnboardingComplete exampleHost (some (answeringCollaborator .null))
      (.object [(js "userId", text "u1"),
        (js "profile", .object [(js "city", text "Troy")])])).response.body.prop
        (js "profileUpdated") = .bool true :=
  ⟨rfl,
    (((onboarding_flags_independent exampleHost (answeringCollaborator .null)
      (.object [(js "userId", text "u1"),
        (js "profile", .object [(js "city", text "Troy")])])).1 rfl).2.1).mpr rfl,
    (((onboarding_flags_independent exampleHost (answeringCollaborator .null)
      (.object [(js "userId", text "u1"),
        (js "profile", .object [(js "city", text "Troy")])])).1 rfl).2.2.1).mpr
      ⟨rfl, _, rfl, rfl⟩⟩

/-! ## The required names of `POST /api/customers/profile` -/

theorem isNullish_of_truthy {value : JsValue} (h : value.truthy = true) :
    value.isNullish = false := by
  cases value <;> first | rfl | cases h

theorem ensureRequired_get_self (profile : JsValue) (sanitizedProfile : JsObject)
    (key : JsString) :
    (ensureRequired profile sanitizedProfile key).get key =
      some (if (sanitizedProfile.read key).truthy = true then sanitizedProfile.read key
        else if (profile.prop key).truthy = true then profile.prop key else text "") := by
  unfold ensureRequired
  by_cases h : (sanitizedProfile.read key).truthy = true
  · rw [if_neg (by simp [h]), if_pos h]
    unfold JsObject.read at h ⊢
    cases hget : sanitizedProfile.get key with
    | none =>
      rw [hget] at h
      cases h
    | some value => rfl
  · rw [if_pos (by simp [h]), if_neg h, JsObject.get_set_self]
    rfl

theorem ensureRequired_get_ne (profile : JsValue) (sanitizedProfile : JsObject)
    (key other : JsString) (hne : other ≠ key) :
    (ensureRequired profile sanitizedProfile key).get other = sanitizedProfile.get other := by
  unfold ensureRequired
  split_ifs
  · exact JsObject.get_set_ne _ _ _ _ hne
  · rfl

theorem ensureRequired_read_truthy (profile : JsValue) (sanitizedProfile : JsObject)
    (key other : JsString) (hne : other ≠ key) :
    (ensureRequired profile sanitizedProfile key).read other = sanitizedProfile.read other := by
  unfold JsObject.read
  rw [ensureRequired_get_ne _ _ _ _ hne]

theorem required_value_not_nullish (kept raw : JsValue) :
    (if kept.truthy = true then kept
      else if raw.truthy = true then raw else text "").isNullish = false := by
  split_ifs with h1 h2
  · exact isNullish_of_truthy h1
  · exact isNullish_of_truthy h2
  · rfl

theorem read_of_not_mem_keys (o : JsObject) (key : JsString) (h : key ∉ objectKeys o) :
    o.read key = .undefined := by
  unfold JsObject.read
  rw [(JsObject.get_eq_none_iff o key).mpr h]
  rfl

theorem postCustomersProfile_calls (host : Host) (db : Collaborator) (body : JsValue) :
    ∀ call ∈ (postCustomersProfile host (some db) body).calls,
      ∃ sanitized,
        sanitizeProfilePayload host.numberToString (body.orEmptyObject.prop (js "profile"))
          (text "customer") (body.orEmptyObject.prop (js "userId")) = .ok sanitized ∧
        call = .upsert (js "customer_profiles")
          (ensureRequired (body.orEmptyObject.prop (js "profile"))
            (ensureRequired (body.orEmptyObject.prop (js "profile")) sanitized
              (js "first_name")) (js "last_name")) (js "user_id") := by
  unfold postCustomersProfile
  dsimp only
  repeat' split
  all_goals (intro call hcall)
  all_goals (dsimp only at hcall)
  all_goals first
    | exact absurd hcall (List.not_mem_nil _)
    | (rw [List.mem_singleton] at hcall
       subst hcall
       exact ⟨_, by assumption, rfl⟩)

/-- Claim C27. In `POST /api/customers/profile` every call made to the data
store is an upsert into `customer_profiles` whose row has both `first_name` and
`last_name`, neither of them null or undefined: the row holds the sanitised
value when that is truthy, and otherwise the value of the raw profile when that
is truthy and the empty string when it is not; the latter applies in particular
to a name that the sanitiser dropped. -/
theorem customer_names_never_null (host : Host) (db : Collaborator) (body : JsValue)
    (call : Call) (hcall : call ∈ (postCustomersProfile host (some db) body).calls) :
    ∃ sanitized row,
      sanitizeProfilePayload host.numberToString (body.orEmptyObject.prop (js "profile"))
        (text "customer") (body.orEmptyObject.prop (js "userId")) = .ok sanitized ∧
      call = .upsert (js "customer_profiles") row (js "user_id") ∧
      ∀ key, key = js "first_name" ∨ key = js "last_name" →
        ∃ value, row.get key = some value ∧ value.isNullish = false ∧
          value = (if (sanitized.read key).truthy = true then sanitized.read key
            else if ((body.orEmptyObject.prop (js "profile")).prop key).truthy = true then
              (body.orEmptyObject.prop (js "profile")).prop key
            else text "") ∧
          (key ∉ objectKeys sanitized →
            value = if ((body.orEmptyObject.prop (js "profile")).prop key).truthy = true then
              (body.orEmptyObject.prop (js "profile")).prop key
            else text "") := by
  obtain ⟨sanitized, hs, hrow⟩ := postCustomersProfile_calls host db body call hcall
  refine ⟨sanitized, _, hs, hrow, ?_⟩
  have hdropped : ∀ key, key ∉ objectKeys sanitized →
      (if (sanitized.read key).truthy = true then sanitized.read key
        else if ((body.orEmptyObject.prop (js "profile")).prop key).truthy = true then
          (body.orEmptyObject.prop (js "profile")).prop key
        else text "") =
      (if ((body.orEmptyObject.prop (js "profile")).prop key).truthy = true then
          (body.orEmptyObject.prop (js "profile")).prop key
        else text "") := by
    intro key hkey
    rw [read_of_not_mem_keys _ _ hkey, if_neg (by decide)]
  rintro key (rfl | rfl)
  · refine ⟨_, ?_, required_value_not_nullish _ _, rfl, hdropped _⟩
    rw [ensureRequired_get_ne _ _ _ _ (by decide), ensureRequired_get_self]
  · refine ⟨_, ?_, required_value_not_nullish _ _, rfl, hdropped _⟩
    rw [ensureRequired_get_self, ensureRequired_read_truthy _ _ _ _ (by decide)]

theorem customer_names_never_null_witness :
    Call.upsert (js "customer_profiles")
        [(js "user_id", text "u1"), (js "city", text "Troy"), (js "first_name", text "  "),
          (js "last_name", text "")] (js "user_id") ∈
      (postCustomersProfile exampleHost (some (answeringCollaborator .null))
        (.object [(js "userId", text "u1"),
          (js "profile", .object [(js "city", text "Troy"), (js "first_name", text "  "),
            (js "last_name", .null)])])).calls ∧
    ∃ value,
      JsObject.get [(js "user_id", text "u1"), (js "city", text "Troy"),
        (js "first_name", text "  "), (js "last_name", text "")] (js "last_name")
        = some value ∧
      value.isNullish = false := by
  refine ⟨List.mem_cons_self _ _, ?_⟩
  obtain ⟨sanitized, row, _, hrow, hkeys⟩ :=
    customer_names_never_null exampleHost (answeringCollaborator .null)
      (.object [(js "userId", text "u1"),
        (js "profile", .object [(js "city", text "Troy"), (js "first_name", text "  "),
          (js "last_name", .null)])])
      (.upsert (js "customer_profiles")
        [(js "user_id", text "u1"), (js "city", text "Troy"), (js "first_name", text "  "),
          (js "last_name", text "")] (js "user_id")) (List.mem_cons_self _ _)
  obtain ⟨value, hget, hnull, _⟩ := hkeys (js "last_name") (Or.inr rfl)
  cases hrow
  exact ⟨value, hget, hnull⟩

/-! ## Small amounts in `POST /api/payments/create` -/

theorem number_truthy_of_nonzero (n : JsNumber)
    (hnonzero : n.isZero = false) (hnumber : n.isNaN = false) :
    (JsValue.number n).truthy = true := by
  cases n with
  | finite negative mantissa exponent =>
    simpa [JsValue.truthy, JsNumber.isZero] using hnonzero
  | infinity negative => rfl
  | nan => cases hnumber

theorem postPaymentsCreate_inserts (host : Host) (db : Collaborator) (body : JsValue)
    (n : JsNumber) (hamount : body.orEmptyObject.prop (js "amount") = .number n)
    (htruthy : (JsValue.number n).truthy = true)
    (hinvoice : (body.orEmptyObject.prop (js "invoice_id")).truthy = true)
    (hjob : (body.orEmptyObject.prop (js "job_request_id")).truthy = true)
    (hcontractor : (body.orEmptyObject.prop (js "contractor_id")).truthy = true)
    (hcustomer : (body.orEmptyObject.prop (js "customer_id")).truthy = true) :
    ∃ row, (postPaymentsCreate host (some db) body).calls = [.insert (js "payments") row] ∧
      row.get (js "amount") = some (.number n) ∧
      row.get (js "platform_fee") = some (.number (platformFee n)) ∧
      row.get (js "contractor_payout") = some (.number (contractorPayout n)) := by
  unfold postPaymentsCreate
  dsimp only
  rw [if_neg (by simp [hamount, htruthy, hinvoice, hjob, hcontractor, hcustomer]), hamount]
  simp only [JsValue.toNumber]
  refine ⟨[(js "payment_number", .string (js "PAY-" ++ decimalString host.now)),
    (js "invoice_id", body.orEmptyObject.prop (js "invoice_id")),
    (js "job_request_id", body.orEmptyObject.prop (js "job_request_id")),
    (js "contractor_id", body.orEmptyObject.prop (js "contractor_id")),
    (js "customer_id", body.orEmptyObject.prop (js "customer_id")), (js "amount", .number n),
    (js "payment_method", (body.orEmptyObject.prop (js "payment_method")).or (text "stripe")),
    (js "status", text "pending"), (js "currency", text "usd"),
    (js "platform_fee", .number (platformFee n)),
    (js "contractor_payout", .number (contractorPayout n))], ?_, rfl, rfl, rfl⟩
  repeat' split
  all_goals rfl

set_option maxRecDepth 8192 in
/-- The fee and the payout of the amount 0.01, in binary64 arithmetic: the
doubles 0.30029 and -0.29029. -/
theorem payout_of_one_cent :
    platformFee (decimalLiteral 1 2) = .finite false 5409543728412345 (-54) ∧
    contractorPayout (decimalLiteral 1 2) = .finite true 5229399743317525 (-54) := by
  decide

/-- Claim C28. In exact rational arithmetic, with
`platform_fee = amount * 29/1000 + 3/10` and
`contractor_payout = amount - platform_fee`, the fee and the payout add up to
the amount and the payout is negative exactly when `amount < 300/971`.
`POST /api/payments/create` does not reject such amounts: for every amount that
is a number other than zero and NaN, with the four other required fields
present, exactly one insert is issued, whose row carries the amount, the fee
and the payout; for the amount 0.01 the inserted payout is the negative double
-0.29029. -/
theorem payout_negative_below_threshold (host : Host) (db : Collaborator) (body : JsValue)
    (amount : ℚ) :
    platformFeeExact amount + contractorPayoutExact amount = amount ∧
    (contractorPayoutExact amount < 0 ↔ amount < 300 / 971) ∧
    (∀ n : JsNumber, body.orEmptyObject.prop (js "amount") = .number n →
      n.isZero = false → n.isNaN = false →
      (body.orEmptyObject.prop (js "invoice_id")).truthy = true →
      (body.orEmptyObject.prop (js "job_request_id")).truthy = true →
      (body.orEmptyObject.prop (js "contractor_id")).truthy = true →
      (body.orEmptyObject.prop (js "customer_id")).truthy = true →
      ∃ row, (postPaymentsCreate host (some db) body).calls = [.insert (js "payments") row] ∧
        row.get (js "amount") = some (.number n) ∧
        row.get (js "platform_fee") = some (.number (platformFee n)) ∧
        row.get (js "contractor_payout") = some (.number (contractorPayout n))) ∧
    platformFee (decimalLiteral 1 2) = .finite false 5409543728412345 (-54) ∧
    contractorPayout (decimalLiteral 1 2) = .finite true 5229399743317525 (-54) := by
  refine ⟨?_, ?_, ?_, payout_of_one_cent⟩
  · unfold contractorPayoutExact
    ring
  · unfold contractorPayoutExact platformFeeExact
    constructor
    · intro h
      rw [lt_div_iff₀ (by norm_num)]
      linarith
    · intro h
      rw [lt_div_iff₀ (by norm_num)] at h
      linarith
  · intro n hamount hnonzero hnumber hinvoice hjob hcontractor hcustomer
    exact postPaymentsCreate_inserts host db body n hamount
      (number_truthy_of_nonzero n hnonzero hnumber) hinvoice hjob hcontractor hcustomer

theorem payout_negative_below_threshold_witness :
    contractorPayoutExact (1 / 100) < 0 ∧
    ∃ row, (postPaymentsCreate exampleHost (some (answeringCollaborator .null))
        (.object [(js "invoice_id", text "i1"), (js "job_request_id", text "j1"),
          (js "contractor_id", text "c1"), (js "customer_id", text "u1"),
          (js "amount", .number (decimalLiteral 1 2))])).calls
        = [.insert (js "payments") row] ∧
      row.get (js "amount") = some (.number (decimalLiteral 1 2)) ∧
      row.get (js "platform_fee") = some (.number (platformFee (decimalLiteral 1 2))) ∧
      row.get (js "contractor_payout")
        = some (.number (contractorPayout (decimalLiteral 1 2))) :=
  ⟨((payout_negative_below_threshold exampleHost (answeringCollaborator .null)
      (.object [(js "invoice_id", text "i1"), (js "job_request_id", text "j1"),
        (js "contractor_id", text "c1"), (js "customer_id", text "u1"),
        (js "amount", .number (decimalLiteral 1 2))]) (1 / 100)).2.1).mpr (by norm_num),
    (payout_negative_below_threshold exampleHost (answeringCollaborator .null)
      (.object [(js "invoice_id", text "i1"), (js "job_request_id", text "j1"),
        (js "contractor_id", text "c1"), (js "customer_id", text "u1"),
        (js "amount", .number (decimalLiteral 1 2))]) (1 / 100)).2.2.1
      (decimalLiteral 1 2) rfl (by decide) (by decide) rfl rfl rfl rfl⟩

/-! ## The push dispatchers -/

theorem softFailure_isSendResult (error : JsValue) : isSendResult (softFailure error) = true :=
  rfl

theorem caught_isSendResult {reason answer : JsValue} (h : caught reason = .ok answer) :
    isSendResult answer = true := by
  unfold caught at h
  split at h
  · cases h
    rfl
  · cases h

theorem apnsAnswer_isSendResult {host : Host} {result answer : JsValue}
    (h : apnsAnswer host result = .ok answer) : isSendResult answer = true := by
  unfold apnsAnswer at h
  repeat' split at h
  all_goals first
    | (cases h; rfl)
    | cases h

theorem sendApplePush_isSendResult (service : PushNotificationService) (host : Host)
    (deviceToken title body data sound badge answer : JsValue)
    (h : (service.sendApplePush host deviceToken title body data sound badge).result
      = .ok answer) : isSendResult answer = true := by
  unfold PushNotificationService.sendApplePush at h
  dsimp only at h
  revert h
  repeat' split
  all_goals intro h
  all_goals first
    | (cases h; rfl)
    | exact caught_isSendResult h
    | (cases h; exact apnsAnswer_isSendResult (by assumption))

theorem sendAndroidPush_isSendResult (service : PushNotificationService)
    (admin : JsObject → Settled) (deviceToken title body data sound answer : JsValue)
    (h : (service.sendAndroidPush admin deviceToken title body data sound).result
      = .ok answer) : isSendResult answer = true := by
  unfold PushNotificationService.sendAndroidPush at h
  dsimp only at h
  revert h
  repeat' split
  all_goals intro h
  all_goals first
    | (cases h; rfl)
    | exact caught_isSendResult h

theorem delegated_ok (host : Host) (sent : Dispatched ChannelCall)
    (hsent : ∀ answer, sent.result = .ok answer → isSendResult answer = true) :
    ∃ answer, (delegated host sent).result = .ok answer ∧ isSendResult answer = true := by
  unfold delegated
  cases hr : sent.result with
  | ok answer => exact ⟨answer, rfl, hsent answer hr⟩
  | error e => exact ⟨_, rfl, rfl⟩

/-- A send to a destructurable argument returns a result object. -/
theorem sendPushNotification_returns (service : PushNotificationService)
    (admin : JsObject → Settled) (host : Host) (params : JsValue)
    (hparams : params.isNullish = false) :
    ∃ answer, (service.sendPushNotification admin host params).result = .ok answer ∧
      isSendResult answer = true := by
  unfold PushNotificationService.sendPushNotification
  rw [if_neg (by simp [hparams])]
  dsimp only
  split_ifs
  · exact ⟨_, rfl, rfl⟩
  · exact ⟨_, rfl, rfl⟩
  · exact delegated_ok host _ (sendApplePush_isSendResult service host _ _ _ _ _ _)
  · exact delegated_ok host _ (sendAndroidPush_isSendResult service admin _ _ _ _ _)
  · exact ⟨_, rfl, rfl⟩

theorem isSuccessful_of_outcome (r : Settled) (h : isSendOutcome r = true) :
    isSuccessful r = .ok (resolvedWithSuccess r) := by
  cases r with
  | rejected reason => rfl
  | fulfilled value =>
    cases value with
    | object entries =>
      simp only [isSendOutcome, isSendResult] at h
      simp only [isSuccessful, JsValue.member, JsValue.prop, resolvedWithSuccess]
      cases hget : JsObject.get entries (js "success") with
      | none => rw [hget] at h; cases h
      | some success =>
        rw [hget] at h
        cases success with
        | bool b => cases b <;> rfl
        | _ => cases h
    | _ => cases h

theorem successfulCount_of_outcomes (results : List Settled)
    (h : ∀ r ∈ results, isSendOutcome r = true) :
    successfulCount results = .ok (results.countP resolvedWithSuccess) := by
  induction results with
  | nil => rfl
  | cons r rest ih =>
    have hr := isSuccessful_of_outcome r (h r (List.mem_cons_self _ _))
    have hrest := ih fun x hx => h x (List.mem_cons_of_mem _ hx)
    unfold successfulCount
    rw [hr, hrest]
    cases hb : resolvedWithSuccess r
    · simp [List.countP_cons, hb]
    · simp [List.countP_cons, hb]

theorem bulkTally_of_outcomes (results : List Settled)
    (h : ∀ r ∈ results, isSendOutcome r = true) :
    bulkTally results = .ok (tally (results.countP resolvedWithSuccess)
      (results.length - results.countP resolvedWithSuccess) results.length) := by
  unfold bulkTally
  rw [successfulCount_of_outcomes results h]
  rfl

theorem takeWhile_of_all {α : Type} (p : α → Bool) (l : List α) (h : ∀ x ∈ l, p x = true) :
    l.takeWhile p = l := by
  induction l with
  | nil => rfl
  | cons x rest ih =>
    rw [List.takeWhile_cons, h x (List.mem_cons_self _ _)]
    simp only [if_true]
    rw [ih fun y hy => h y (List.mem_cons_of_mem _ hy)]

theorem sendBulkPush_of_targets (service : PushNotificationService)
    (admin : JsObject → Settled) (host : Host) (tokens : List JsValue) (notification : JsValue)
    (htargets : ∀ token ∈ tokens, token.isNullish = false) :
    (service.sendBulkPush admin host tokens notification).result =
      .ok (tally
        (tokens.countP fun token => resolvedWithSuccess (settle host
          (service.sendPushNotification admin host (bulkParams token notification))))
        (tokens.length - tokens.countP fun token => resolvedWithSuccess (settle host
          (service.sendPushNotification admin host (bulkParams token notification))))
        tokens.length) := by
  unfold PushNotificationService.sendBulkPush
  dsimp only
  have hany : tokens.any JsValue.isNullish = false := by
    rw [List.any_eq_false]
    intro token htoken
    rw [htargets token htoken]
    exact Bool.false_ne_true
  rw [if_neg (by rw [hany]; exact Bool.false_ne_true),
    takeWhile_of_all _ tokens (fun token htoken => by rw [htargets token htoken]; rfl)]
  rw [bulkTally_of_outcomes]
  · simp only [List.map_map, List.countP_map, List.length_map]
    rfl
  · intro r hr
    simp only [List.map_map, List.mem_map, Function.comp] at hr
    obtain ⟨token, _, rfl⟩ := hr
    obtain ⟨answer, hanswer, hresult⟩ :=
      sendPushNotification_returns service admin host (bulkParams token notification) rfl
    unfold settle
    rw [hanswer]
    exact hresult

/-- An argument that cannot be destructured makes `sendPushNotification` raise,
before its `try` statement. -/
theorem sendPushNotification_of_nullish (service : PushNotificationService)
    (admin : JsObject → Settled) (host : Host) (params : JsValue)
    (h : params.isNullish = true) :
    service.sendPushNotification admin host params = ⟨.error .typeError, []⟩ := by
  unfold PushNotificationService.sendPushNotification
  rw [if_pos h]

/-- A target that cannot be destructured makes `sendBulkPush` raise. -/
theorem sendBulkPush_of_nullish (service : PushNotificationService)
    (admin : JsObject → Settled) (host : Host) (tokens : List JsValue) (notification : JsValue)
    (h : tokens.any JsValue.isNullish = true) :
    (service.sendBulkPush admin host tokens notification).result = .error .typeError := by
  unfold PushNotificationService.sendBulkPush
  dsimp only
  rw [if_pos h]

/-- An argument that cannot be destructured makes both OneSignal senders raise,
whether or not the service is configured. -/
theorem oneSignal_of_nullish (service : OneSignalPushService)
    (fetch : FetchCall → FetchOutcome) (host : Host) (params : JsValue)
    (h : params.isNullish = true) :
    service.sendToUser fetch host params = ⟨.error .typeError, []⟩ ∧
    service.sendToUsers fetch host params = ⟨.error .typeError, []⟩ := by
  unfold OneSignalPushService.sendToUser OneSignalPushService.sendToUsers
  rw [if_pos h, if_pos h]
  exact ⟨rfl, rfl⟩

/-- Claim C24. `PushNotificationService.sendBulkPush` returns
`{ successful, failed, total }` without raising: over any settled sends, each
resolved with a result object or rejected, the tally has `total` the number of
sends, `successful` the number of those resolved with `success = true` and
`failed = total - successful`; for every list of targets (values that can be
destructured) the method returns that tally of its sends, one per target; and
with 3 targets of which 1 fails the result is
`{ successful: 2, failed: 1, total: 3 }`. -/
theorem sendBulkPush_counts (service : PushNotificationService) (admin : JsObject → Settled)
    (host : Host) (tokens : List JsValue) (notification : JsValue)
    (htargets : ∀ token ∈ tokens, token.isNullish = false) :
    (∀ results : List Settled, (∀ r ∈ results, isSendOutcome r = true) →
      bulkTally results = .ok (tally (results.countP resolvedWithSuccess)
        (results.length - results.countP resolvedWithSuccess) results.length)) ∧
    (service.sendBulkPush admin host tokens notification).result =
      .ok (tally
        (tokens.countP fun token => resolvedWithSuccess (settle host
          (service.sendPushNotification admin host (bulkParams token notification))))
        (tokens.length - tokens.countP fun token => resolvedWithSuccess (settle host
          (service.sendPushNotification admin host (bulkParams token notification))))
        tokens.length) ∧
    bulkTally [.fulfilled (record [("success", .bool true), ("sent", .number (JsNumber.ofNat 1))]),
        .rejected .undefined, .fulfilled (softFailure (text "BadDeviceToken"))]
      = .ok (tally 1 2 3) ∧
    (exampleService.sendBulkPush (fun _ => .rejected .undefined) exampleHost
        [exampleTarget "t1", exampleTarget "bad", exampleTarget "t3"]
        (record [("title", text "Hello"), ("body", text "World")])).result
      = .ok (tally 2 1 3) :=
  ⟨bulkTally_of_outcomes, sendBulkPush_of_targets service admin host tokens notification htargets,
    rfl, rfl⟩

theorem sendBulkPush_counts_witness :
    (∀ token ∈ [exampleTarget "t1", exampleTarget "bad", exampleTarget "t3"],
      token.isNullish = false) ∧
    (exampleService.sendBulkPush (fun _ => .rejected .undefined) exampleHost
        [exampleTarget "t1", exampleTarget "bad", exampleTarget "t3"]
        (record [("title", text "Hello"), ("body", text "World")])).result =
      .ok (tally
        (List.countP (fun token => resolvedWithSuccess (settle exampleHost
          (exampleService.sendPushNotification (fun _ => .rejected .undefined) exampleHost
            (bulkParams token (record [("title", text "Hello"), ("body", text "World")])))))
          [exampleTarget "t1", exampleTarget "bad", exampleTarget "t3"])
        (3 - List.countP (fun token => resolvedWithSuccess (settle exampleHost
          (exampleService.sendPushNotification (fun _ => .rejected .undefined) exampleHost
            (bulkParams token (record [("title", text "Hello"), ("body", text "World")])))))
          [exampleTarget "t1", exampleTarget "bad", exampleTarget "t3"])
        3) :=
  ⟨by decide,
    (sendBulkPush_counts exampleService (fun _ => .rejected .undefined) exampleHost
      [exampleTarget "t1", exampleTarget "bad", exampleTarget "t3"]
      (record [("title", text "Hello"), ("body", text "World")]) (by decide)).2.1⟩

theorem restApiKey_absent_iff (service : OneSignalPushService) :
    service.isConfigured = false ↔
      (service.restApiKey = none ∨ service.restApiKey = some []) := by
  unfold OneSignalPushService.isConfigured OneSignalPushService.restApiKeyValue
  cases service.restApiKey with
  | none => simp [JsValue.truthy]
  | some key => cases key <;> simp [JsValue.truthy]

theorem sendPushNotification_of_valid (service : PushNotificationService)
    (admin : JsObject → Settled) (host : Host) (params : JsValue)
    (hparams : params.isNullish = false)
    (htoken : (params.prop (js "deviceToken")).truthy = true)
    (htitle : (params.prop (js "title")).truthy = true)
    (hbody : (params.prop (js "body")).truthy = true) :
    service.sendPushNotification admin host params =
      if (params.prop (js "platform")).strictEqualsString (js "ios") = true then
        delegated host (service.sendApplePush host (params.prop (js "deviceToken"))
          (params.prop (js "title")) (params.prop (js "body"))
          ((params.prop (js "data")).defaultTo (.object []))
          ((params.prop (js "sound")).defaultTo (text "default")) (params.prop (js "badge")))
      else if (params.prop (js "platform")).strictEqualsString (js "android") = true then
        delegated host (service.sendAndroidPush admin (params.prop (js "deviceToken"))
          (params.prop (js "title")) (params.prop (js "body"))
          ((params.prop (js "data")).defaultTo (.object []))
          ((params.prop (js "sound")).defaultTo (text "default")))
      else ⟨.ok (softFailure (text "Invalid platform")), []⟩ := by
  unfold PushNotificationService.sendPushNotification
  rw [if_neg (by simp [hparams])]
  dsimp only
  rw [if_neg (by simp [htoken]), if_neg (by simp [htitle, hbody])]

theorem sendApplePush_not_configured (service : PushNotificationService) (host : Host)
    (deviceToken title body data sound badge : JsValue) (h : service.apnProvider = none) :
    service.sendApplePush host deviceToken title body data sound badge =
      ⟨.ok (softFailure (text "APNs not configured")), []⟩ := by
  unfold PushNotificationService.sendApplePush
  rw [h]

theorem sendAndroidPush_not_configured (service : PushNotificationService)
    (admin : JsObject → Settled) (deviceToken title body data sound : JsValue)
    (h : service.fcmInitialized = false) :
    service.sendAndroidPush admin deviceToken title body data sound =
      ⟨.ok (softFailure (text "FCM not configured")), []⟩ := by
  unfold PushNotificationService.sendAndroidPush
  rw [h]
  rfl

/-- Claim C25. Missing configuration is reported as a returned soft failure,
without any request to a channel.  `OneSignalPushService.isConfigured()` is
false exactly when the REST API key is not set or empty, and then `sendToUser`
and `sendToUsers` return `{ success: false, error: 'OneSignal not configured' }`
for every argument object.  `PushNotificationService.sendApplePush` returns
`{ success: false, error: 'APNs not configured' }` for all its arguments when
there is no APNs provider, and so does `sendPushNotification` for an iOS target
with a device token, a title and a body; likewise `sendAndroidPush` and an
Android target give `{ success: false, error: 'FCM not configured' }` when FCM
was not set up. -/
theorem not_configured_soft_failure (oneSignal : OneSignalPushService)
    (fetch : FetchCall → FetchOutcome) (push : PushNotificationService)
    (admin : JsObject → Settled) (host : Host) (params : JsValue)
    (hparams : params.isNullish = false) :
    (oneSignal.isConfigured = false ↔
      (oneSignal.restApiKey = none ∨ oneSignal.restApiKey = some [])) ∧
    (oneSignal.isConfigured = false →
      oneSignal.sendToUser fetch host params =
        ⟨.ok (softFailure (text "OneSignal not configured")), []⟩ ∧
      oneSignal.sendToUsers fetch host params =
        ⟨.ok (softFailure (text "OneSignal not configured")), []⟩) ∧
    (push.apnProvider = none →
      (∀ deviceToken title body data sound badge,
        push.sendApplePush host deviceToken title body data sound badge =
          ⟨.ok (softFailure (text "APNs not configured")), []⟩) ∧
      ((params.prop (js "deviceToken")).truthy = true →
        (params.prop (js "title")).truthy = true → (params.prop (js "body")).truthy = true →
        params.prop (js "platform") = text "ios" →
        push.sendPushNotification admin host params =
          ⟨.ok (softFailure (text "APNs not configured")), []⟩)) ∧
    (push.fcmInitialized = false →
      (∀ deviceToken title body data sound,
        push.sendAndroidPush admin deviceToken title body data sound =
          ⟨.ok (softFailure (text "FCM not configured")), []⟩) ∧
      ((params.prop (js "deviceToken")).truthy = true →
        (params.prop (js "title")).truthy = true → (params.prop (js "body")).truthy = true →
        params.prop (js "platform") = text "android" →
        push.sendPushNotification admin host params =
          ⟨.ok (softFailure (text "FCM not configured")), []⟩)) := by
  refine ⟨restApiKey_absent_iff oneSignal, ?_, ?_, ?_⟩
  · intro hkey
    unfold OneSignalPushService.isConfigured at hkey
    constructor
    · unfold OneSignalPushService.sendToUser
      rw [if_neg (by simp [hparams])]
      dsimp only
      rw [if_pos (by simp [hkey])]
    · unfold OneSignalPushService.sendToUsers
      rw [if_neg (by simp [hparams])]
      dsimp only
      rw [if_pos (by simp [hkey])]
  · intro hnone
    refine ⟨fun deviceToken title body data sound badge =>
      sendApplePush_not_configured push host deviceToken title body data sound badge hnone, ?_⟩
    intro htoken htitle hbody hplatform
    rw [sendPushNotification_of_valid push admin host params hparams htoken htitle hbody,
      hplatform, if_pos (by decide), sendApplePush_not_configured push host _ _ _ _ _ _ hnone]
    rfl
  · intro hfcm
    refine ⟨fun deviceToken title body data sound =>
      sendAndroidPush_not_configured push admin deviceToken title body data sound hfcm, ?_⟩
    intro htoken htitle hbody hplatform
    rw [sendPushNotification_of_valid push admin host params hparams htoken htitle hbody,
      hplatform, if_neg (by decide), if_pos (by decide),
      sendAndroidPush_not_configured push admin _ _ _ _ _ hfcm]
    rfl

theorem not_configured_soft_failure_witness :
    (JsValue.object [(js "userId", text "u1"), (js "title", text "Hello"),
      (js "body", text "World"), (js "deviceToken", text "t1"),
      (js "platform", text "android")]).isNullish = false ∧
    (OneSignalPushService.create none none).isConfigured = false ∧
    (OneSignalPushService.create none none).sendToUser
        (fun _ => .rejected .undefined) exampleHost
        (.object [(js "userId", text "u1"), (js "title", text "Hello"),
          (js "body", text "World"), (js "deviceToken", text "t1"),
          (js "platform", text "android")]) =
      ⟨.ok (softFailure (text "OneSignal not configured")), []⟩ ∧
    exampleService.fcmInitialized = false ∧
    exampleService.sendPushNotification (fun _ => .rejected .undefined) exampleHost
        (.object [(js "userId", text "u1"), (js "title", text "Hello"),
          (js "body", text "World"), (js "deviceToken", text "t1"),
          (js "platform", text "android")]) =
      ⟨.ok (softFailure (text "FCM not configured")), []⟩ :=
  ⟨rfl, rfl,
    ((not_configured_soft_failure (OneSignalPushService.create none none)
      (fun _ => .rejected .undefined) exampleService (fun _ => .rejected .undefined) exampleHost
      (.object [(js "userId", text "u1"), (js "title", text "Hello"),
        (js "body", text "World"), (js "deviceToken", text "t1"),
        (js "platform", text "android")]) rfl).2.1 rfl).1,
    rfl,
    ((not_configured_soft_failure (OneSignalPushService.create none none)
      (fun _ => .rejected .undefined) exampleService (fun _ => .rejected .undefined) exampleHost
      (.object [(js "userId", text "u1"), (js "title", text "Hello"),
        (js "body", text "World"), (js "deviceToken", text "t1"),
        (js "platform", text "android")]) rfl).2.2.2 rfl).2 rfl rfl rfl rfl⟩

theorem sendApplePush_calls (service : PushNotificationService) (host : Host)
    (deviceToken title body data sound badge : JsValue) :
    ∀ call ∈ (service.sendApplePush host deviceToken title body data sound badge).calls,
      call = .apns (apnsNotification host title body data sound badge) deviceToken := by
  unfold PushNotificationService.sendApplePush
  dsimp only
  repeat' split
  all_goals (intro call hcall)
  all_goals first
    | exact absurd hcall (List.not_mem_nil _)
    | exact List.mem_singleton.mp hcall

theorem sendAndroidPush_calls (service : PushNotificationService)
    (admin : JsObject → Settled) (deviceToken title body data sound : JsValue) :
    ∀ call ∈ (service.sendAndroidPush admin deviceToken title body data sound).calls,
      call = .fcm (fcmMessage deviceToken title body data sound) := by
  unfold PushNotificationService.sendAndroidPush
  dsimp only
  repeat' split
  all_goals (intro call hcall)
  all_goals first
    | exact absurd hcall (List.not_mem_nil _)
    | exact List.mem_singleton.mp hcall

theorem delegated_spec (host : Host) (sent : Dispatched ChannelCall) :
    (delegated host sent).calls = sent.calls ∧
    (∀ answer, sent.result = .ok answer → (delegated host sent).result = .ok answer) ∧
    (∀ e, sent.result = .error e →
      (delegated host sent).result = .ok (softFailure (host.errorMessage e))) := by
  unfold delegated
  cases sent.result with
  | ok answer =>
    exact ⟨rfl, fun a h => (by rw [← h]), fun e h => (by cases h)⟩
  | error e =>
    exact ⟨rfl, fun a h => (by cases h), fun e1 h => (by cases h; rfl)⟩

/-- Claim C26. `PushNotificationService.sendPushNotification`, given an argument
object, never raises and routes by platform after validating: a falsy device
token gives `{ success: false, error: 'No device token' }`; otherwise a falsy
title or body gives `{ success: false, error: 'Title and body required' }`;
otherwise the platform `'ios'` makes it return what `sendApplePush` returns (or
the soft failure of the TypeError that method raises) with requests to APNs
only, the platform `'android'` likewise with `sendAndroidPush` and FCM only, and
every other platform gives `{ success: false, error: 'Invalid platform' }`
without any request. -/
theorem sendPushNotification_routes (service : PushNotificationService)
    (admin : JsObject → Settled) (host : Host) (params : JsValue)
    (hparams : params.isNullish = false) :
    (∃ answer, (service.sendPushNotification admin host params).result = .ok answer) ∧
    ((params.prop (js "deviceToken")).truthy = false →
      service.sendPushNotification admin host params =
        ⟨.ok (softFailure (text "No device token")), []⟩) ∧
    ((params.prop (js "deviceToken")).truthy = true →
      ((params.prop (js "title")).truthy = false ∨ (params.prop (js "body")).truthy = false) →
      service.sendPushNotification admin host params =
        ⟨.ok (softFailure (text "Title and body required")), []⟩) ∧
    ((params.prop (js "deviceToken")).truthy = true →
      (params.prop (js "title")).truthy = true → (params.prop (js "body")).truthy = true →
      (params.prop (js "platform") = text "ios" →
        (service.sendPushNotification admin host params).calls =
          (service.sendApplePush host (params.prop (js "deviceToken"))
            (params.prop (js "title")) (params.prop (js "body"))
            ((params.prop (js "data")).defaultTo (.object []))
            ((params.prop (js "sound")).defaultTo (text "default"))
            (params.prop (js "badge"))).calls ∧
        (∀ call ∈ (service.sendPushNotification admin host params).calls,
          ∃ notification deviceToken, call = .apns notification deviceToken) ∧
        (∀ answer,
          (service.sendApplePush host (params.prop (js "deviceToken"))
            (params.prop (js "title")) (params.prop (js "body"))
            ((params.prop (js "data")).defaultTo (.object []))
            ((params.prop (js "sound")).defaultTo (text "default"))
            (params.prop (js "badge"))).result = .ok answer →
          (service.sendPushNotification admin host params).result = .ok answer) ∧
        (∀ e,
          (service.sendApplePush host (params.prop (js "deviceToken"))
            (params.prop (js "title")) (params.prop (js "body"))
            ((params.prop (js "data")).defaultTo (.object []))
            ((params.prop (js "sound")).defaultTo (text "default"))
            (params.prop (js "badge"))).result = .error e →
          (service.sendPushNotification admin host params).result =
            .ok (softFailure (host.errorMessage e)))) ∧
      (params.prop (js "platform") = text "android" →
        (service.sendPushNotification admin host params).calls =
          (service.sendAndroidPush admin (params.prop (js "deviceToken"))
            (params.prop (js "title")) (params.prop (js "body"))
            ((params.prop (js "data")).defaultTo (.object []))
            ((params.prop (js "sound")).defaultTo (text "default"))).calls ∧
        (∀ call ∈ (service.sendPushNotification admin host params).calls,
          ∃ message, call = .fcm message) ∧
        (∀ answer,
          (service.sendAndroidPush admin (params.prop (js "deviceToken"))
            (params.prop (js "title")) (params.prop (js "body"))
            ((params.prop (js "data")).defaultTo (.object []))
            ((params.prop (js "sound")).defaultTo (text "default"))).result = .ok answer →
          (service.sendPushNotification admin host params).result = .ok answer) ∧
        (∀ e,
          (service.sendAndroidPush admin (params.prop (js "deviceToken"))
            (params.prop (js "title")) (params.prop (js "body"))
            ((params.prop (js "data")).defaultTo (.object []))
            ((params.prop (js "sound")).defaultTo (text "default"))).result = .error e →
          (service.sendPushNotification admin host params).result =
            .ok (softFailure (host.errorMessage e)))) ∧
      (params.prop (js "platform") ≠ text "ios" →
        params.prop (js "platform") ≠ text "android" →
        service.sendPushNotification admin host params =
          ⟨.ok (softFailure (text "Invalid platform")), []⟩)) := by
  refine ⟨?_, ?_, ?_, ?_⟩
  · obtain ⟨answer, hanswer, _⟩ := sendPushNotification_returns service admin host params hparams
    exact ⟨answer, hanswer⟩
  · intro htoken
    unfold PushNotificationService.sendPushNotification
    rw [if_neg (by simp [hparams])]
    dsimp only
    rw [if_pos (by simp [htoken])]
  · intro htoken hmissing
    unfold PushNotificationService.sendPushNotification
    rw [if_neg (by simp [hparams])]
    dsimp only
    rw [if_neg (by simp [htoken]), if_pos (by rcases hmissing with h | h <;> simp [h])]
  · intro htoken htitle hbody
    have hvalid := sendPushNotification_of_valid service admin host params hparams htoken
      htitle hbody
    refine ⟨?_, ?_, ?_⟩
    · intro hplatform
      rw [hplatform, if_pos (by decide)] at hvalid
      rw [hvalid]
      obtain ⟨hcalls, hok, herror⟩ := delegated_spec host
        (service.sendApplePush host (params.prop (js "deviceToken"))
          (params.prop (js "title")) (params.prop (js "body"))
          ((params.prop (js "data")).defaultTo (.object []))
          ((params.prop (js "sound")).defaultTo (text "default")) (params.prop (js "badge")))
      refine ⟨hcalls, ?_, hok, herror⟩
      intro call hcall
      rw [hcalls] at hcall
      exact ⟨_, _, sendApplePush_calls service host _ _ _ _ _ _ call hcall⟩
    · intro hplatform
      rw [hplatform, if_neg (by decide), if_pos (by decide)] at hvalid
      rw [hvalid]
      obtain ⟨hcalls, hok, herror⟩ := delegated_spec host
        (service.sendAndroidPush admin (params.prop (js "deviceToken"))
          (params.prop (js "title")) (params.prop (js "body"))
          ((params.prop (js "data")).defaultTo (.object []))
          ((params.prop (js "sound")).defaultTo (text "default")))
      refine ⟨hcalls, ?_, hok, herror⟩
      intro call hcall
      rw [hcalls] at hcall
      exact ⟨_, sendAndroidPush_calls service admin _ _ _ _ _ call hcall⟩
    · intro hios handroid
      rw [hvalid, if_neg (by rw [strictEqualsString_iff]; exact hios),
        if_neg (by rw [strictEqualsString_iff]; exact handroid)]

theorem sendPushNotification_routes_witness :
    (exampleTarget "t1").isNullish = false ∧
    (exampleTarget "t1").prop (js "deviceToken") = text "t1" ∧
    exampleService.sendPushNotification (fun _ => .rejected .undefined) exampleHost
        (exampleTarget "t1") =
      ⟨.ok (softFailure (text "Title and body required")), []⟩ ∧
    (∃ answer, (exampleService.sendPushNotification (fun _ => .rejected .undefined) exampleHost
        (bulkParams (exampleTarget "t1")
          (record [("title", text "Hello"), ("body", text "World")]))).result = .ok answer) ∧
    (exampleService.sendPushNotification (fun _ => .rejected .undefined) exampleHost
        (bulkParams (exampleTarget "t1")
          (record [("title", text "Hello"), ("body", text "World")]))).result =
      .ok (record [("success", .bool true), ("sent", .number (JsNumber.ofNat 1))]) ∧
    (exampleService.sendPushNotification (fun _ => .rejected .undefined) exampleHost
        (bulkParams (exampleTarget "t1")
          (record [("title", text "Hello"), ("body", text "World")]))).calls =
      [.apns (apnsNotification exampleHost (text "Hello") (text "World") (.object [])
        (text "default") .undefined) (text "t1")] :=
  ⟨rfl, rfl,
    (sendPushNotification_routes exampleService (fun _ => .rejected .undefined) exampleHost
      (exampleTarget "t1") rfl).2.2.1 rfl (Or.inl rfl),
    (sendPushNotification_routes exampleService (fun _ => .rejected .undefined) exampleHost
      (bulkParams (exampleTarget "t1") (record [("title", text "Hello"), ("body", text "World")]))
      rfl).1,
    ((sendPushNotification_routes exampleService (fun _ => .rejected .undefined) exampleHost
      (bulkParams (exampleTarget "t1") (record [("title", text "Hello"), ("body", text "World")]))
      rfl).2.2.2 rfl rfl rfl).1 rfl |>.2.2.1 _ rfl,
    rfl⟩

/-! ## The size limit of an upload, through the route -/

theorem splitAtFirst_length (pattern : JsString) (s before after : JsString)
    (h : splitAtFirst pattern s = some (before, after)) : after.length ≤ s.length := by
  induction s generalizing before with
  | nil =>
    unfold splitAtFirst at h
    split_ifs at h
    cases h
    exact Nat.le_refl _
  | cons u rest ih =>
    unfold splitAtFirst at h
    split_ifs at h with hp
    · cases h
      rw [List.length_drop]
      exact Nat.sub_le _ _
    · cases hrest : splitAtFirst pattern rest with
      | none =>
        rw [hrest] at h
        cases h
      | some parts =>
        rw [hrest] at h
        cases h
        have := ih parts.1 hrest
        rw [List.length_cons]
        omega

theorem matchDataUrl_length {dataUrl mimeType base64Data : JsString}
    (h : matchDataUrl dataUrl = some (mimeType, base64Data)) :
    base64Data.length ≤ dataUrl.length := by
  unfold matchDataUrl at h
  dsimp only at h
  split_ifs at h
  have := splitAtFirst_length _ _ _ _ h
  rw [List.length_drop] at this
  omega

theorem get_length_le_sum (entries : List (JsString × JsValue)) (key s : JsString)
    (h : JsObject.get entries key = some (.string s)) :
    s.length ≤ (entries.map fun e =>
      match e.2 with
      | .string s => s.length
      | _ => 0).sum := by
  induction entries with
  | nil => cases h
  | cons e rest ih =>
    obtain ⟨k, v⟩ := e
    unfold JsObject.get at h
    rw [List.map_cons, List.sum_cons]
    split_ifs at h
    · cases h
      exact Nat.le_add_right _ _
    · exact Nat.le_trans (ih h) (Nat.le_add_left _ _)

theorem prop_length_le (body : JsValue) (key s : JsString)
    (h : body.orEmptyObject.prop key = .string s) : s.length ≤ textLowerBound body := by
  unfold JsValue.orEmptyObject at h
  split_ifs at h
  · cases body with
    | object entries =>
      simp only [JsValue.prop] at h
      cases hget : JsObject.get entries key with
      | none =>
        rw [hget] at h
        cases h
      | some value =>
        rw [hget] at h
        cases h
        exact get_length_le_sum entries key s hget
    | _ => cases h
  · cases h

theorem postUploadProfilePhoto_too_large (host : Host) (db : Collaborator) (body : JsValue)
    (h : (postUploadProfilePhoto host (some db) body).response.status = 413) :
    ∃ dataUrl mimeType base64Data,
      body.orEmptyObject.prop (js "dataUrl") = .string dataUrl ∧
      matchDataUrl dataUrl = some (mimeType, base64Data) ∧
      MAX_FILE_SIZE_BYTES < (host.base64Decode base64Data).length := by
  unfold postUploadProfilePhoto at h
  dsimp only at h
  revert h
  repeat' split
  all_goals intro h
  all_goals first
    | exact ⟨_, _, _, by assumption, by assumption, by assumption⟩
    | exact absurd (show (400 : Nat) = 413 from h) (by decide)
    | exact absurd (show (500 : Nat) = 413 from h) (by decide)
    | exact absurd (show (200 : Nat) = 413 from h) (by decide)

theorem expressJson_ok {request : Request} {body : JsValue}
    (h : expressJson request = .ok body) :
    (request.hasJsonBody = false ∧ body = .object []) ∨
      (request.length ≤ JSON_BODY_LIMIT ∧ request.parsed = .ok body) := by
  unfold expressJson at h
  by_cases hjson : (!request.hasJsonBody) = true
  · rw [if_pos hjson] at h
    cases h
    exact Or.inl ⟨by simpa using hjson, rfl⟩
  · rw [if_neg hjson] at h
    cases hrefused : request.refused with
    | some message =>
      rw [hrefused] at h
      cases h
    | none =>
      rw [hrefused] at h
      dsimp only at h
      by_cases hlimit : JSON_BODY_LIMIT < request.length
      · rw [if_pos hlimit] at h
        cases h
      · rw [if_neg hlimit] at h
        exact Or.inr ⟨Nat.le_of_not_lt hlimit, h⟩

theorem expressJson_too_large {request : Request} (hjson : request.hasJsonBody = true)
    (hlimit : JSON_BODY_LIMIT < request.length) :
    ∃ message, expressJson request = .error message ∧
      (request.refused = none → message = text "request entity too large") := by
  unfold expressJson
  rw [if_neg (by simp [hjson])]
  cases request.refused with
  | some message => exact ⟨message, rfl, fun h => by cases h⟩
  | none =>
    dsimp only
    rw [if_pos hlimit]
    exact ⟨_, rfl, fun _ => rfl⟩

theorem unpaddedHost_decodesBase64 : decodesBase64 unpaddedHost := by
  intro encoded
  show (List.replicate (encoded.length * 3 / 4) 0).length * 4 ≤ encoded.length * 3
  rw [List.length_replicate]
  omega

theorem unpaddedHost_decoded_length (encoded : JsString) :
    (unpaddedHost.base64Decode encoded).length = encoded.length * 3 / 4 := by
  show (List.replicate (encoded.length * 3 / 4) 0).length = encoded.length * 3 / 4
  rw [List.length_replicate]

theorem photoRequest_consistent (length letters : Nat) (h : letters + 24 ≤ length) :
    (photoRequest length letters).consistent := by
  intro body hbody
  have hparsed : (photoRequest length letters).parsed = .ok (.object [(js "userId", text "u1"),
      (js "dataUrl", .string (js "data:image/png;base64," ++ List.replicate letters 0x41))]) :=
    rfl
  rw [hparsed] at hbody
  cases hbody
  have h1 : (js "u1").length = 2 := by decide
  have h2 : (js "data:image/png;base64,").length = 22 := by decide
  show (js "u1").length + ((js "data:image/png;base64," ++ List.replicate letters 0x41).length
    + 0) ≤ length
  rw [List.length_append, List.length_replicate, h1, h2]
  omega

/-- Claim C20. Through the route that the application serves, the size check
of the upload handler never decides: the body parser `express.json` with limit
`'10mb'` stands before the handler, and a data URL that decodes to 10485760
bytes or more takes more than 10485760 bytes of request body.  So no request
is answered 413, and every request with a JSON body whose data URL decodes to
at least 10485760 bytes is answered 500 by the error-handling middleware,
without any upload; in particular a payload of exactly 10485760 decoded bytes
is refused for its size, with the message `request entity too large`. -/
theorem upload_size_limit_unreachable (host : Host) (db : Collaborator) (request : Request)
    (hdecoder : decodesBase64 host) (hrequest : request.consistent) :
    (routeUploadProfilePhoto host (some db) request).response.status ≠ 413 ∧
    (∀ body dataUrl mimeType base64Data,
      request.hasJsonBody = true → request.parsed = .ok body →
      body.orEmptyObject.prop (js "dataUrl") = .string dataUrl →
      matchDataUrl dataUrl = some (mimeType, base64Data) →
      10485760 ≤ (host.base64Decode base64Data).length →
      (routeUploadProfilePhoto host (some db) request).response.status = 500 ∧
      (routeUploadProfilePhoto host (some db) request).calls = [] ∧
      (request.refused = none →
        (routeUploadProfilePhoto host (some db) request).response.body =
          (errorMiddleware (text "request entity too large")).body)) ∧
    (unpaddedHost.base64Decode (List.replicate 13981014 0x41)).length = 10485760 ∧
    (photoRequest 13981100 13981014).consistent ∧
    (routeUploadProfilePhoto unpaddedHost (some (answeringCollaborator .null))
        (photoRequest 13981100 13981014)).response.status = 500 ∧
    (routeUploadProfilePhoto unpaddedHost (some (answeringCollaborator .null))
        (photoRequest 13981100 13981014)).response.body =
      .object [(js "error", text "Internal server error"),
        (js "details", text "request entity too large")] ∧
    (routeUploadProfilePhoto unpaddedHost (some (answeringCollaborator .null))
        (photoRequest 13981100 13981014)).calls = [] := by
  have hlimit : JSON_BODY_LIMIT = 10485760 := rfl
  have hmax : MAX_FILE_SIZE_BYTES = 10485760 := rfl
  refine ⟨?_, ?_, ?_, photoRequest_consistent _ _ (by decide), rfl, rfl, rfl⟩
  · intro h413
    unfold routeUploadProfilePhoto at h413
    cases hparser : expressJson request with
    | error message =>
      rw [hparser] at h413
      exact absurd (show (500 : Nat) = 413 from h413) (by decide)
    | ok body =>
      rw [hparser] at h413
      obtain ⟨dataUrl, mimeType, base64Data, hdata, hmatch, hbig⟩ :=
        postUploadProfilePhoto_too_large host db body h413
      rcases expressJson_ok hparser with ⟨_, hempty⟩ | ⟨hfits, hparsed⟩
      · rw [hempty] at hdata
        cases hdata
      · have h1 := hdecoder base64Data
        have h2 := matchDataUrl_length hmatch
        have h3 := prop_length_le body (js "dataUrl") dataUrl hdata
        have h4 := hrequest body hparsed
        omega
  · intro body dataUrl mimeType base64Data hjson hparsed hdata hmatch hbig
    have h1 := hdecoder base64Data
    have h2 := matchDataUrl_length hmatch
    have h3 := prop_length_le body (js "dataUrl") dataUrl hdata
    have h4 := hrequest body hparsed
    obtain ⟨message, hparser, hmessage⟩ :=
      expressJson_too_large hjson (show JSON_BODY_LIMIT < request.length by omega)
    unfold routeUploadProfilePhoto
    rw [hparser]
    refine ⟨rfl, rfl, fun hnone => ?_⟩
    rw [hmessage hnone]
  · rw [unpaddedHost_decoded_length, List.length_replicate]

theorem upload_size_limit_unreachable_witness :
    decodesBase64 unpaddedHost ∧ (photoRequest 13981100 13981014).consistent ∧
    (routeUploadProfilePhoto unpaddedHost (some (answeringCollaborator .null))
      (photoRequest 13981100 13981014)).response.status ≠ 413 :=
  ⟨unpaddedHost_decodesBase64, photoRequest_consistent _ _ (by decide),
    (upload_size_limit_unreachable unpaddedHost (answeringCollaborator .null)
      (photoRequest 13981100 13981014) unpaddedHost_decodesBase64
      (photoRequest_consistent _ _ (by decide))).1⟩

theorem postUploadProfilePhoto_upload_bytes (host : Host) (db : Collaborator) (body : JsValue)
    (bucket path : JsString) (bytes : List Nat) (contentType : JsValue)
    (hcall : Call.upload bucket path bytes contentType ∈
      (postUploadProfilePhoto host (some db) body).calls) :
    ∃ dataUrl mimeType base64Data,
      body.orEmptyObject.prop (js "dataUrl") = .string dataUrl ∧
      matchDataUrl dataUrl = some (mimeType, base64Data) ∧
      bytes = host.base64Decode base64Data := by
  unfold postUploadProfilePhoto at hcall
  dsimp only at hcall
  revert hcall
  repeat' split
  all_goals (intro hcall)
  all_goals first
    | exact absurd hcall (List.not_mem_nil _)
    | (simp only [List.mem_cons, List.mem_singleton, Call.upload.injEq, reduceCtorEq,
        or_false, List.not_mem_nil] at hcall
       obtain ⟨_, _, hbytes, _⟩ := hcall
       exact ⟨_, _, _, by assumption, by assumption, hbytes⟩)

/-- Through the route, every photo that reaches the storage has at most
7864320 bytes, three quarters of the limit of the body parser. -/
theorem routeUploadProfilePhoto_upload_bytes (host : Host) (db : Collaborator)
    (request : Request) (hdecoder : decodesBase64 host) (hrequest : request.consistent)
    (bucket path : JsString) (bytes : List Nat) (contentType : JsValue)
    (hcall : Call.upload bucket path bytes contentType ∈
      (routeUploadProfilePhoto host (some db) request).calls) :
    bytes.length ≤ 7864320 := by
  have hlimit : JSON_BODY_LIMIT = 10485760 := rfl
  unfold routeUploadProfilePhoto at hcall
  cases hparser : expressJson request with
  | error message =>
    rw [hparser] at hcall
    exact absurd hcall (List.not_mem_nil _)
  | ok body =>
    rw [hparser] at hcall
    obtain ⟨dataUrl, mimeType, base64Data, hdata, hmatch, rfl⟩ :=
      postUploadProfilePhoto_upload_bytes host db body bucket path bytes contentType hcall
    rcases expressJson_ok hparser with ⟨_, hempty⟩ | ⟨hfits, hparsed⟩
    · rw [hempty] at hdata
      cases hdata
    · have h1 := hdecoder base64Data
      have h2 := matchDataUrl_length hmatch
      have h3 := prop_length_le body (js "dataUrl") dataUrl hdata
      have h4 := hrequest body hparsed
      omega

end Dandee
